import Mathlib

/-!
# Session coordinator (UserServer) of the CMPT 276 status service

A shallow embedding of `UserServer.cpp`: the session table, the three HTTP
handlers (`handle_get`, `handle_post`, `handle_put`) and the requests they
send to the Credential Service (AuthServer), the Record Store (BasicServer)
and the notifier (PushServer).

Conventions of the embedding

* A handler is a function of the session table, the incoming message and the
  state of the outside world.  It returns the reply, the new session table,
  the new world and the list of downstream requests it sent, oldest first.
* `do_request` is the only way a handler talks to another server.  It is a
  parameter `net`: given the world and a request it returns the new world
  and either a response or `none` when the call throws (the peer cannot be
  reached).  A throw outside a `try` block leaves the handler without a reply.
* The helpers of `ClientUtils.h` (`build_json_value`, `get_json_object_prop`,
  `parse_friends_list`, `friends_list_to_string`) are not part of the
  sources; the handlers take them as the parameter `cu`.
-/

namespace UserServer

/-! ## HTTP vocabulary -/

/-- Status code of a reply (`web::http::status_code`, an unsigned short). -/
abbrev status_code := Nat

namespace status_codes

abbrev OK : status_code := 200

abbrev BadRequest : status_code := 400

abbrev Forbidden : status_code := 403

abbrev NotFound : status_code := 404

abbrev InternalError : status_code := 500

abbrev NotImplemented : status_code := 501

abbrev ServiceUnavailable : status_code := 503

end status_codes

/-- HTTP methods used by the servers (`web::http::methods`). -/
inductive methods where
  | GET
  | POST
  | PUT
  | DEL
  deriving DecidableEq, Repr

/-- JSON bodies as the handlers see them: the null value `value {}` (no body)
or an object whose fields hold strings. -/
inductive value where
  | null
  | object (fields : List (String × String))
  deriving DecidableEq, Repr

/-- One call of `do_request (http_method, uri_string, req_body)`; the
two-argument overload is the call with `req_body = value {}`. -/
structure Request where
  http_method : methods
  uri_string : String
  req_body : value
  deriving DecidableEq, Repr

/-- Result of `do_request`: `pair<status_code,value>`. -/
abbrev Response := status_code × value

/-- The outside world reached through `do_request`; `none` is a call that
throws. -/
abbrev Net (W : Type) := W → Request → W × Option Response

/-- Friends lists in memory: `friends_list_t`, a vector of (country, name)
pairs. -/
abbrev friends_list_t := List (String × String)

/-- Helpers declared in `ClientUtils.h`, which the handlers call but whose
code is not in the sources. -/
structure ClientUtils where
  build_json_value : String → String → value
  build_json_value_vec : List (String × String) → value
  get_json_object_prop : value → String → String
  parse_friends_list : String → friends_list_t
  friends_list_to_string : friends_list_t → String

/-! ## Constants of `UserServer.cpp` -/

abbrev auth_addr : String := "http://localhost:34570/"

abbrev push_addr : String := "http://localhost:34574/"

abbrev addr : String := "http://localhost:34568/"

abbrev sign_on : String := "SignOn"

abbrev sign_off : String := "SignOff"

abbrev add_friend : String := "AddFriend"

abbrev un_friend : String := "UnFriend"

abbrev update_status : String := "UpdateStatus"

abbrev push_status : String := "PushStatus"

abbrev read_friend_list : String := "ReadFriendList"

abbrev data_table_name : String := "DataTable"

abbrev auth_table_password_prop : String := "Password"

abbrev get_update_data_op : String := "GetUpdateData"

abbrev read_entity_auth : String := "ReadEntityAuth"

abbrev update_entity_auth : String := "UpdateEntityAuth"

/-! ## Messages, session table, handler results -/

/-- The parts of an incoming `http_request` the handlers read:
`paths = uri::split_path (uri::decode (message.relative_uri ().path ()))` and
`json_body = get_json_body (message)` (empty when there is no JSON body). -/
structure http_request where
  paths : List String
  json_body : List (String × String)
  deriving DecidableEq, Repr

/-- Value of `unordered_map<string,string>::operator[]` as the handlers use
it: the mapped string, or the empty string for an absent key. -/
def json_index (json_body : List (String × String)) (key : String) : String :=
  (json_body.lookup key).getD ""

/-- A session entry `tuple<string,string,string>`: (token, partition, row). -/
abbrev SessionData := String × String × String

/-- The global `session` map, `unordered_map<string,tuple<...>>`, as the
sequence of its entries in iteration order. -/
abbrev Session := List (String × SessionData)

/-- A session table is well formed when no key occurs twice, as in every
`unordered_map`. -/
def Session.wf (session : Session) : Prop :=
  (session.map Prod.fst).Nodup

instance (session : Session) : Decidable session.wf :=
  inferInstanceAs (Decidable (List.Nodup _))

/-- The loop `for (it = session.begin (); it != session.end ();)` that stops
at the first entry with `it->first == uid`: the data of that entry, if any. -/
def session_find (uid : String) : Session → Option SessionData
  | [] => none
  | it :: rest => if it.1 = uid then some it.2 else session_find uid rest

/-- The SignOff loop: `session.erase (it)` at the first entry with
`it->first == uid`; `none` when the loop ends without a match. -/
def session_erase (uid : String) : Session → Option Session
  | [] => none
  | it :: rest =>
    if it.1 = uid then some rest
    else (session_erase uid rest).map (fun s => it :: s)

/-- Semantics of `session.insert ({uid, data})`: a new entry unless the key is
already present. -/
def session_insert (session : Session) (uid : String) (data : SessionData) : Session :=
  if (session_find uid session).isSome then session else session ++ [(uid, data)]

/-- Progress of a handler: the world and the requests sent so far. -/
structure Run (W : Type) where
  world : W
  sent : List Request

/-- What a handler did: its reply (`none` when an exception left the handler
before any `message.reply`), the session table afterwards, the world
afterwards and the downstream requests it sent, oldest first. -/
structure Outcome (W : Type) where
  reply : Option (status_code × value)
  session : Session
  world : W
  sent : List Request

/-- One `do_request` call, recorded in the trace. -/
def Run.call {W : Type} (net : Net W) (st : Run W) (req : Request) :
    Run W × Option Response :=
  let r := net st.world req
  ({ world := r.1, sent := st.sent ++ [req] }, r.2)

/-- Handler exit through `message.reply (code)`. -/
def Run.reply {W : Type} (st : Run W) (session : Session) (code : status_code) :
    Outcome W :=
  { reply := some (code, value.null), session := session, world := st.world, sent := st.sent }

/-- Handler exit through `message.reply (code, body)`. -/
def Run.reply_body {W : Type} (st : Run W) (session : Session) (code : status_code)
    (body : value) : Outcome W :=
  { reply := some (code, body), session := session, world := st.world, sent := st.sent }

/-- Handler left by an exception of `do_request`: no reply is sent. -/
def Run.thrown {W : Type} (st : Run W) (session : Session) : Outcome W :=
  { reply := none, session := session, world := st.world, sent := st.sent }

/-! ## `get_update_data` and `handle_post` -/

/-- URI of the token-scoped read of one record:
`addr + read_entity_auth + "/" + data_table_name + "/" + token + "/" + partition + "/" + row`. -/
def read_entity_auth_uri (token partition row : String) : String :=
  addr ++ read_entity_auth ++ "/" ++ data_table_name ++ "/" ++ token ++ "/" ++ partition
    ++ "/" ++ row

/-- URI of the token-scoped update of one record:
`addr + update_entity_auth + "/" + data_table_name + "/" + token + "/" + partition + "/" + row`. -/
def update_entity_auth_uri (token partition row : String) : String :=
  addr ++ update_entity_auth ++ "/" ++ data_table_name ++ "/" ++ token ++ "/" ++ partition
    ++ "/" ++ row

/-- The request `get_update_data (auth_addr, userid, password)` sends:
GET `auth_addr + get_update_data_op + "/" + userid` with the body
`build_json_value ({{"Password", password}})`. -/
def get_update_data_request (cu : ClientUtils) (userid password : String) : Request :=
  ⟨methods.GET, auth_addr ++ get_update_data_op ++ "/" ++ userid,
    cu.build_json_value_vec [("Password", password)]⟩

/-- `get_update_data (addr, userid, password)`: GET `GetUpdateData/<userid>`
with the password as JSON body; the body of a non-OK result is dropped. -/
def get_update_data {W : Type} (cu : ClientUtils) (net : Net W) (st : Run W)
    (addr userid password : String) : Run W × Option Response :=
  let pwd := cu.build_json_value_vec [("Password", password)]
  match st.call net ⟨methods.GET, addr ++ get_update_data_op ++ "/" ++ userid, pwd⟩ with
  | (st1, none) => (st1, none)
  | (st1, some result) =>
    if result.1 ≠ status_codes.OK then (st1, some (result.1, value.null))
    else (st1, some (result.1, result.2))

/-- `handle_post`: SignOn and SignOff. -/
def handle_post {W : Type} (cu : ClientUtils) (net : Net W) (session : Session)
    (message : http_request) (w : W) : Outcome W :=
  let st : Run W := { world := w, sent := [] }
  match message.paths with
  | [op, uid] =>
    if op = sign_on then
      if message.json_body.length < 1 then st.reply session status_codes.NotFound
      else
        let pass := json_index message.json_body auth_table_password_prop
        match get_update_data cu net st auth_addr uid pass with
        | (st1, none) => st1.thrown session
        | (st1, some token_res) =>
          if token_res.1 ≠ status_codes.OK then st1.reply session status_codes.NotFound
          else
            match (if session.length > 0 then session_find uid session else none) with
            | some _ => st1.reply session status_codes.OK
            | none =>
              let DataRow_val := cu.get_json_object_prop token_res.2 "DataRow"
              let DataPartition_val := cu.get_json_object_prop token_res.2 "DataPartition"
              let token_val := cu.get_json_object_prop token_res.2 "token"
              match st1.call net ⟨methods.GET,
                  read_entity_auth_uri token_val DataPartition_val DataRow_val, value.null⟩ with
              | (st2, none) => st2.thrown session
              | (st2, some result) =>
                if status_codes.OK = result.1 then
                  st2.reply (session_insert session uid (token_val, DataPartition_val, DataRow_val))
                    status_codes.OK
                else st2.reply session status_codes.NotFound
    else if op = sign_off then
      match session_erase uid session with
      | some session1 => st.reply session1 status_codes.OK
      | none => st.reply session status_codes.NotFound
    else st.reply session status_codes.BadRequest
  | _ => st.reply session status_codes.NotFound

/-! ## `handle_get` -/

/-- `handle_get`: ReadFriendList. -/
def handle_get {W : Type} (cu : ClientUtils) (net : Net W) (session : Session)
    (message : http_request) (w : W) : Outcome W :=
  let st : Run W := { world := w, sent := [] }
  match message.paths with
  | [] => st.reply session status_codes.BadRequest
  | op :: rest =>
    if op = read_friend_list then
      match rest with
      | [] => st.reply session status_codes.BadRequest
      | uid :: _ =>
        if session.length > 0 then
          match session_find uid session with
          | some (token, partition, row) =>
            match st.call net ⟨methods.GET, read_entity_auth_uri token partition row,
                value.null⟩ with
            | (st1, none) => st1.thrown session
            | (st1, some result) =>
              if result.1 ≠ status_codes.OK then st1.reply session status_codes.NotFound
              else
                let friendslist := cu.get_json_object_prop result.2 "Friends"
                let body := cu.build_json_value "Friends" friendslist
                st1.reply_body session status_codes.OK body
          | none => st.reply session status_codes.Forbidden
        else st.reply session status_codes.Forbidden
    else st.reply session status_codes.BadRequest

/-! ## `handle_put` -/

/-- The AddFriend loop `for (i = 0; i < friendslist_vec.size (); i++)` looking
for an element with `first == country && second == name`. -/
def in_friends_list (country name : String) : friends_list_t → Bool
  | [] => false
  | f :: rest =>
    if f.1 = country ∧ f.2 = name then true else in_friends_list country name rest

/-- The UnFriend loop: `friendslist_vec.erase (begin () + i); break;` at the
first element with `first == country && second == name`. -/
def erase_friend (country name : String) : friends_list_t → friends_list_t
  | [] => []
  | f :: rest =>
    if f.1 = country ∧ f.2 = name then rest else f :: erase_friend country name rest

/-- AddFriend once the session entry (token, partition, row) of the user is
found. -/
def put_add_friend {W : Type} (cu : ClientUtils) (net : Net W) (session : Session)
    (st : Run W) (token partition row add_country add_name : String) : Outcome W :=
  match st.call net ⟨methods.GET, read_entity_auth_uri token partition row, value.null⟩ with
  | (st1, none) => st1.thrown session
  | (st1, some get_entity) =>
    if get_entity.1 ≠ status_codes.OK then st1.reply session status_codes.NotFound
    else
      let friendslist := cu.get_json_object_prop get_entity.2 "Friends"
      let friendslist_vec := cu.parse_friends_list friendslist
      if in_friends_list add_country add_name friendslist_vec then
        st1.reply session status_codes.OK
      else
        let friendslist_vec := friendslist_vec ++ [(add_country, add_name)]
        let friendslist := cu.friends_list_to_string friendslist_vec
        let val := cu.build_json_value "Friends" friendslist
        match st1.call net ⟨methods.PUT, update_entity_auth_uri token partition row, val⟩ with
        | (st2, none) => st2.thrown session
        | (st2, some merge_friend) =>
          if merge_friend.1 ≠ status_codes.OK then st2.reply session status_codes.NotFound
          else st2.reply session status_codes.OK

/-- UnFriend once the session entry (token, partition, row) of the user is
found. -/
def put_un_friend {W : Type} (cu : ClientUtils) (net : Net W) (session : Session)
    (st : Run W) (token partition row rm_country rm_name : String) : Outcome W :=
  match st.call net ⟨methods.GET, read_entity_auth_uri token partition row, value.null⟩ with
  | (st1, none) => st1.thrown session
  | (st1, some get_entity) =>
    if get_entity.1 ≠ status_codes.OK then st1.reply session status_codes.NotFound
    else
      let friendslist := cu.get_json_object_prop get_entity.2 "Friends"
      let friendslist_vec := cu.parse_friends_list friendslist
      let friendslist_vec := erase_friend rm_country rm_name friendslist_vec
      let friendslist := cu.friends_list_to_string friendslist_vec
      let val := cu.build_json_value "Friends" friendslist
      match st1.call net ⟨methods.PUT, update_entity_auth_uri token partition row, val⟩ with
      | (st2, none) => st2.thrown session
      | (st2, some delete_friend) =>
        if delete_friend.1 ≠ status_codes.OK then st2.reply session status_codes.NotFound
        else st2.reply session status_codes.OK

/-- UpdateStatus once the session entry (token, partition, row) of the user is
found; `status` is `paths[2]`.  Only the notifier call sits in the `try`
block: a throw there is answered with ServiceUnavailable. -/
def put_update_status {W : Type} (cu : ClientUtils) (net : Net W) (session : Session)
    (st : Run W) (uid token partition row status : String) : Outcome W :=
  match st.call net ⟨methods.GET, read_entity_auth_uri token partition row, value.null⟩ with
  | (st1, none) => st1.thrown session
  | (st1, some get_entity) =>
    if get_entity.1 ≠ status_codes.OK then st1.reply session status_codes.NotFound
    else
      let val := cu.build_json_value "Status" status
      let friendslist := cu.get_json_object_prop get_entity.2 "Friends"
      let flist := cu.build_json_value "Friends" friendslist
      match st1.call net ⟨methods.PUT, update_entity_auth_uri token partition row, val⟩ with
      | (st2, none) => st2.thrown session
      | (st2, some statusupdate) =>
        if statusupdate.1 ≠ status_codes.OK then st2.reply session status_codes.NotFound
        else
          match st2.call net ⟨methods.POST,
              push_addr ++ push_status ++ "/" ++ partition ++ "/" ++ uid ++ "/" ++ status,
              flist⟩ with
          | (st3, none) => st3.reply session status_codes.ServiceUnavailable
          | (st3, some pushed) =>
            if pushed.1 ≠ status_codes.OK ∧ pushed.1 ≠ status_codes.ServiceUnavailable then
              st3.reply session status_codes.NotFound
            else if pushed.1 = status_codes.ServiceUnavailable then
              st3.reply session status_codes.ServiceUnavailable
            else st3.reply session status_codes.OK

/-- `handle_put`: AddFriend, UnFriend and UpdateStatus. -/
def handle_put {W : Type} (cu : ClientUtils) (net : Net W) (session : Session)
    (message : http_request) (w : W) : Outcome W :=
  let st : Run W := { world := w, sent := [] }
  match message.paths with
  | op :: uid :: p2 :: rest =>
    if op = add_friend then
      match rest with
      | [] => st.reply session status_codes.BadRequest
      | p3 :: _ =>
        if session.length > 0 then
          match session_find uid session with
          | some (token, partition, row) =>
            put_add_friend cu net session st token partition row p2 p3
          | none => st.reply session status_codes.Forbidden
        else st.reply session status_codes.Forbidden
    else if op = un_friend then
      match rest with
      | [] => st.reply session status_codes.BadRequest
      | p3 :: _ =>
        if session.length > 0 then
          match session_find uid session with
          | some (token, partition, row) =>
            put_un_friend cu net session st token partition row p2 p3
          | none => st.reply session status_codes.Forbidden
        else st.reply session status_codes.Forbidden
    else if op = update_status then
      if session.length > 0 then
        match session_find uid session with
        | some (token, partition, row) =>
          put_update_status cu net session st uid token partition row p2
        | none => st.reply session status_codes.Forbidden
      else st.reply session status_codes.Forbidden
    else st.reply session status_codes.BadRequest
  | _ => st.reply session status_codes.BadRequest

/-! ## Concrete helpers and worlds on which the handlers can be run -/

/-- Cut a character sequence at the first `sep`: the part before it and the
part after it (both empty parts allowed; no `sep` gives an empty second part). -/
def split_first (sep : Char) : List Char → List Char × List Char
  | [] => ([], [])
  | c :: cs =>
    if c = sep then ([], cs)
    else ((c :: (split_first sep cs).1), (split_first sep cs).2)

/-- Cut a character sequence at every `sep`. -/
def split_all (sep : Char) : List Char → List (List Char)
  | [] => [[]]
  | c :: cs =>
    if c = sep then [] :: split_all sep cs
    else
      match split_all sep cs with
      | [] => [[c]]
      | item :: items => (c :: item) :: items

/-- Modelled from the spec: `parse_friends_list` of ClientUtils, whose code is
not in the sources.  Section 4.5: pairs are separated by one reserved
character and the two parts of a pair by a second one; decoding splits on
both and yields the empty list for the empty string.  The delimiters `|` and
`;` are those of the strings the tests in `tester.cpp` expect. -/
def parse_friends_list (friends_list : String) : friends_list_t :=
  if friends_list.data = [] then []
  else
    (split_all '|' friends_list.data).map
      (fun item => (String.mk (split_first ';' item).1, String.mk (split_first ';' item).2))

/-- Modelled from the spec: `friends_list_to_string` of ClientUtils, whose code
is not in the sources.  Section 4.5: the inverse of decoding, `country;name`
pairs joined by `|`. -/
def friends_list_to_string : friends_list_t → String
  | [] => ""
  | [f] => f.1 ++ ";" ++ f.2
  | f :: g :: rest => f.1 ++ ";" ++ f.2 ++ "|" ++ friends_list_to_string (g :: rest)

/-- Modelled from the spec: `get_json_object_prop` of ClientUtils, whose code is
not in the sources: the string held by the named field of a JSON object, the
empty string when there is none. -/
def get_json_object_prop (v : value) (prop : String) : String :=
  match v with
  | value.null => ""
  | value.object fields => (fields.lookup prop).getD ""

/-- Modelled from the spec: the helpers of ClientUtils, whose code is not in
the sources, gathered for running the handlers: `build_json_value` makes the
JSON object of the given string fields (the tests expect
`{"Friends":"..."}` as the serialised body of ReadFriendList). -/
def clientUtils : ClientUtils where
  build_json_value := fun name val => value.object [(name, val)]
  build_json_value_vec := fun props => value.object props
  get_json_object_prop := get_json_object_prop
  parse_friends_list := parse_friends_list
  friends_list_to_string := friends_list_to_string

/-- A world that answers the requests it receives from a fixed script, one
entry per request in order (`none` is a call that throws, as is any call
after the script has run out). -/
def scripted : Net (List (Option Response))
  | [], _ => ([], none)
  | r :: rest, _ => (rest, r)

/-- A Credential Service holding one credential record: GetUpdateData for
`userid` with the stored `password` is answered 200 with the token and the
home location, every other request NotFound. -/
def credential_world (userid password token partition row : String) : Net Unit :=
  fun w req =>
    if req = ⟨methods.GET, auth_addr ++ get_update_data_op ++ "/" ++ userid,
        value.object [("Password", password)]⟩ then
      (w, some (status_codes.OK,
        value.object [("token", token), ("DataPartition", partition), ("DataRow", row)]))
    else (w, some (status_codes.NotFound, value.null))

end UserServer

/-! # Notifier (PushServer)

A shallow embedding of `handle_post` of `PushServer.cpp`, with the same
conventions: `net` is `do_request`, `cu` the helpers of `ClientUtils.h`. -/

namespace PushServer

open UserServer hiding addr data_table_name push_status Outcome handle_post

/-! ## Constants of `PushServer.cpp` -/

abbrev addr : String := "http://localhost:34568/"

abbrev data_table_name : String := "DataTable"

abbrev read_entity_admin : String := "ReadEntityAdmin"

abbrev update_entity_admin : String := "UpdateEntityAdmin"

abbrev push_status : String := "PushStatus"

/-- What `handle_post` did: its reply (`none` when an exception of
`do_request` left the handler before `message.reply`), the world afterwards
and the requests it sent, oldest first. -/
structure Outcome (W : Type) where
  reply : Option (status_code × value)
  world : W
  sent : List Request

/-- The administrative read of one friend record:
`GET addr + read_entity_admin + "/" + data_table_name + "/" + first + "/" + second`. -/
def read_request (f : String × String) : Request :=
  ⟨methods.GET, addr ++ read_entity_admin ++ "/" ++ data_table_name ++ "/" ++ f.1 ++ "/" ++ f.2,
    value.null⟩

/-- The administrative write-back to one friend record:
`PUT addr + update_entity_admin + "/" + data_table_name + "/" + first + "/" + second`
with the body `build_json_value ("Updates", updatelist)`. -/
def update_request (cu : ClientUtils) (f : String × String) (updatelist : String) : Request :=
  ⟨methods.PUT,
    addr ++ update_entity_admin ++ "/" ++ data_table_name ++ "/" ++ f.1 ++ "/" ++ f.2,
    cu.build_json_value "Updates" updatelist⟩

/-- The loop `for (int i = 0; i < friendslist_vec.size (); i++)` of
`handle_post`; `status` is `paths[3]`.  The statuses of the two requests are
not looked at.  The flag is `false` when a `do_request` threw, which ends the
loop and the handler. -/
def push_friends {W : Type} (cu : ClientUtils) (net : Net W) (status : String) :
    friends_list_t → Run W → Run W × Bool
  | [], st => (st, true)
  | f :: rest, st =>
    match st.call net (read_request f) with
    | (st1, none) => (st1, false)
    | (st1, some get_entity) =>
      let updatelist := cu.get_json_object_prop get_entity.2 "Updates"
      let updatelist := updatelist ++ status
      let updatelist := updatelist ++ "\n"
      match st1.call net (update_request cu f updatelist) with
      | (st2, none) => (st2, false)
      | (st2, some _) => push_friends cu net status rest st2

/-- `handle_post` of PushServer.  The result is `none` when `paths[0]` is read
on an empty vector, which has no defined behaviour. -/
def handle_post {W : Type} (cu : ClientUtils) (net : Net W) (message : http_request)
    (w : W) : Option (Outcome W) :=
  match message.paths with
  | [] => none
  | op :: _ =>
    if op = push_status then
      match message.paths with
      | _ :: _ :: _ :: status :: _ =>
        let friendslist := json_index message.json_body "Friends"
        let friendslist_vec := cu.parse_friends_list friendslist
        match push_friends cu net status friendslist_vec { world := w, sent := [] } with
        | (st, true) =>
          some { reply := some (status_codes.OK, value.null), world := st.world, sent := st.sent }
        | (st, false) => some { reply := none, world := st.world, sent := st.sent }
      | _ => some { reply := some (status_codes.BadRequest, value.null), world := w, sent := [] }
    else some { reply := some (status_codes.BadRequest, value.null), world := w, sent := [] }

/-- The answers the world gives to a sequence of requests sent one after the
other, starting in world `w`. -/
def replay {W : Type} (net : Net W) : W → List Request → List (Option Response)
  | _, [] => []
  | w, q :: qs => (net w q).2 :: replay net (net w q).1 qs

/-- A world that answers every request: from a script while it lasts, one
entry per request, and with `default` afterwards. -/
def answering (default : Response) : Net (List Response)
  | [], _ => ([], some default)
  | r :: rest, _ => (rest, some r)

end PushServer

/-! # Credential Service (AuthServer)

A shallow embedding of `get_string_properties`, `do_get_token` and
`handle_get` of `AuthServer.cpp`.  The storage account is a value: the tables
that exist with their entities.  The Azure call that signs a token,
`cloud_table::get_shared_access_signature`, and the two permission constants
are the parameter `sdk`; the current time `utility::datetime::utc_now ()` is
the parameter `now`, in the 100 ns ticks of `utility::datetime`. -/

namespace AuthServer

open UserServer hiding value addr data_table_name auth_table_password_prop get_update_data_op
  Outcome handle_get handle_post handle_put

/-! ## Constants of `AuthServer.cpp` -/

abbrev auth_table_name : String := "AuthTable"

abbrev auth_table_userid_partition : String := "Userid"

abbrev auth_table_password_prop : String := "Password"

abbrev auth_table_partition_prop : String := "DataPartition"

abbrev auth_table_row_prop : String := "DataRow"

abbrev data_table_name : String := "DataTable"

abbrev get_read_token_op : String := "GetReadToken"

abbrev get_update_token_op : String := "GetUpdateToken"

abbrev get_update_data_op : String := "GetUpdateData"

/-! ## Storage -/

/-- A property of an entity as `get_string_properties` looks at it: of type
`edm_type::string` with its `string_value ()`, or of another type with its
`str ()` rendering. -/
inductive entity_property where
  | string (string_value : String)
  | other (str : String)
  deriving DecidableEq, Repr

/-- A table entity: its keys and its properties, the latter in the order in
which iterating `table_entity::properties_type` (an unordered map) visits
them. -/
structure table_entity where
  partition_key : String
  row_key : String
  properties : List (String × entity_property)
  deriving DecidableEq, Repr

/-- The storage account: the tables that exist, by name, with their
entities. -/
abbrev Storage := List (String × List table_entity)

/-- Result of `table.execute (table_operation::retrieve_entity (partition, row))`
on an existing table: the entity with these keys, if any (`none` is the result
with `http_status_code ()` NotFound). -/
def retrieve_entity (table : List table_entity) (partition row : String) :
    Option table_entity :=
  table.find? (fun e => e.partition_key = partition ∧ e.row_key = row)

/-- `prop_str_vals_t`: a vector of (name, value) string pairs. -/
abbrev prop_str_vals_t := List (String × String)

/-- `get_string_properties`: the properties as string pairs, in iteration
order. -/
def get_string_properties (properties : List (String × entity_property)) : prop_str_vals_t :=
  properties.map (fun v =>
    match v.2 with
    | entity_property.string string_value => (v.1, string_value)
    | entity_property.other str => (v.1, str))

/-! ## Tokens -/

/-- The arguments of one call of `cloud_table::get_shared_access_signature`:
the table, the policy (expiry time and permissions), the name of a stored
policy, and the first and last (partition, row) of the range the token
covers, both inclusive. -/
structure shared_access_request where
  table : String
  expiry : Nat
  permissions : Nat
  policy_name : String
  start_partition_key : String
  start_row_key : String
  end_partition_key : String
  end_row_key : String
  deriving DecidableEq, Repr

/-- The parts of the Azure storage library `do_get_token` and `handle_get` use:
the permission constants `table_shared_access_policy::permissions::read` and
`::update`, and the signing call, which returns the token or throws a
`storage_exception` (`none`). -/
structure Sdk where
  read : Nat
  update : Nat
  get_shared_access_signature : shared_access_request → Option String

/-- `utility::datetime::from_days (days)`: a number of days in 100 ns ticks. -/
def from_days (days : Nat) : Nat :=
  days * 864000000000

/-- `do_get_token`: sign a token for the single entity (partition, row) of
`data_table`, expiring one day from `now` (64-bit tick arithmetic).  Returns
the status and the token, and the signing request it made. -/
def do_get_token (sdk : Sdk) (now : Nat) (data_table partition row : String)
    (permissions : Nat) : (status_code × String) × shared_access_request :=
  let exptime := (now + from_days 1) % 2 ^ 64
  let request : shared_access_request :=
    { table := data_table, expiry := exptime, permissions := permissions, policy_name := "",
      start_partition_key := partition, start_row_key := row,
      end_partition_key := partition, end_row_key := row }
  match sdk.get_shared_access_signature request with
  | some limited_access_token => ((status_codes.OK, limited_access_token), request)
  | none => ((status_codes.InternalError, ""), request)

/-! ## `handle_get` -/

/-- Reply bodies of AuthServer: none, a JSON string, or a JSON object of
string fields. -/
inductive value where
  | null
  | string (s : String)
  | object (fields : List (String × String))
  deriving DecidableEq, Repr

/-- What `handle_get` did: its one reply and the signing requests it made. -/
structure Outcome where
  reply : status_code × value
  signed : List shared_access_request
  deriving DecidableEq, Repr

/-- Handler exit through `message.reply (code)` before any token is signed. -/
def reply (code : status_code) : Option Outcome :=
  some { reply := (code, value.null), signed := [] }

/-- `handle_get` of AuthServer: GetReadToken, GetUpdateToken and GetUpdateData.
The result is `none` when `values[0]` is read on an empty vector, which has no
defined behaviour.  `permission` is a `uint8_t`; it is `none` on the path that
replies NotFound for an unknown operation before a value is chosen. -/
def handle_get (sdk : Sdk) (now : Nat) (storage : Storage) (message : http_request) :
    Option Outcome :=
  match message.paths with
  | op :: userid :: _ =>
    match storage.lookup auth_table_name with
    | none => reply status_codes.NotFound
    | some table =>
      match retrieve_entity table auth_table_userid_partition userid with
      | none => reply status_codes.NotFound
      | some entity =>
        let values := get_string_properties entity.properties
        match values with
        | [] => none
        | v0 :: _ =>
          if json_index message.json_body auth_table_password_prop ≠ v0.2 then
            reply status_codes.NotFound
          else
            match storage.lookup data_table_name with
            | none => reply status_codes.NotFound
            | some _ =>
              match values with
              | _ :: v1 :: v2 :: _ =>
                let partition := v2.2
                let row := v1.2
                let permission : Option Nat :=
                  if get_update_token_op = op ∨ get_update_data_op = op then
                    some ((sdk.read ||| sdk.update) % 256)
                  else if get_read_token_op = op then some (sdk.read % 256)
                  else none
                match permission with
                | none => reply status_codes.NotFound
                | some permission =>
                  let token := do_get_token sdk now data_table_name partition row permission
                  if op = get_update_data_op then
                    some {
                      reply := (status_codes.OK, value.object
                        [("token", token.1.2), ("DataPartition", partition), ("DataRow", row)]),
                      signed := [token.2] }
                  else if token.1.1 = status_codes.OK then
                    some { reply := (status_codes.OK, value.string token.1.2), signed := [token.2] }
                  else some { reply := (status_codes.NotFound, value.null), signed := [token.2] }
              | _ => reply status_codes.BadRequest
  | _ => reply status_codes.BadRequest

/-- A signing service on which `handle_get` can be run: read is 1, update is
32, and the token of a request spells out its range and whether it allows
more than reading. -/
def plain_sdk : Sdk where
  read := 1
  update := 32
  get_shared_access_signature := fun request =>
    some ("sig=" ++ request.start_partition_key ++ "/" ++ request.start_row_key ++ ".."
      ++ request.end_partition_key ++ "/" ++ request.end_row_key
      ++ (if request.permissions = 1 then ";sp=r" else ";sp=ru"))

/-- A signing service whose signing call throws a `storage_exception` for every
request; read is 1 and update is 32. -/
def throwing_sdk : Sdk where
  read := 1
  update := 32
  get_shared_access_signature := fun _ => none

end AuthServer

/-! # Record Store (BasicServer)

A shallow embedding of `get_properties`, `handle_get` and `handle_put` of
`BasicServer.cpp`.  The storage account is a value: the tables that exist
with their entities.  A handler returns every `message.reply` call it makes,
in order.  `read_with_token` and `update_with_token` of `ServerUtils.h` are
not part of the sources; the handlers take them as the parameter `su`. -/

namespace BasicServer

open UserServer hiding value addr Outcome handle_get handle_post handle_put
  parse_friends_list friends_list_to_string get_json_object_prop

/-! ## Constants of `BasicServer.cpp` -/

abbrev read_entity : String := "ReadEntityAdmin"

abbrev update_entity : String := "UpdateEntityAdmin"

abbrev read_auth : String := "ReadEntityAuth"

abbrev update_auth : String := "UpdateEntityAuth"

abbrev add_property : String := "AddPropertyAdmin"

abbrev update_property : String := "UpdatePropertyAdmin"

/-! ## Storage and JSON -/

/-- A property of an entity with the `edm_type` cases `get_properties`
distinguishes; a double is kept as its decimal rendering. -/
inductive entity_property where
  | string (string_value : String)
  | datetime (str : String)
  | int32 (int32_value : Int)
  | int64 (int64_value : Int)
  | double_floating_point (double_value : String)
  | boolean (boolean_value : Bool)
  | other (str : String)
  deriving DecidableEq, Repr

/-- A table entity: its keys and its properties, the latter in the order in
which iterating `table_entity::properties_type` visits them. -/
structure table_entity where
  partition_key : String
  row_key : String
  properties : List (String × entity_property)
  deriving DecidableEq, Repr

/-- The storage account: the tables that exist, by name, with their
entities. -/
abbrev Storage := List (String × List table_entity)

/-- JSON values that stand for one property: `value::string`, `value::number`
(of an integer or of a double) and `value::boolean`. -/
inductive scalar where
  | string (s : String)
  | number (n : Int)
  | number_double (d : String)
  | boolean (b : Bool)
  deriving DecidableEq, Repr

/-- `prop_vals_t`: a vector of (name, JSON value) pairs. -/
abbrev prop_vals_t := List (String × scalar)

/-- Reply bodies of BasicServer: none, `value::object (props)` or
`value::array` of such objects. -/
inductive value where
  | null
  | object (props : prop_vals_t)
  | array (elements : List prop_vals_t)
  deriving DecidableEq, Repr

/-- `get_properties (properties, values)`: the properties as JSON values,
pushed after `values` in iteration order. -/
def get_properties (properties : List (String × entity_property)) (values : prop_vals_t) :
    prop_vals_t :=
  values ++ properties.map (fun v =>
    match v.2 with
    | entity_property.string string_value => (v.1, scalar.string string_value)
    | entity_property.datetime str => (v.1, scalar.string str)
    | entity_property.int32 int32_value => (v.1, scalar.number int32_value)
    | entity_property.int64 int64_value => (v.1, scalar.number int64_value)
    | entity_property.double_floating_point double_value => (v.1, scalar.number_double double_value)
    | entity_property.boolean boolean_value => (v.1, scalar.boolean boolean_value)
    | entity_property.other str => (v.1, scalar.string str))

/-- Result of `table.execute (table_operation::retrieve_entity (partition, row))`:
the entity with these keys, if any (`none` is the result with
`http_status_code ()` NotFound). -/
def retrieve_entity (table : List table_entity) (partition row : String) :
    Option table_entity :=
  table.find? (fun e => e.partition_key = partition ∧ e.row_key = row)

/-- Set one property in a property map (`properties[name] = property`). -/
def set_property (properties : List (String × entity_property)) (name : String)
    (property : entity_property) : List (String × entity_property) :=
  if properties.any (fun p => p.1 = name) then
    properties.map (fun p => if p.1 = name then (name, property) else p)
  else properties ++ [(name, property)]

/-- Set several properties, one after the other. -/
def merge_properties (properties : List (String × entity_property)) :
    List (String × entity_property) → List (String × entity_property)
  | [] => properties
  | v :: rest => merge_properties (set_property properties v.1 v.2) rest

/-- Effect of `table_operation::insert_or_merge_entity (entity)` on a table:
the properties are merged into the entity with the same keys, or a new entity
is inserted when there is none. -/
def insert_or_merge_entity (table : List table_entity) (partition row : String)
    (properties : List (String × entity_property)) : List table_entity :=
  match retrieve_entity table partition row with
  | some _ =>
    table.map (fun e =>
      if e.partition_key = partition ∧ e.row_key = row then
        { e with properties := merge_properties e.properties properties }
      else e)
  | none => table ++ [⟨partition, row, merge_properties [] properties⟩]

/-- Replace the content of one table of the storage account. -/
def set_table (storage : Storage) (name : String) (table : List table_entity) : Storage :=
  storage.map (fun t => if t.1 = name then (name, table) else t)

/-- The restricted entry points declared in `ServerUtils.h`, which the
handlers call but whose code is not in the sources: `read_with_token`
returns a status and an entity, `update_with_token` a status, and it may
change the storage. -/
structure ServerUtils where
  read_with_token : Storage → http_request → status_code × table_entity
  update_with_token : Storage → http_request → List (String × String) → status_code × Storage

/-! ## `handle_get` -/

/-- The vector `keys` built for one entity: Partition, Row, then its
properties. -/
def entity_keys (it : table_entity) : prop_vals_t :=
  get_properties it.properties
    [("Partition", scalar.string it.partition_key), ("Row", scalar.string it.row_key)]

/-- The loop `for (int i = 2; i < keys.size (); i = i + 2)` on the part of
`keys` from index 2 on: how many of the entries it visits are named `name`. -/
def count_matches (name : String) : prop_vals_t → Nat
  | [] => 0
  | [k] => if name = k.1 then 1 else 0
  | k :: _ :: rest => (if name = k.1 then 1 else 0) + count_matches name rest

/-- The loop `for (const auto& n : json_body)` for one entity: `count` is not
reset between two names, and the entity is pushed each time `count` equals
`keys.size () - 2`. -/
def filter_entity (keys : prop_vals_t) :
    List (String × String) → Nat → List prop_vals_t → Bool → List prop_vals_t × Bool
  | [], _, key_vec, entityExists => (key_vec, entityExists)
  | n :: rest, count, key_vec, entityExists =>
    if count + count_matches n.1 (keys.drop 2) = keys.length - 2 then
      filter_entity keys rest (count + count_matches n.1 (keys.drop 2)) (key_vec ++ [keys]) true
    else
      filter_entity keys rest (count + count_matches n.1 (keys.drop 2)) key_vec entityExists

/-- The loop `while (it != end)` of the request with a JSON body. -/
def filter_entities (json_body : List (String × String)) :
    List table_entity → List prop_vals_t → Bool → List prop_vals_t × Bool
  | [], key_vec, entityExists => (key_vec, entityExists)
  | it :: rest, key_vec, entityExists =>
    filter_entities json_body rest
      (filter_entity (entity_keys it) json_body 0 key_vec entityExists).1
      (filter_entity (entity_keys it) json_body 0 key_vec entityExists).2

/-- The loop `while (it != end)` of the partition scan.  The iterator advances
only inside `if (it->partition_key () == paths[2])`; `fuel` bounds the number
of iterations, and `none` is a loop that has not ended within it. -/
def partition_scan (partition : String) :
    Nat → List table_entity → List prop_vals_t → Bool → Option (List prop_vals_t × Bool)
  | 0, _, _, _ => none
  | _ + 1, [], values2_vec, partition_exists => some (values2_vec, partition_exists)
  | fuel + 1, it :: rest, values2_vec, partition_exists =>
    if it.partition_key = partition then
      partition_scan partition fuel rest (values2_vec ++ [entity_keys it]) true
    else partition_scan partition fuel (it :: rest) values2_vec partition_exists

/-- `handle_get` of BasicServer: every `message.reply` call, in order; `none`
when the partition scan does not end within `fuel` iterations.  The query
with the PartitionKey filter returns the entities of that partition. -/
def handle_get (su : ServerUtils) (fuel : Nat) (storage : Storage) (message : http_request) :
    Option (List (status_code × value)) :=
  match message.paths with
  | op :: table_name :: rest =>
    match storage.lookup table_name with
    | none => some [(status_codes.NotFound, value.null)]
    | some table =>
      match rest with
      | [] =>
        if op ≠ read_entity then some [(status_codes.BadRequest, value.null)]
        else if message.json_body.length = 0 then
          some [(status_codes.OK, value.array (table.map entity_keys))]
        else if (filter_entities message.json_body table [] false).2 then
          some [(status_codes.OK,
            value.array (filter_entities message.json_body table [] false).1)]
        else some [(status_codes.BadRequest, value.null), (status_codes.BadRequest, value.null)]
      | [_] => some [(status_codes.BadRequest, value.null)]
      | partition :: row :: more =>
        if row = "*" then
          if op ≠ read_entity then some [(status_codes.BadRequest, value.null)]
          else
            match partition_scan partition fuel
                (table.filter (fun e => e.partition_key = partition)) [] false with
            | none => none
            | some (values2_vec, partition_exists) =>
              if partition_exists then some [(status_codes.OK, value.array values2_vec)]
              else some [(status_codes.BadRequest, value.null)]
        else
          match more with
          | [] =>
            if op ≠ read_entity then some [(status_codes.BadRequest, value.null)]
            else
              match retrieve_entity table partition row with
              | none => some [(status_codes.NotFound, value.null)]
              | some entity =>
                if (get_properties entity.properties []).length > 0 then
                  some [(status_codes.OK, value.object (get_properties entity.properties []))]
                else some [(status_codes.OK, value.null)]
          | _ :: _ =>
            if op ≠ read_auth then some [(status_codes.BadRequest, value.null)]
            else if (su.read_with_token storage message).1 = status_codes.OK then
              some [(status_codes.OK, value.object
                (get_properties (su.read_with_token storage message).2.properties []))]
            else some [((su.read_with_token storage message).1, value.null)]
  | _ => some [(status_codes.BadRequest, value.null)]

/-! ## `handle_put` -/

/-- What `handle_put` did: every `message.reply` call, in order, and the
storage afterwards. -/
structure Outcome where
  replies : List (status_code × value)
  storage : Storage
  deriving DecidableEq, Repr

/-- The end of `handle_put`, from `cloud_table table = table_cache.lookup_table
(paths[1])` on, reached with the replies already made. -/
def put_with_token (su : ServerUtils) (storage : Storage) (message : http_request)
    (op table_name : String) (replies : List (status_code × value)) : Outcome :=
  match storage.lookup table_name with
  | none => { replies := replies ++ [(status_codes.NotFound, value.null)], storage := storage }
  | some _ =>
    if op = update_auth then
      { replies := replies ++
          [((su.update_with_token storage message message.json_body).1, value.null)],
        storage := (su.update_with_token storage message message.json_body).2 }
    else if op = read_auth then
      { replies := replies ++ [(status_codes.Forbidden, value.null)], storage := storage }
    else { replies := replies ++ [(status_codes.NotFound, value.null)], storage := storage }

/-- `handle_put` of BasicServer.  The result is `none` when `paths[0]` is read
on an empty vector, which has no defined behaviour.  The block for exactly
four path segments replies without returning. -/
def handle_put (su : ServerUtils) (storage : Storage) (message : http_request) :
    Option Outcome :=
  match message.paths with
  | [] => none
  | op :: rest =>
    if op = add_property ∨ op = update_property then
      some { replies := [(status_codes.NotImplemented, value.null)], storage := storage }
    else
      match rest with
      | [table_name, partition, row] =>
        if op = update_entity then
          match storage.lookup table_name with
          | none => some { replies := [(status_codes.NotFound, value.null)], storage := storage }
          | some table =>
            some (put_with_token su
              (set_table storage table_name (insert_or_merge_entity table partition row
                (message.json_body.map (fun v => (v.1, entity_property.string v.2)))))
              message op table_name [(status_codes.OK, value.null)])
        else
          some (put_with_token su storage message op table_name
            [(status_codes.BadRequest, value.null)])
      | table_name :: _ :: _ :: _ :: _ => some (put_with_token su storage message op table_name [])
      | _ => some { replies := [(status_codes.BadRequest, value.null)], storage := storage }

/-! ## The access gate -/

/-- What a capability token binds: one record, whether updates are allowed
besides reads, and the expiry time. -/
structure Capability where
  table : String
  partition : String
  row : String
  update : Bool
  expiry : Nat
  deriving DecidableEq, Repr

/-- Modelled from the spec: the Token-Scoped Access Gate of section 4.2, the
decision `read_with_token` and `update_with_token` of ServerUtils take (their
code is not in the sources).  Forbidden if the operation is an update and the
token allows reads only; NotFound if the record the token is bound to is not
exactly the requested one, if the token has expired or if there is no record
at that location; otherwise success.  `capability_of` reads the content of a
bearer string, `none` for a string that is no token. -/
def access (capability_of : String → Option Capability) (now : Nat) (storage : Storage)
    (token table partition row : String) (update : Bool) : status_code :=
  match capability_of token with
  | none => status_codes.NotFound
  | some capability =>
    if update = true ∧ capability.update = false then status_codes.Forbidden
    else if ¬ (capability.table = table ∧ capability.partition = partition
        ∧ capability.row = row) then status_codes.NotFound
    else if capability.expiry ≤ now then status_codes.NotFound
    else
      match (storage.lookup table).bind (fun t => retrieve_entity t partition row) with
      | none => status_codes.NotFound
      | some _ => status_codes.OK

/-- Modelled from the spec: `read_with_token` and `update_with_token` of
ServerUtils, whose code is not in the sources, for a request
`<operation>/<table>/<token>/<partition>/<row>`: the access gate of section
4.2 decides; on success the read returns the record and the update merges
the fields of the JSON body into it. -/
def serverUtils (capability_of : String → Option Capability) (now : Nat) : ServerUtils where
  read_with_token := fun storage message =>
    match message.paths with
    | _ :: table :: token :: partition :: row :: _ =>
      if access capability_of now storage token table partition row false = status_codes.OK then
        match (storage.lookup table).bind (fun t => retrieve_entity t partition row) with
        | some entity => (status_codes.OK, entity)
        | none => (status_codes.NotFound, ⟨"", "", []⟩)
      else (access capability_of now storage token table partition row false, ⟨"", "", []⟩)
    | _ => (status_codes.BadRequest, ⟨"", "", []⟩)
  update_with_token := fun storage message props =>
    match message.paths with
    | _ :: table :: token :: partition :: row :: _ =>
      if access capability_of now storage token table partition row true = status_codes.OK then
        match storage.lookup table with
        | some t =>
          (status_codes.OK, set_table storage table (insert_or_merge_entity t partition row
            (props.map (fun v => (v.1, entity_property.string v.2)))))
        | none => (status_codes.NotFound, storage)
      else (access capability_of now storage token table partition row true, storage)
    | _ => (status_codes.BadRequest, storage)

end BasicServer

/-! # Theorems -/

namespace UserServer

/-! ## Auxiliary facts about the session table and the friends-list loops -/

theorem session_find_length {uid : String} {session : Session} {data : SessionData}
    (h : session_find uid session = some data) : session.length > 0 := by
  cases session with
  | nil => simp [session_find] at h
  | cons it rest => simp

theorem json_body_length {json_body : List (String × String)} (h : json_body ≠ []) :
    ¬ json_body.length < 1 := by
  cases json_body with
  | nil => exact absurd rfl h
  | cons a l => simp

theorem session_find_eq_none {uid : String} {session : Session} :
    session_find uid session = none ↔ uid ∉ session.map Prod.fst := by
  induction session with
  | nil => simp [session_find]
  | cons it rest ih =>
    by_cases h : it.1 = uid
    · simp [session_find, h]
    · have h' : ¬ uid = it.1 := fun e => h e.symm
      simp [session_find, h, h', ih]

theorem session_erase_eq_none {uid : String} {session : Session} :
    session_erase uid session = none ↔ session_find uid session = none := by
  induction session with
  | nil => simp [session_erase, session_find]
  | cons it rest ih =>
    by_cases h : it.1 = uid
    · simp [session_erase, session_find, h]
    · simp [session_erase, session_find, h, ih]

theorem session_erase_keys {uid : String} {session session1 : Session}
    (h : session_erase uid session = some session1) :
    (session1.map Prod.fst).Sublist (session.map Prod.fst) := by
  induction session generalizing session1 with
  | nil => simp [session_erase] at h
  | cons it rest ih =>
    by_cases hk : it.1 = uid
    · simp [session_erase, hk] at h
      subst h
      simp
    · simp only [session_erase, hk, if_false, Option.map_eq_some'] at h
      obtain ⟨s, hs, rfl⟩ := h
      simpa using (ih hs).cons₂ it.1

theorem session_erase_find {uid : String} {session session1 : Session}
    (hwf : session.wf) (h : session_erase uid session = some session1) :
    session_find uid session1 = none ∧
    ∀ v, v ≠ uid → session_find v session1 = session_find v session := by
  induction session generalizing session1 with
  | nil => simp [session_erase] at h
  | cons it rest ih =>
    have hwf' : (it.1 ∉ rest.map Prod.fst) ∧ Session.wf rest := by
      simpa [Session.wf] using hwf
    by_cases hk : it.1 = uid
    · simp [session_erase, hk] at h
      subst h
      refine ⟨session_find_eq_none.mpr (hk ▸ hwf'.1), ?_⟩
      intro v hv
      have : ¬ it.1 = v := fun e => hv (e.symm.trans hk)
      simp [session_find, this]
    · simp only [session_erase, hk, if_false, Option.map_eq_some'] at h
      obtain ⟨s, hs, rfl⟩ := h
      obtain ⟨h1, h2⟩ := ih hwf'.2 hs
      refine ⟨by simp [session_find, hk, h1], ?_⟩
      intro v hv
      by_cases hv1 : it.1 = v
      · simp [session_find, hv1]
      · simp [session_find, hv1, h2 v hv]

theorem in_friends_list_iff {country name : String} {l : friends_list_t} :
    in_friends_list country name l = true ↔ (country, name) ∈ l := by
  induction l with
  | nil => simp [in_friends_list]
  | cons f rest ih =>
    by_cases h : f.1 = country ∧ f.2 = name
    · have hf : f = (country, name) := Prod.ext h.1 h.2
      simp [in_friends_list, hf]
    · have hf : ¬ (country, name) = f := fun e => h (by rw [← e]; exact ⟨rfl, rfl⟩)
      simp [in_friends_list, h, ih, hf]

theorem erase_friend_eq_erase {country name : String} {l : friends_list_t} :
    erase_friend country name l = l.erase (country, name) := by
  induction l with
  | nil => simp [erase_friend]
  | cons f rest ih =>
    by_cases h : f.1 = country ∧ f.2 = name
    · have hf : f = (country, name) := Prod.ext h.1 h.2
      simp [erase_friend, hf]
    · have hf : ¬ f = (country, name) := fun e => h (by rw [e]; exact ⟨rfl, rfl⟩)
      simp [erase_friend, h, ih, List.erase_cons_tail, hf]

theorem erase_friend_of_not_mem {country name : String} {l : friends_list_t}
    (h : (country, name) ∉ l) : erase_friend country name l = l := by
  rw [erase_friend_eq_erase]
  exact List.erase_of_not_mem h

theorem erase_friend_of_count_le_one {country name : String} {l : friends_list_t}
    (h : l.count (country, name) ≤ 1) :
    erase_friend country name l = l.filter (fun f => decide (f ≠ (country, name))) := by
  induction l with
  | nil => simp [erase_friend]
  | cons f rest ih =>
    by_cases hf : f = (country, name)
    · subst hf
      have hc : (country, name) ∉ rest := by
        intro hm
        have := List.count_pos_iff.mpr hm
        simp [List.count_cons_self] at h
        omega
      have hfil : rest.filter (fun f => decide (f ≠ (country, name))) = rest :=
        List.filter_eq_self.mpr (fun a ha => by
          have : a ≠ (country, name) := fun e => hc (e ▸ ha)
          simpa using this)
      simp only [erase_friend, and_self, if_true]
      simpa using hfil.symm
    · have hcond : ¬ (f.1 = country ∧ f.2 = name) := fun e => hf (Prod.ext e.1 e.2)
      have hc : rest.count (country, name) ≤ 1 := by
        have hne : ¬ ((f == (country, name)) = true) := by simpa using hf
        simpa [List.count_cons, hne] using h
      simp [erase_friend, hcond, ih hc, List.filter_cons, hf]

theorem handle_put_add_friend_eq {W : Type} (cu : ClientUtils) (net : Net W)
    (session : Session) (uid t p r c n : String) (rest : List String)
    (json_body : List (String × String)) (w : W)
    (hs : session_find uid session = some (t, p, r)) :
    handle_put cu net session ⟨add_friend :: uid :: c :: n :: rest, json_body⟩ w
      = put_add_friend cu net session ⟨w, []⟩ t p r c n := by
  have hlen := session_find_length hs
  simp [handle_put, hlen, hs]

theorem handle_put_un_friend_eq {W : Type} (cu : ClientUtils) (net : Net W)
    (session : Session) (uid t p r c n : String) (rest : List String)
    (json_body : List (String × String)) (w : W)
    (hs : session_find uid session = some (t, p, r)) :
    handle_put cu net session ⟨un_friend :: uid :: c :: n :: rest, json_body⟩ w
      = put_un_friend cu net session ⟨w, []⟩ t p r c n := by
  have hlen := session_find_length hs
  have h1 : ¬ (un_friend = add_friend) := by decide
  simp [handle_put, h1, hlen, hs]

theorem handle_put_update_status_eq {W : Type} (cu : ClientUtils) (net : Net W)
    (session : Session) (uid t p r status : String) (rest : List String)
    (json_body : List (String × String)) (w : W)
    (hs : session_find uid session = some (t, p, r)) :
    handle_put cu net session ⟨update_status :: uid :: status :: rest, json_body⟩ w
      = put_update_status cu net session ⟨w, []⟩ uid t p r status := by
  have hlen := session_find_length hs
  have h2 : ¬ (update_status = add_friend) := by decide
  have h3 : ¬ (update_status = un_friend) := by decide
  simp [handle_put, h2, h3, hlen, hs]

theorem put_add_friend_present {W : Type} (cu : ClientUtils) (net : Net W)
    (session : Session) (t p r c n : String) (w w1 : W) (v : value)
    (hread : net w ⟨methods.GET, read_entity_auth_uri t p r, value.null⟩
      = (w1, some (status_codes.OK, v)))
    (hin : (c, n) ∈ cu.parse_friends_list (cu.get_json_object_prop v "Friends")) :
    put_add_friend cu net session ⟨w, []⟩ t p r c n
      = ⟨some (status_codes.OK, value.null), session, w1,
          [⟨methods.GET, read_entity_auth_uri t p r, value.null⟩]⟩ := by
  have hb := in_friends_list_iff.mpr hin
  simp [put_add_friend, Run.call, hread, hb, Run.reply]

theorem put_add_friend_new {W : Type} (cu : ClientUtils) (net : Net W)
    (session : Session) (t p r c n : String) (w w1 w2 : W) (v : value)
    (o2 : Option Response)
    (hread : net w ⟨methods.GET, read_entity_auth_uri t p r, value.null⟩
      = (w1, some (status_codes.OK, v)))
    (hnew : (c, n) ∉ cu.parse_friends_list (cu.get_json_object_prop v "Friends"))
    (hupd : net w1 ⟨methods.PUT, update_entity_auth_uri t p r,
      cu.build_json_value "Friends" (cu.friends_list_to_string
        (cu.parse_friends_list (cu.get_json_object_prop v "Friends") ++ [(c, n)]))⟩
      = (w2, o2)) :
    put_add_friend cu net session ⟨w, []⟩ t p r c n
      = ⟨o2.map (fun resp => (if resp.1 = status_codes.OK then status_codes.OK
            else status_codes.NotFound, value.null)), session, w2,
          [⟨methods.GET, read_entity_auth_uri t p r, value.null⟩,
           ⟨methods.PUT, update_entity_auth_uri t p r,
            cu.build_json_value "Friends" (cu.friends_list_to_string
              (cu.parse_friends_list (cu.get_json_object_prop v "Friends") ++ [(c, n)]))⟩]⟩ := by
  have hin : in_friends_list c n
      (cu.parse_friends_list (cu.get_json_object_prop v "Friends")) = false := by
    rw [← Bool.not_eq_true, in_friends_list_iff]
    exact hnew
  rcases o2 with _ | ⟨s2, b2⟩
  · simp [put_add_friend, Run.call, hread, hin, hupd, Run.thrown]
  · by_cases hok : s2 = 200
    · simp [put_add_friend, Run.call, hread, hin, hupd, Run.reply, hok]
    · simp [put_add_friend, Run.call, hread, hin, hupd, Run.reply, hok]

theorem put_un_friend_read_ok {W : Type} (cu : ClientUtils) (net : Net W)
    (session : Session) (t p r c n : String) (w w1 w2 : W) (v : value)
    (o2 : Option Response)
    (hread : net w ⟨methods.GET, read_entity_auth_uri t p r, value.null⟩
      = (w1, some (status_codes.OK, v)))
    (hupd : net w1 ⟨methods.PUT, update_entity_auth_uri t p r,
      cu.build_json_value "Friends" (cu.friends_list_to_string
        (erase_friend c n (cu.parse_friends_list (cu.get_json_object_prop v "Friends"))))⟩
      = (w2, o2)) :
    put_un_friend cu net session ⟨w, []⟩ t p r c n
      = ⟨o2.map (fun resp => (if resp.1 = status_codes.OK then status_codes.OK
            else status_codes.NotFound, value.null)), session, w2,
          [⟨methods.GET, read_entity_auth_uri t p r, value.null⟩,
           ⟨methods.PUT, update_entity_auth_uri t p r,
            cu.build_json_value "Friends" (cu.friends_list_to_string
              (erase_friend c n
                (cu.parse_friends_list (cu.get_json_object_prop v "Friends"))))⟩]⟩ := by
  rcases o2 with _ | ⟨s2, b2⟩
  · simp [put_un_friend, Run.call, hread, hupd, Run.thrown]
  · by_cases hok : s2 = 200
    · simp [put_un_friend, Run.call, hread, hupd, Run.reply, hok]
    · simp [put_un_friend, Run.call, hread, hupd, Run.reply, hok]

theorem put_update_status_pushed {W : Type} (cu : ClientUtils) (net : Net W)
    (session : Session) (uid t p r status : String) (w w1 w2 w3 : W) (v v2 : value)
    (o3 : Option Response)
    (hread : net w ⟨methods.GET, read_entity_auth_uri t p r, value.null⟩
      = (w1, some (status_codes.OK, v)))
    (hupd : net w1 ⟨methods.PUT, update_entity_auth_uri t p r,
        cu.build_json_value "Status" status⟩ = (w2, some (status_codes.OK, v2)))
    (hpush : net w2 ⟨methods.POST,
        push_addr ++ push_status ++ "/" ++ p ++ "/" ++ uid ++ "/" ++ status,
        cu.build_json_value "Friends" (cu.get_json_object_prop v "Friends")⟩ = (w3, o3)) :
    put_update_status cu net session ⟨w, []⟩ uid t p r status
      = ⟨some ((o3.map (fun pushed =>
              if pushed.1 = status_codes.OK then status_codes.OK
              else if pushed.1 = status_codes.ServiceUnavailable then
                status_codes.ServiceUnavailable
              else status_codes.NotFound)).getD status_codes.ServiceUnavailable, value.null),
          session, w3,
          [⟨methods.GET, read_entity_auth_uri t p r, value.null⟩,
           ⟨methods.PUT, update_entity_auth_uri t p r, cu.build_json_value "Status" status⟩,
           ⟨methods.POST, push_addr ++ push_status ++ "/" ++ p ++ "/" ++ uid ++ "/" ++ status,
            cu.build_json_value "Friends" (cu.get_json_object_prop v "Friends")⟩]⟩ := by
  rcases o3 with _ | ⟨s3, b3⟩
  · simp [put_update_status, Run.call, hread, hupd, hpush, Run.reply]
  · by_cases h200 : s3 = 200
    · subst h200
      simp [put_update_status, Run.call, hread, hupd, hpush, Run.reply]
    · by_cases h503 : s3 = 503
      · subst h503
        simp [put_update_status, Run.call, hread, hupd, hpush, Run.reply]
      · simp [put_update_status, Run.call, hread, hupd, hpush, Run.reply, h200, h503]

theorem handle_get_read_friend_list_eq {W : Type} (cu : ClientUtils) (net : Net W)
    (session : Session) (uid t p r : String) (rest : List String)
    (json_body : List (String × String)) (w w1 : W) (o1 : Option Response)
    (hs : session_find uid session = some (t, p, r))
    (hread : net w ⟨methods.GET, read_entity_auth_uri t p r, value.null⟩ = (w1, o1)) :
    handle_get cu net session ⟨read_friend_list :: uid :: rest, json_body⟩ w
      = ⟨o1.map (fun result =>
            if result.1 = status_codes.OK then
              (status_codes.OK,
                cu.build_json_value "Friends" (cu.get_json_object_prop result.2 "Friends"))
            else (status_codes.NotFound, value.null)),
          session, w1, [⟨methods.GET, read_entity_auth_uri t p r, value.null⟩]⟩ := by
  have hlen := session_find_length hs
  rcases o1 with _ | ⟨s1, b1⟩
  · simp [handle_get, hlen, hs, Run.call, hread, Run.thrown]
  · by_cases hok : s1 = 200
    · simp [handle_get, hlen, hs, Run.call, hread, Run.reply_body, hok]
    · simp [handle_get, hlen, hs, Run.call, hread, Run.reply, hok]

theorem split_first_append {sep : Char} {a b : List Char} (h : sep ∉ a) :
    split_first sep (a ++ sep :: b) = (a, b) := by
  induction a with
  | nil => simp [split_first]
  | cons c cs ih =>
    have hc : ¬ c = sep := fun e => h (by simp [e])
    have hcs : sep ∉ cs := fun e => h (by simp [e])
    simp [split_first, hc, ih hcs]

theorem split_all_of_not_mem {sep : Char} {a : List Char} (h : sep ∉ a) :
    split_all sep a = [a] := by
  induction a with
  | nil => simp [split_all]
  | cons c cs ih =>
    have hc : ¬ c = sep := fun e => h (by simp [e])
    have hcs : sep ∉ cs := fun e => h (by simp [e])
    simp [split_all, hc, ih hcs]

theorem split_all_append {sep : Char} {a b : List Char} (h : sep ∉ a) :
    split_all sep (a ++ sep :: b) = a :: split_all sep b := by
  induction a with
  | nil => simp [split_all]
  | cons c cs ih =>
    have hc : ¬ c = sep := fun e => h (by simp [e])
    have hcs : sep ∉ cs := fun e => h (by simp [e])
    simp [split_all, hc, ih hcs]

theorem friends_list_to_string_cons_data (f g : String × String) (rest : friends_list_t) :
    (friends_list_to_string (f :: g :: rest)).data
      = (f.1.data ++ ';' :: f.2.data) ++ '|' :: (friends_list_to_string (g :: rest)).data := by
  simp [friends_list_to_string, String.data_append]

theorem friends_list_to_string_single_data (f : String × String) :
    (friends_list_to_string [f]).data = f.1.data ++ ';' :: f.2.data := by
  simp [friends_list_to_string, String.data_append]

theorem friends_list_to_string_ne_nil (f : String × String) (rest : friends_list_t) :
    (friends_list_to_string (f :: rest)).data ≠ [] := by
  cases rest with
  | nil => simp [friends_list_to_string_single_data]
  | cons g rest => simp [friends_list_to_string_cons_data]

theorem split_all_friends_list_to_string (f : String × String) (rest : friends_list_t)
    (h : ∀ g ∈ f :: rest, '|' ∉ g.1.data ∧ ';' ∉ g.1.data ∧ '|' ∉ g.2.data) :
    (split_all '|' (friends_list_to_string (f :: rest)).data).map
      (fun item => (String.mk (split_first ';' item).1, String.mk (split_first ';' item).2))
      = f :: rest := by
  induction rest generalizing f with
  | nil =>
    obtain ⟨h1, h2, h3⟩ := h f (by simp)
    have hitem : '|' ∉ f.1.data ++ ';' :: f.2.data := by
      simp [h1, h3]
    rw [friends_list_to_string_single_data, split_all_of_not_mem hitem]
    simp [split_first_append h2]
  | cons g rest ih =>
    obtain ⟨h1, h2, h3⟩ := h f (by simp)
    have hitem : '|' ∉ f.1.data ++ ';' :: f.2.data := by
      simp [h1, h3]
    have hrest := ih g (fun x hx => h x (List.mem_cons_of_mem _ hx))
    rw [friends_list_to_string_cons_data, split_all_append hitem, List.map_cons, hrest]
    simp [split_first_append h2]

/-! ## SignOn -/

/-- C1 (session exclusivity): when `uid` already has a session entry, a SignOn
request for `uid` leaves the session table as it was, so the stored token,
partition and row of `uid` stay; with a password-carrying body the reply is
200 when the Credential Service answers GetUpdateData with 200 and NotFound
when it answers with any other status. -/
theorem sign_on_session_exclusive {W : Type} (cu : ClientUtils) (net : Net W)
    (session : Session) (uid : String) (data : SessionData)
    (json_body : List (String × String)) (w : W)
    (hs : session_find uid session = some data) :
    (handle_post cu net session ⟨[sign_on, uid], json_body⟩ w).session = session ∧
    session_find uid (handle_post cu net session ⟨[sign_on, uid], json_body⟩ w).session
      = some data ∧
    (json_body ≠ [] → ∀ resp : Response,
      (net w (get_update_data_request cu uid
        (json_index json_body auth_table_password_prop))).2 = some resp →
      (handle_post cu net session ⟨[sign_on, uid], json_body⟩ w).reply
        = some (if resp.1 = status_codes.OK then status_codes.OK else status_codes.NotFound,
            value.null)) := by
  have hlen := session_find_length hs
  have hsess : (handle_post cu net session ⟨[sign_on, uid], json_body⟩ w).session = session := by
    by_cases hb : json_body.length < 1
    · simp [handle_post, hb, Run.reply]
    · rcases h : net w (get_update_data_request cu uid
        (json_index json_body auth_table_password_prop)) with ⟨w1, _ | resp⟩
      · simp only [get_update_data_request] at h
        simp [handle_post, hb, get_update_data, Run.call, h, Run.thrown]
      · simp only [get_update_data_request] at h
        by_cases hok : resp.1 = 200
        · simp [handle_post, hb, get_update_data, Run.call, h, hok, Run.reply, hlen, hs]
        · simp [handle_post, hb, get_update_data, Run.call, h, hok, Run.reply, hlen, hs]
  refine ⟨hsess, by rw [hsess]; exact hs, ?_⟩
  intro hb resp h
  have hb1 := json_body_length hb
  simp only [get_update_data_request] at h
  by_cases hok : resp.1 = 200
  · simp [handle_post, hb1, get_update_data, Run.call, h, hok, Run.reply, hlen, hs]
  · simp [handle_post, hb1, get_update_data, Run.call, h, hok, Run.reply, hlen, hs]

/-- Witness of C1: Gary is signed on and signs on again with a wrong password;
the session entry stays and the reply is NotFound. -/
theorem sign_on_session_exclusive_witness :
    session_find "Gary" [("Gary", ("tok", "CAN", "Stu,Gary"))]
      = some ("tok", "CAN", "Stu,Gary") ∧
    (handle_post clientUtils (credential_world "Gary" "Stu" "tok" "CAN" "Stu,Gary")
      [("Gary", ("tok", "CAN", "Stu,Gary"))]
      ⟨[sign_on, "Gary"], [("Password", "WrongPassword")]⟩ ()).session
      = [("Gary", ("tok", "CAN", "Stu,Gary"))] ∧
    (handle_post clientUtils (credential_world "Gary" "Stu" "tok" "CAN" "Stu,Gary")
      [("Gary", ("tok", "CAN", "Stu,Gary"))]
      ⟨[sign_on, "Gary"], [("Password", "WrongPassword")]⟩ ()).reply
      = some (status_codes.NotFound, value.null) :=
  ⟨by decide,
   (sign_on_session_exclusive clientUtils (credential_world "Gary" "Stu" "tok" "CAN" "Stu,Gary")
      [("Gary", ("tok", "CAN", "Stu,Gary"))] "Gary" ("tok", "CAN", "Stu,Gary")
      [("Password", "WrongPassword")] () (by decide)).1,
   (sign_on_session_exclusive clientUtils (credential_world "Gary" "Stu" "tok" "CAN" "Stu,Gary")
      [("Gary", ("tok", "CAN", "Stu,Gary"))] "Gary" ("tok", "CAN", "Stu,Gary")
      [("Password", "WrongPassword")] () (by decide)).2.2 (by decide)
      (status_codes.NotFound, value.null) (by decide)⟩

/-- Counterexample to C2: with Gary signed on, SignOn for Gary is answered 200
with the stored password and NotFound with a wrong one, and the handler has
sent the GetUpdateData request to the Credential Service. -/
theorem sign_on_fast_path_counterexample :
    (handle_post clientUtils (credential_world "Gary" "Stu" "tok" "CAN" "Stu,Gary")
      [("Gary", ("tok", "CAN", "Stu,Gary"))]
      ⟨[sign_on, "Gary"], [("Password", "Stu")]⟩ ()).reply
      = some (status_codes.OK, value.null) ∧
    (handle_post clientUtils (credential_world "Gary" "Stu" "tok" "CAN" "Stu,Gary")
      [("Gary", ("tok", "CAN", "Stu,Gary"))]
      ⟨[sign_on, "Gary"], [("Password", "WrongPassword")]⟩ ()).reply
      = some (status_codes.NotFound, value.null) ∧
    (handle_post clientUtils (credential_world "Gary" "Stu" "tok" "CAN" "Stu,Gary")
      [("Gary", ("tok", "CAN", "Stu,Gary"))]
      ⟨[sign_on, "Gary"], [("Password", "WrongPassword")]⟩ ()).sent
      = [⟨methods.GET, "http://localhost:34570/GetUpdateData/Gary",
          value.object [("Password", "WrongPassword")]⟩] := by
  decide

/-- C2 (amended): when `uid` already has a session entry, a SignOn request with
a non-empty JSON body still re-validates: the handler sends exactly one
downstream request, GetUpdateData for `uid` with the presented password, and
it replies 200 exactly when that request returns 200, NotFound when it
returns another status. -/
theorem sign_on_revalidates {W : Type} (cu : ClientUtils) (net : Net W)
    (session : Session) (uid : String) (data : SessionData)
    (json_body : List (String × String)) (w : W)
    (hs : session_find uid session = some data) (hb : json_body ≠ []) :
    (handle_post cu net session ⟨[sign_on, uid], json_body⟩ w).sent
      = [get_update_data_request cu uid (json_index json_body auth_table_password_prop)] ∧
    ((handle_post cu net session ⟨[sign_on, uid], json_body⟩ w).reply
        = some (status_codes.OK, value.null) ↔
      ((net w (get_update_data_request cu uid
        (json_index json_body auth_table_password_prop))).2.map Prod.fst
          = some status_codes.OK)) ∧
    (∀ resp : Response, (net w (get_update_data_request cu uid
        (json_index json_body auth_table_password_prop))).2 = some resp →
      resp.1 ≠ status_codes.OK →
      (handle_post cu net session ⟨[sign_on, uid], json_body⟩ w).reply
        = some (status_codes.NotFound, value.null)) := by
  have hlen := session_find_length hs
  have hb1 := json_body_length hb
  rcases h : net w (get_update_data_request cu uid
      (json_index json_body auth_table_password_prop)) with ⟨w1, _ | resp⟩
  · simp only [get_update_data_request] at h
    simp [handle_post, hb1, get_update_data, Run.call, h, Run.thrown, get_update_data_request]
  · simp only [get_update_data_request] at h
    by_cases hok : resp.1 = 200
    · simp [handle_post, hb1, get_update_data, Run.call, h, hok, Run.reply, hlen, hs,
        get_update_data_request]
    · simp [handle_post, hb1, get_update_data, Run.call, h, hok, Run.reply, hlen, hs,
        get_update_data_request]

/-- Witness of C2 (amended): Gary, signed on, presents the stored password; one
GetUpdateData request goes out and the reply is 200. -/
theorem sign_on_revalidates_witness :
    session_find "Gary" [("Gary", ("tok", "CAN", "Stu,Gary"))]
      = some ("tok", "CAN", "Stu,Gary") ∧
    [("Password", "Stu")] ≠ ([] : List (String × String)) ∧
    (handle_post clientUtils (credential_world "Gary" "Stu" "tok" "CAN" "Stu,Gary")
      [("Gary", ("tok", "CAN", "Stu,Gary"))]
      ⟨[sign_on, "Gary"], [("Password", "Stu")]⟩ ()).sent
      = [get_update_data_request clientUtils "Gary" "Stu"] ∧
    (handle_post clientUtils (credential_world "Gary" "Stu" "tok" "CAN" "Stu,Gary")
      [("Gary", ("tok", "CAN", "Stu,Gary"))]
      ⟨[sign_on, "Gary"], [("Password", "Stu")]⟩ ()).reply
      = some (status_codes.OK, value.null) :=
  ⟨by decide, by decide,
   (sign_on_revalidates clientUtils (credential_world "Gary" "Stu" "tok" "CAN" "Stu,Gary")
      [("Gary", ("tok", "CAN", "Stu,Gary"))] "Gary" ("tok", "CAN", "Stu,Gary")
      [("Password", "Stu")] () (by decide) (by decide)).1,
   (sign_on_revalidates clientUtils (credential_world "Gary" "Stu" "tok" "CAN" "Stu,Gary")
      [("Gary", ("tok", "CAN", "Stu,Gary"))] "Gary" ("tok", "CAN", "Stu,Gary")
      [("Password", "Stu")] () (by decide) (by decide)).2.1.mpr (by decide)⟩

/-- C3: when `uid` has no session entry and the SignOn request has a non-empty
JSON body, the handler replies 200 and appends the entry
`uid -> (token, DataPartition, DataRow)` taken from the Credential Service
answer exactly when GetUpdateData returned 200 and the token-scoped read at
the returned location returned 200; otherwise the session table is unchanged,
the reply is not 200, and it is NotFound whenever the requests made were
answered at all. -/
theorem sign_on_creates_session {W : Type} (cu : ClientUtils) (net : Net W)
    (session : Session) (uid : String) (json_body : List (String × String)) (w : W)
    (hs : session_find uid session = none) (hb : json_body ≠ []) :
    let r1 := net w (get_update_data_request cu uid
      (json_index json_body auth_table_password_prop))
    let v1 := (r1.2.map Prod.snd).getD value.null
    let data : SessionData := (cu.get_json_object_prop v1 "token",
      cu.get_json_object_prop v1 "DataPartition", cu.get_json_object_prop v1 "DataRow")
    let r2 := net r1.1 ⟨methods.GET, read_entity_auth_uri data.1 data.2.1 data.2.2, value.null⟩
    let out := handle_post cu net session ⟨[sign_on, uid], json_body⟩ w
    ((out.reply = some (status_codes.OK, value.null) ∧ out.session = session ++ [(uid, data)]) ↔
      (r1.2.map Prod.fst = some status_codes.OK ∧ r2.2.map Prod.fst = some status_codes.OK)) ∧
    (¬ (r1.2.map Prod.fst = some status_codes.OK ∧ r2.2.map Prod.fst = some status_codes.OK) →
      out.session = session ∧ out.reply ≠ some (status_codes.OK, value.null) ∧
      (r1.2 ≠ none → (r1.2.map Prod.fst = some status_codes.OK → r2.2 ≠ none) →
        out.reply = some (status_codes.NotFound, value.null))) := by
  intro r1 v1 data r2 out
  have hb1 := json_body_length hb
  have hfind : (if session.length > 0 then session_find uid session else none) = none := by
    split_ifs <;> simp [hs]
  rcases h1 : net w (get_update_data_request cu uid
      (json_index json_body auth_table_password_prop)) with ⟨w1, _ | ⟨s1, b1⟩⟩
  · have hr1 : r1 = (w1, none) := h1
    simp only [get_update_data_request] at h1
    simp [out, hr1, handle_post, hb1, get_update_data, Run.call, h1, Run.thrown]
  · have hr1 : r1 = (w1, some (s1, b1)) := h1
    simp only [get_update_data_request] at h1
    by_cases hok : s1 = 200
    · subst hok
      have hv1 : v1 = b1 := by simp [v1, hr1]
      rcases h2 : net w1 ⟨methods.GET, read_entity_auth_uri (cu.get_json_object_prop b1 "token")
        (cu.get_json_object_prop b1 "DataPartition") (cu.get_json_object_prop b1 "DataRow"),
        value.null⟩ with ⟨w2, _ | ⟨s2, b2⟩⟩
      · have hr2 : r2 = (w2, none) := by simp [r2, data, hv1, hr1, h2]
        simp [out, hr1, hr2, handle_post, hb1, get_update_data, Run.call, h1, h2, Run.thrown,
          hfind]
      · have hr2 : r2 = (w2, some (s2, b2)) := by simp [r2, data, hv1, hr1, h2]
        by_cases hok2 : s2 = 200
        · subst hok2
          simp [out, hr1, hr2, handle_post, hb1, get_update_data, Run.call, h1, h2, Run.reply,
            hfind, session_insert, hs, data, hv1]
        · have hok2' : ¬ (200 = s2) := fun h => hok2 h.symm
          simp [out, hr1, hr2, handle_post, hb1, get_update_data, Run.call, h1, h2, Run.reply,
            hfind, hok2, hok2']
    · simp [out, hr1, handle_post, hb1, get_update_data, Run.call, h1, Run.reply, hok]

/-- Witness of C3: nobody is signed on, the Credential Service and the Record
Store both answer 200, and Gary gets the session entry the Credential Service
named. -/
theorem sign_on_creates_session_witness :
    session_find "Gary" [] = none ∧
    [("Password", "Stu")] ≠ ([] : List (String × String)) ∧
    (handle_post clientUtils scripted [] ⟨[sign_on, "Gary"], [("Password", "Stu")]⟩
      [some (status_codes.OK, value.object
          [("token", "tok"), ("DataPartition", "CAN"), ("DataRow", "Stu,Gary")]),
       some (status_codes.OK, value.object [("Friends", "USA;Shinoda,Mike")])]).reply
      = some (status_codes.OK, value.null) ∧
    (handle_post clientUtils scripted [] ⟨[sign_on, "Gary"], [("Password", "Stu")]⟩
      [some (status_codes.OK, value.object
          [("token", "tok"), ("DataPartition", "CAN"), ("DataRow", "Stu,Gary")]),
       some (status_codes.OK, value.object [("Friends", "USA;Shinoda,Mike")])]).session
      = [("Gary", ("tok", "CAN", "Stu,Gary"))] :=
  ⟨by decide, by decide,
   (sign_on_creates_session clientUtils scripted [] "Gary" [("Password", "Stu")]
      [some (status_codes.OK, value.object
          [("token", "tok"), ("DataPartition", "CAN"), ("DataRow", "Stu,Gary")]),
       some (status_codes.OK, value.object [("Friends", "USA;Shinoda,Mike")])]
      (by decide) (by decide)).1.mpr ⟨by decide, by decide⟩⟩

/-! ## SignOff -/

/-- C4: for every well-formed session table and user id, SignOff replies 200
exactly when `uid` has a session entry; then the entry of `uid` is gone and
the entry of every other user is as before; otherwise the reply is NotFound
and the table is unchanged.  No downstream request is sent and the table
stays well formed. -/
theorem sign_off_removes_entry {W : Type} (cu : ClientUtils) (net : Net W)
    (session : Session) (uid : String) (json_body : List (String × String)) (w : W)
    (hwf : session.wf) :
    ((handle_post cu net session ⟨[sign_off, uid], json_body⟩ w).reply
        = some (status_codes.OK, value.null) ↔ (session_find uid session).isSome) ∧
    ((session_find uid session).isSome →
      session_find uid (handle_post cu net session ⟨[sign_off, uid], json_body⟩ w).session
        = none ∧
      ∀ v, v ≠ uid →
        session_find v (handle_post cu net session ⟨[sign_off, uid], json_body⟩ w).session
          = session_find v session) ∧
    (session_find uid session = none →
      (handle_post cu net session ⟨[sign_off, uid], json_body⟩ w).reply
        = some (status_codes.NotFound, value.null) ∧
      (handle_post cu net session ⟨[sign_off, uid], json_body⟩ w).session = session) ∧
    (handle_post cu net session ⟨[sign_off, uid], json_body⟩ w).sent = [] ∧
    (handle_post cu net session ⟨[sign_off, uid], json_body⟩ w).session.wf := by
  have hop : ¬ (sign_off = sign_on) := by decide
  rcases he : session_erase uid session with _ | session1
  · have hf : session_find uid session = none := session_erase_eq_none.mp he
    simp [handle_post, hop, he, hf, Run.reply, hwf]
  · have hf : session_find uid session ≠ none := fun h => by
      rw [session_erase_eq_none.mpr h] at he
      cases he
    obtain ⟨data, hd⟩ := Option.ne_none_iff_exists'.mp hf
    obtain ⟨h1, h2⟩ := session_erase_find hwf he
    have hwf1 : Session.wf session1 := List.Nodup.sublist (session_erase_keys he) hwf
    simp [handle_post, hop, he, hd, Run.reply, h1, hwf1]
    exact h2

/-- Witness of C4: Gary and Bob are signed on; SignOff for Gary replies 200 and
leaves exactly the entry of Bob. -/
theorem sign_off_removes_entry_witness :
    Session.wf [("Gary", ("tok", "CAN", "Stu,Gary")), ("Bob", ("tok2", "AUS", "Ross,Bob"))] ∧
    (handle_post clientUtils scripted
      [("Gary", ("tok", "CAN", "Stu,Gary")), ("Bob", ("tok2", "AUS", "Ross,Bob"))]
      ⟨[sign_off, "Gary"], []⟩ []).reply = some (status_codes.OK, value.null) ∧
    (handle_post clientUtils scripted
      [("Gary", ("tok", "CAN", "Stu,Gary")), ("Bob", ("tok2", "AUS", "Ross,Bob"))]
      ⟨[sign_off, "Gary"], []⟩ []).session = [("Bob", ("tok2", "AUS", "Ross,Bob"))] :=
  ⟨by decide,
   (sign_off_removes_entry clientUtils scripted
      [("Gary", ("tok", "CAN", "Stu,Gary")), ("Bob", ("tok2", "AUS", "Ross,Bob"))]
      "Gary" [] [] (by decide)).1.mpr (by decide),
   by decide⟩

/-! ## Operations that need a session -/

/-- C5: a ReadFriendList, AddFriend, UnFriend or UpdateStatus request that has
all its path segments and names a user id without a session entry is answered
Forbidden; no downstream request is sent, and session table and world are as
before. -/
theorem no_session_forbidden {W : Type} (cu : ClientUtils) (net : Net W)
    (session : Session) (uid p2 p3 : String) (rest : List String)
    (json_body : List (String × String)) (w : W)
    (hs : session_find uid session = none) :
    handle_get cu net session ⟨read_friend_list :: uid :: rest, json_body⟩ w
      = ⟨some (status_codes.Forbidden, value.null), session, w, []⟩ ∧
    handle_put cu net session ⟨add_friend :: uid :: p2 :: p3 :: rest, json_body⟩ w
      = ⟨some (status_codes.Forbidden, value.null), session, w, []⟩ ∧
    handle_put cu net session ⟨un_friend :: uid :: p2 :: p3 :: rest, json_body⟩ w
      = ⟨some (status_codes.Forbidden, value.null), session, w, []⟩ ∧
    handle_put cu net session ⟨update_status :: uid :: p2 :: rest, json_body⟩ w
      = ⟨some (status_codes.Forbidden, value.null), session, w, []⟩ := by
  have h1 : ¬ (un_friend = add_friend) := by decide
  have h2 : ¬ (update_status = add_friend) := by decide
  have h3 : ¬ (update_status = un_friend) := by decide
  refine ⟨?_, ?_, ?_, ?_⟩
  · simp [handle_get, hs, Run.reply]
  · simp [handle_put, hs, Run.reply]
  · simp [handle_put, h1, hs, Run.reply]
  · simp [handle_put, h2, h3, hs, Run.reply]

/-- Witness of C5: Gary is signed on, `NotLoggedIn` is not; AddFriend for
`NotLoggedIn` is answered Forbidden without any downstream request. -/
theorem no_session_forbidden_witness :
    session_find "NotLoggedIn" [("Gary", ("tok", "CAN", "Stu,Gary"))] = none ∧
    handle_put clientUtils scripted [("Gary", ("tok", "CAN", "Stu,Gary"))]
      ⟨[add_friend, "NotLoggedIn", "AUS", "Ross,Bob"], []⟩ []
      = ⟨some (status_codes.Forbidden, value.null), [("Gary", ("tok", "CAN", "Stu,Gary"))],
          [], []⟩ :=
  ⟨by decide,
   (no_session_forbidden clientUtils scripted [("Gary", ("tok", "CAN", "Stu,Gary"))]
      "NotLoggedIn" "AUS" "Ross,Bob" [] [] [] (by decide)).2.1⟩

/-! ## AddFriend and UnFriend -/

/-- C7 (safe remove): for a signed-on user whose record read returns 200 and a
location (c, n) that is not in the decoded friends list of the record,
UnFriend writes back the encoding of the unchanged list, so that the value
written decodes to the same list whenever the codec decodes what it encoded
for that list; the reply is 200 when the Record Store answers the write-back
with 200 (NotFound when it answers with another status). -/
theorem un_friend_absent_unchanged {W : Type} (cu : ClientUtils) (net : Net W)
    (session : Session) (uid t p r c n : String) (rest : List String)
    (json_body : List (String × String)) (w w1 : W) (v : value)
    (hs : session_find uid session = some (t, p, r))
    (hread : net w ⟨methods.GET, read_entity_auth_uri t p r, value.null⟩
      = (w1, some (status_codes.OK, v)))
    (habsent : (c, n) ∉ cu.parse_friends_list (cu.get_json_object_prop v "Friends"))
    (hcodec : cu.parse_friends_list (cu.friends_list_to_string
        (cu.parse_friends_list (cu.get_json_object_prop v "Friends")))
      = cu.parse_friends_list (cu.get_json_object_prop v "Friends")) :
    let out := handle_put cu net session ⟨un_friend :: uid :: c :: n :: rest, json_body⟩ w
    out.session = session ∧
    ∃ written : String,
      out.sent = [⟨methods.GET, read_entity_auth_uri t p r, value.null⟩,
        ⟨methods.PUT, update_entity_auth_uri t p r, cu.build_json_value "Friends" written⟩] ∧
      cu.parse_friends_list written
        = cu.parse_friends_list (cu.get_json_object_prop v "Friends") ∧
      ∀ resp : Response,
        (net w1 ⟨methods.PUT, update_entity_auth_uri t p r,
          cu.build_json_value "Friends" written⟩).2 = some resp →
        out.reply = some (if resp.1 = status_codes.OK then status_codes.OK
          else status_codes.NotFound, value.null) := by
  intro out
  have herase := erase_friend_of_not_mem habsent
  have hout : out = _ := (handle_put_un_friend_eq cu net session uid t p r c n rest json_body
    w hs).trans (put_un_friend_read_ok cu net session t p r c n w w1 _ v _ hread rfl)
  rw [hout, herase]
  refine ⟨rfl, _, rfl, hcodec, ?_⟩
  intro resp hresp
  simp [hresp]

/-- Witness of C7: Gary, signed on with friends "USA;Shinoda,Mike", unfriends
(CN, "Nimoy,Leonard"), who is not a friend; the same string is written back
and the reply is 200. -/
theorem un_friend_absent_unchanged_witness :
    (handle_put clientUtils scripted [("Gary", ("tok", "CAN", "Stu,Gary"))]
      ⟨[un_friend, "Gary", "CN", "Nimoy,Leonard"], []⟩
      [some (status_codes.OK, value.object [("Friends", "USA;Shinoda,Mike")]),
       some (status_codes.OK, value.null)]).session
      = [("Gary", ("tok", "CAN", "Stu,Gary"))] ∧
    ∃ written : String,
      (handle_put clientUtils scripted [("Gary", ("tok", "CAN", "Stu,Gary"))]
        ⟨[un_friend, "Gary", "CN", "Nimoy,Leonard"], []⟩
        [some (status_codes.OK, value.object [("Friends", "USA;Shinoda,Mike")]),
         some (status_codes.OK, value.null)]).sent
        = [⟨methods.GET, read_entity_auth_uri "tok" "CAN" "Stu,Gary", value.null⟩,
           ⟨methods.PUT, update_entity_auth_uri "tok" "CAN" "Stu,Gary",
             value.object [("Friends", written)]⟩] ∧
      parse_friends_list written = [("USA", "Shinoda,Mike")] ∧
      ∀ resp : Response,
        (scripted [some (status_codes.OK, value.null)]
          ⟨methods.PUT, update_entity_auth_uri "tok" "CAN" "Stu,Gary",
            value.object [("Friends", written)]⟩).2 = some resp →
        (handle_put clientUtils scripted [("Gary", ("tok", "CAN", "Stu,Gary"))]
          ⟨[un_friend, "Gary", "CN", "Nimoy,Leonard"], []⟩
          [some (status_codes.OK, value.object [("Friends", "USA;Shinoda,Mike")]),
           some (status_codes.OK, value.null)]).reply
          = some (if resp.1 = status_codes.OK then status_codes.OK
            else status_codes.NotFound, value.null) :=
  un_friend_absent_unchanged clientUtils scripted [("Gary", ("tok", "CAN", "Stu,Gary"))]
      "Gary" "tok" "CAN" "Stu,Gary" "CN" "Nimoy,Leonard" [] []
      [some (status_codes.OK, value.object [("Friends", "USA;Shinoda,Mike")]),
       some (status_codes.OK, value.null)]
      [some (status_codes.OK, value.null)]
      (value.object [("Friends", "USA;Shinoda,Mike")])
      (by decide) (by decide) (by decide) (by decide)

/-- Counterexample to C8: the stored friends string "CA;bob|CA;bob" decodes to
a list holding (CA, bob) twice; a successful UnFriend (CA, bob) writes back
"CA;bob", whose list still contains the pair. -/
theorem un_friend_duplicate_counterexample :
    clientUtils.parse_friends_list "CA;bob|CA;bob" = [("CA", "bob"), ("CA", "bob")] ∧
    (handle_put clientUtils scripted [("Gary", ("tok", "CAN", "Stu,Gary"))]
      ⟨[un_friend, "Gary", "CA", "bob"], []⟩
      [some (status_codes.OK, value.object [("Friends", "CA;bob|CA;bob")]),
       some (status_codes.OK, value.null)]).reply = some (status_codes.OK, value.null) ∧
    (handle_put clientUtils scripted [("Gary", ("tok", "CAN", "Stu,Gary"))]
      ⟨[un_friend, "Gary", "CA", "bob"], []⟩
      [some (status_codes.OK, value.object [("Friends", "CA;bob|CA;bob")]),
       some (status_codes.OK, value.null)]).sent
      = [⟨methods.GET, "http://localhost:34568/ReadEntityAuth/DataTable/tok/CAN/Stu,Gary",
            value.null⟩,
         ⟨methods.PUT, "http://localhost:34568/UpdateEntityAuth/DataTable/tok/CAN/Stu,Gary",
            value.object [("Friends", "CA;bob")]⟩] ∧
    clientUtils.parse_friends_list "CA;bob" = [("CA", "bob")] := by
  decide

/-- C8 (amended): for a signed-on user whose record read returns 200 with a
friends list L in which the location x = (c, n) occurs at most once, UnFriend
sends one update whose list is L without x: it contains no pair equal to x
and keeps every pair of L different from x, in the same order; the reply is
200 when that update returns 200 and NotFound when it returns another
status. -/
theorem un_friend_removes {W : Type} (cu : ClientUtils) (net : Net W)
    (session : Session) (uid t p r c n : String) (rest : List String)
    (json_body : List (String × String)) (w w1 : W) (v : value)
    (hs : session_find uid session = some (t, p, r))
    (hread : net w ⟨methods.GET, read_entity_auth_uri t p r, value.null⟩
      = (w1, some (status_codes.OK, v)))
    (honce : (cu.parse_friends_list (cu.get_json_object_prop v "Friends")).count (c, n) ≤ 1) :
    let kept := (cu.parse_friends_list (cu.get_json_object_prop v "Friends")).filter
      (fun f => decide (f ≠ (c, n)))
    let upd : Request := ⟨methods.PUT, update_entity_auth_uri t p r,
      cu.build_json_value "Friends" (cu.friends_list_to_string kept)⟩
    let out := handle_put cu net session ⟨un_friend :: uid :: c :: n :: rest, json_body⟩ w
    out.sent = [⟨methods.GET, read_entity_auth_uri t p r, value.null⟩, upd] ∧
    (c, n) ∉ kept ∧
    (∀ f, f ∈ cu.parse_friends_list (cu.get_json_object_prop v "Friends") → f ≠ (c, n) →
      f ∈ kept) ∧
    kept.Sublist (cu.parse_friends_list (cu.get_json_object_prop v "Friends")) ∧
    ∀ resp : Response, (net w1 upd).2 = some resp →
      out.reply = some (if resp.1 = status_codes.OK then status_codes.OK
        else status_codes.NotFound, value.null) := by
  intro kept upd out
  have herase : erase_friend c n (cu.parse_friends_list (cu.get_json_object_prop v "Friends"))
      = kept := erase_friend_of_count_le_one honce
  have hupd1 : net w1 ⟨methods.PUT, update_entity_auth_uri t p r,
      cu.build_json_value "Friends" (cu.friends_list_to_string
        (erase_friend c n (cu.parse_friends_list (cu.get_json_object_prop v "Friends"))))⟩
      = ((net w1 upd).1, (net w1 upd).2) := by
    rw [herase]
  have hout : out = _ := (handle_put_un_friend_eq cu net session uid t p r c n rest json_body
    w hs).trans (put_un_friend_read_ok cu net session t p r c n w w1 _ v _ hread hupd1)
  rw [hout, herase]
  refine ⟨rfl, ?_, ?_, List.filter_sublist _, ?_⟩
  · simp [kept]
  · intro f hf hne
    simp [kept, hf, hne]
  · intro resp hresp
    simp [hresp]

/-- Witness of C8 (amended): Gary, signed on with friends
"USA;Shinoda,Mike|AUS;Ross,Bob", unfriends (AUS, "Ross,Bob"); the update
carries "USA;Shinoda,Mike". -/
theorem un_friend_removes_witness :
    (handle_put clientUtils scripted [("Gary", ("tok", "CAN", "Stu,Gary"))]
      ⟨[un_friend, "Gary", "AUS", "Ross,Bob"], []⟩
      [some (status_codes.OK, value.object [("Friends", "USA;Shinoda,Mike|AUS;Ross,Bob")]),
       some (status_codes.OK, value.null)]).sent
      = [⟨methods.GET, "http://localhost:34568/ReadEntityAuth/DataTable/tok/CAN/Stu,Gary",
            value.null⟩,
         ⟨methods.PUT, "http://localhost:34568/UpdateEntityAuth/DataTable/tok/CAN/Stu,Gary",
            value.object [("Friends", "USA;Shinoda,Mike")]⟩] :=
  (un_friend_removes clientUtils scripted [("Gary", ("tok", "CAN", "Stu,Gary"))]
      "Gary" "tok" "CAN" "Stu,Gary" "AUS" "Ross,Bob" [] []
      [some (status_codes.OK, value.object [("Friends", "USA;Shinoda,Mike|AUS;Ross,Bob")]),
       some (status_codes.OK, value.null)]
      [some (status_codes.OK, value.null)]
      (value.object [("Friends", "USA;Shinoda,Mike|AUS;Ross,Bob")])
      (by decide) (by decide) (by decide)).1

/-- C9: for a signed-on user with session (t, p, r) whose record read returns
200 with the friends string F, and a location (c, n) not in the decoded list,
AddFriend sends the token-scoped read at (t, p, r) and then one token-scoped
update at (t, p, r) setting Friends to the encoding of the decoded list
followed by (c, n); it replies 200 when that update returns 200 (NotFound
when it returns another status). -/
theorem add_friend_appends {W : Type} (cu : ClientUtils) (net : Net W)
    (session : Session) (uid t p r c n : String) (rest : List String)
    (json_body : List (String × String)) (w w1 : W) (v : value)
    (hs : session_find uid session = some (t, p, r))
    (hread : net w ⟨methods.GET, read_entity_auth_uri t p r, value.null⟩
      = (w1, some (status_codes.OK, v)))
    (hnew : (c, n) ∉ cu.parse_friends_list (cu.get_json_object_prop v "Friends")) :
    let upd : Request := ⟨methods.PUT, update_entity_auth_uri t p r,
      cu.build_json_value "Friends" (cu.friends_list_to_string
        (cu.parse_friends_list (cu.get_json_object_prop v "Friends") ++ [(c, n)]))⟩
    let out := handle_put cu net session ⟨add_friend :: uid :: c :: n :: rest, json_body⟩ w
    out.sent = [⟨methods.GET, read_entity_auth_uri t p r, value.null⟩, upd] ∧
    out.session = session ∧
    ∀ resp : Response, (net w1 upd).2 = some resp →
      out.reply = some (if resp.1 = status_codes.OK then status_codes.OK
        else status_codes.NotFound, value.null) := by
  intro upd out
  have hout : out = _ := (handle_put_add_friend_eq cu net session uid t p r c n rest json_body
    w hs).trans (put_add_friend_new cu net session t p r c n w w1 (net w1 upd).1 v
      (net w1 upd).2 hread hnew rfl)
  rw [hout]
  refine ⟨rfl, rfl, ?_⟩
  intro resp hresp
  simp [hresp]

/-- Witness of C9: Gary, signed on with friends "USA;Shinoda,Mike", adds
(AUS, "Ross,Bob"); the update carries "USA;Shinoda,Mike|AUS;Ross,Bob" and the
reply is 200. -/
theorem add_friend_appends_witness :
    (handle_put clientUtils scripted [("Gary", ("tok", "CAN", "Stu,Gary"))]
      ⟨[add_friend, "Gary", "AUS", "Ross,Bob"], []⟩
      [some (status_codes.OK, value.object [("Friends", "USA;Shinoda,Mike")]),
       some (status_codes.OK, value.null)]).sent
      = [⟨methods.GET, "http://localhost:34568/ReadEntityAuth/DataTable/tok/CAN/Stu,Gary",
            value.null⟩,
         ⟨methods.PUT, "http://localhost:34568/UpdateEntityAuth/DataTable/tok/CAN/Stu,Gary",
            value.object [("Friends", "USA;Shinoda,Mike|AUS;Ross,Bob")]⟩] ∧
    (handle_put clientUtils scripted [("Gary", ("tok", "CAN", "Stu,Gary"))]
      ⟨[add_friend, "Gary", "AUS", "Ross,Bob"], []⟩
      [some (status_codes.OK, value.object [("Friends", "USA;Shinoda,Mike")]),
       some (status_codes.OK, value.null)]).reply = some (status_codes.OK, value.null) :=
  ⟨(add_friend_appends clientUtils scripted [("Gary", ("tok", "CAN", "Stu,Gary"))]
      "Gary" "tok" "CAN" "Stu,Gary" "AUS" "Ross,Bob" [] []
      [some (status_codes.OK, value.object [("Friends", "USA;Shinoda,Mike")]),
       some (status_codes.OK, value.null)]
      [some (status_codes.OK, value.null)]
      (value.object [("Friends", "USA;Shinoda,Mike")])
      (by decide) (by decide) (by decide)).1,
   (add_friend_appends clientUtils scripted [("Gary", ("tok", "CAN", "Stu,Gary"))]
      "Gary" "tok" "CAN" "Stu,Gary" "AUS" "Ross,Bob" [] []
      [some (status_codes.OK, value.object [("Friends", "USA;Shinoda,Mike")]),
       some (status_codes.OK, value.null)]
      [some (status_codes.OK, value.null)]
      (value.object [("Friends", "USA;Shinoda,Mike")])
      (by decide) (by decide) (by decide)).2.2 (status_codes.OK, value.null) (by decide)⟩

/-! ## UpdateStatus -/

/-- C10 (UpdateStatus writes first and is not atomic): for a signed-on user
with session (t, p, r) the requests sent are, in this order, the token-scoped
read, then (only if the read returned 200) the token-scoped update setting
Status, then (only if that update returned 200) the notifier request, and
nothing after it.  So the notifier is not called when the read or the update
fails, and when the notifier call throws or returns 503 the reply is 503
although the Status update was sent and acknowledged before, with no further
write. -/
theorem update_status_writes_first {W : Type} (cu : ClientUtils) (net : Net W)
    (session : Session) (uid t p r status : String) (rest : List String)
    (json_body : List (String × String)) (w : W)
    (hs : session_find uid session = some (t, p, r)) :
    let readreq : Request := ⟨methods.GET, read_entity_auth_uri t p r, value.null⟩
    let updreq : Request := ⟨methods.PUT, update_entity_auth_uri t p r,
      cu.build_json_value "Status" status⟩
    let r1 := net w readreq
    let r2 := net r1.1 updreq
    let pushreq : Request := ⟨methods.POST,
      push_addr ++ push_status ++ "/" ++ p ++ "/" ++ uid ++ "/" ++ status,
      cu.build_json_value "Friends"
        (cu.get_json_object_prop ((r1.2.map Prod.snd).getD value.null) "Friends")⟩
    let r3 := net r2.1 pushreq
    let out := handle_put cu net session ⟨update_status :: uid :: status :: rest, json_body⟩ w
    out.sent = (if r1.2.map Prod.fst = some status_codes.OK then
        (if r2.2.map Prod.fst = some status_codes.OK then [readreq, updreq, pushreq]
         else [readreq, updreq])
      else [readreq]) ∧
    (r1.2.map Prod.fst = some status_codes.OK → r2.2.map Prod.fst = some status_codes.OK →
      (r3.2 = none ∨ r3.2.map Prod.fst = some status_codes.ServiceUnavailable) →
      out.reply = some (status_codes.ServiceUnavailable, value.null) ∧ out.world = r3.1) ∧
    out.session = session := by
  intro readreq updreq r1 r2 pushreq r3 out
  have hout : out = put_update_status cu net session ⟨w, []⟩ uid t p r status :=
    handle_put_update_status_eq cu net session uid t p r status rest json_body w hs
  rw [hout]
  rcases h1 : net w readreq with ⟨w1, _ | ⟨s1, b1⟩⟩
  · have hr1 : r1 = (w1, none) := h1
    simp only [readreq] at h1
    simp [hr1, put_update_status, Run.call, h1, Run.thrown, readreq]
  · have hr1 : r1 = (w1, some (s1, b1)) := h1
    simp only [readreq] at h1
    by_cases hok1 : s1 = 200
    · subst hok1
      rcases h2 : net w1 updreq with ⟨w2, _ | ⟨s2, b2⟩⟩
      · have hr2 : r2 = (w2, none) := by simp [r2, hr1, h2]
        simp only [updreq] at h2
        simp [hr1, hr2, put_update_status, Run.call, h1, h2, Run.thrown, readreq, updreq]
      · have hr2 : r2 = (w2, some (s2, b2)) := by simp [r2, hr1, h2]
        simp only [updreq] at h2
        by_cases hok2 : s2 = 200
        · subst hok2
          have hpush : pushreq = ⟨methods.POST,
              push_addr ++ push_status ++ "/" ++ p ++ "/" ++ uid ++ "/" ++ status,
              cu.build_json_value "Friends" (cu.get_json_object_prop b1 "Friends")⟩ := by
            simp [pushreq, hr1]
          rcases h3 : net w2 pushreq with ⟨w3, _ | ⟨s3, b3⟩⟩
          · have hr3 : r3 = (w3, none) := by simp [r3, hr2, h3]
            rw [hpush] at h3
            simp [hr1, hr2, hr3, put_update_status, Run.call, h1, h2, h3, Run.reply, readreq,
              updreq, hpush]
          · have hr3 : r3 = (w3, some (s3, b3)) := by simp [r3, hr2, h3]
            rw [hpush] at h3
            by_cases hok3 : s3 = 503
            · subst hok3
              simp [hr1, hr2, hr3, put_update_status, Run.call, h1, h2, h3, Run.reply, readreq,
                updreq, hpush]
            · by_cases hok3' : s3 = 200
              · subst hok3'
                simp [hr1, hr2, hr3, put_update_status, Run.call, h1, h2, h3, Run.reply,
                  readreq, updreq, hpush]
              · simp [hr1, hr2, hr3, put_update_status, Run.call, h1, h2, h3, Run.reply,
                  readreq, updreq, hpush, hok3, hok3']
        · simp [hr1, hr2, put_update_status, Run.call, h1, h2, Run.reply, readreq, updreq,
            hok2]
    · simp [hr1, put_update_status, Run.call, h1, Run.reply, readreq, hok1]

/-- Witness of C10: Gary is signed on, the Record Store answers the read and
the Status update with 200 and the notifier cannot be reached; the reply is
503 and the update was the second of three requests. -/
theorem update_status_writes_first_witness :
    session_find "Gary" [("Gary", ("tok", "CAN", "Stu,Gary"))]
      = some ("tok", "CAN", "Stu,Gary") ∧
    (handle_put clientUtils scripted [("Gary", ("tok", "CAN", "Stu,Gary"))]
      ⟨[update_status, "Gary", "NewStatus"], []⟩
      [some (status_codes.OK, value.object [("Friends", "AUS;Ross,Bob")]),
       some (status_codes.OK, value.null), none]).reply
      = some (status_codes.ServiceUnavailable, value.null) ∧
    (handle_put clientUtils scripted [("Gary", ("tok", "CAN", "Stu,Gary"))]
      ⟨[update_status, "Gary", "NewStatus"], []⟩
      [some (status_codes.OK, value.object [("Friends", "AUS;Ross,Bob")]),
       some (status_codes.OK, value.null), none]).sent
      = [⟨methods.GET, "http://localhost:34568/ReadEntityAuth/DataTable/tok/CAN/Stu,Gary",
            value.null⟩,
         ⟨methods.PUT, "http://localhost:34568/UpdateEntityAuth/DataTable/tok/CAN/Stu,Gary",
            value.object [("Status", "NewStatus")]⟩,
         ⟨methods.POST, "http://localhost:34574/PushStatus/CAN/Gary/NewStatus",
            value.object [("Friends", "AUS;Ross,Bob")]⟩] :=
  ⟨by decide,
   ((update_status_writes_first clientUtils scripted [("Gary", ("tok", "CAN", "Stu,Gary"))]
      "Gary" "tok" "CAN" "Stu,Gary" "NewStatus" [] []
      [some (status_codes.OK, value.object [("Friends", "AUS;Ross,Bob")]),
       some (status_codes.OK, value.null), none] (by decide)).2.1
      (by decide) (by decide) (Or.inl (by decide))).1,
   by decide⟩

/-- C11: for a signed-on user whose record read and Status update both return
200, UpdateStatus replies 200 exactly when the notifier request returned 200,
and replies ServiceUnavailable exactly when the notifier request returned 503
or threw; any other notifier status gives NotFound. -/
theorem update_status_reply {W : Type} (cu : ClientUtils) (net : Net W)
    (session : Session) (uid t p r status : String) (rest : List String)
    (json_body : List (String × String)) (w w1 w2 : W) (v v2 : value)
    (hs : session_find uid session = some (t, p, r))
    (hread : net w ⟨methods.GET, read_entity_auth_uri t p r, value.null⟩
      = (w1, some (status_codes.OK, v)))
    (hupd : net w1 ⟨methods.PUT, update_entity_auth_uri t p r,
        cu.build_json_value "Status" status⟩ = (w2, some (status_codes.OK, v2))) :
    let pushed := (net w2 ⟨methods.POST,
        push_addr ++ push_status ++ "/" ++ p ++ "/" ++ uid ++ "/" ++ status,
        cu.build_json_value "Friends" (cu.get_json_object_prop v "Friends")⟩).2
    let out := handle_put cu net session ⟨update_status :: uid :: status :: rest, json_body⟩ w
    (out.reply = some (status_codes.OK, value.null) ↔
      pushed.map Prod.fst = some status_codes.OK) ∧
    (out.reply = some (status_codes.ServiceUnavailable, value.null) ↔
      (pushed = none ∨ pushed.map Prod.fst = some status_codes.ServiceUnavailable)) ∧
    (out.reply = some (status_codes.OK, value.null) ∨
      out.reply = some (status_codes.ServiceUnavailable, value.null) ∨
      out.reply = some (status_codes.NotFound, value.null)) := by
  intro pushed out
  have hout : out = _ := (handle_put_update_status_eq cu net session uid t p r status rest
    json_body w hs).trans (put_update_status_pushed cu net session uid t p r status w w1 w2 _
      v v2 _ hread hupd rfl)
  rw [hout]
  rcases hp : pushed with _ | ⟨s3, b3⟩
  · simp only [pushed] at hp
    simp [hp]
  · simp only [pushed] at hp
    by_cases h200 : s3 = 200
    · subst h200
      simp [hp]
    · by_cases h503 : s3 = 503
      · subst h503
        simp [hp]
      · simp [hp, h200, h503]

/-- Witness of C11: Gary is signed on, read and Status update return 200 and
the notifier returns 200; the reply is 200. -/
theorem update_status_reply_witness :
    (handle_put clientUtils scripted [("Gary", ("tok", "CAN", "Stu,Gary"))]
      ⟨[update_status, "Gary", "NewStatus"], []⟩
      [some (status_codes.OK, value.object [("Friends", "AUS;Ross,Bob")]),
       some (status_codes.OK, value.null), some (status_codes.OK, value.null)]).reply
      = some (status_codes.OK, value.null) :=
  (update_status_reply clientUtils scripted [("Gary", ("tok", "CAN", "Stu,Gary"))]
      "Gary" "tok" "CAN" "Stu,Gary" "NewStatus" [] []
      [some (status_codes.OK, value.object [("Friends", "AUS;Ross,Bob")]),
       some (status_codes.OK, value.null), some (status_codes.OK, value.null)]
      [some (status_codes.OK, value.null), some (status_codes.OK, value.null)]
      [some (status_codes.OK, value.null)]
      (value.object [("Friends", "AUS;Ross,Bob")]) value.null
      (by decide) (by decide) (by decide)).1.mpr (by decide)

/-! ## ReadFriendList -/

/-- C19: for a signed-on user with session (t, p, r), ReadFriendList sends
exactly one request, the token-scoped read `ReadEntityAuth/DataTable/t/p/r`;
when the read returns 200 the reply is 200 with the body
`build_json_value ("Friends", f)`, f being the Friends property of the record
read, and when it returns another status the reply is NotFound. -/
theorem read_friend_list_reply {W : Type} (cu : ClientUtils) (net : Net W)
    (session : Session) (uid t p r : String) (rest : List String)
    (json_body : List (String × String)) (w : W)
    (hs : session_find uid session = some (t, p, r)) :
    let out := handle_get cu net session ⟨read_friend_list :: uid :: rest, json_body⟩ w
    out.sent = [⟨methods.GET,
      addr ++ "ReadEntityAuth/DataTable/" ++ t ++ "/" ++ p ++ "/" ++ r, value.null⟩] ∧
    out.session = session ∧
    ∀ result : Response,
      (net w ⟨methods.GET, addr ++ "ReadEntityAuth/DataTable/" ++ t ++ "/" ++ p ++ "/" ++ r,
        value.null⟩).2 = some result →
      (result.1 = status_codes.OK →
        out.reply = some (status_codes.OK,
          cu.build_json_value "Friends" (cu.get_json_object_prop result.2 "Friends"))) ∧
      (result.1 ≠ status_codes.OK →
        out.reply = some (status_codes.NotFound, value.null)) := by
  intro out
  have huri : addr ++ "ReadEntityAuth/DataTable/" ++ t ++ "/" ++ p ++ "/" ++ r
      = read_entity_auth_uri t p r := by
    simp [read_entity_auth_uri, String.append_assoc]
    rfl
  rw [huri]
  have hout : out = _ := handle_get_read_friend_list_eq cu net session uid t p r rest
    json_body w _ _ hs rfl
  rw [hout]
  refine ⟨rfl, rfl, ?_⟩
  intro result hres
  constructor
  · intro hok
    simp [hres, hok]
  · intro hne
    simp [hres, hne]

/-- Witness of C19: Gary is signed on and the record read returns 200 with
Friends "USA;Shinoda,Mike"; the reply is 200 with the JSON object
`{"Friends":"USA;Shinoda,Mike"}`. -/
theorem read_friend_list_reply_witness :
    (handle_get clientUtils scripted [("Gary", ("tok", "CAN", "Stu,Gary"))]
      ⟨[read_friend_list, "Gary"], []⟩
      [some (status_codes.OK, value.object
        [("Friends", "USA;Shinoda,Mike"), ("Status", "I%20Suck")])]).reply
      = some (status_codes.OK, value.object [("Friends", "USA;Shinoda,Mike")]) :=
  ((read_friend_list_reply clientUtils scripted [("Gary", ("tok", "CAN", "Stu,Gary"))]
      "Gary" "tok" "CAN" "Stu,Gary" [] []
      [some (status_codes.OK, value.object
        [("Friends", "USA;Shinoda,Mike"), ("Status", "I%20Suck")])]
      (by decide)).2.2
      (status_codes.OK, value.object [("Friends", "USA;Shinoda,Mike"), ("Status", "I%20Suck")])
      (by decide)).1 (by decide)

/-! ## Request shape -/

/-- Counterexample to C20: a POST request `SignOn` without a user id, and one
with no path segment at all, are answered NotFound, not BadRequest. -/
theorem post_missing_segment_counterexample :
    (handle_post clientUtils scripted [] ⟨[sign_on], [("Password", "Stu")]⟩ []).reply
      = some (status_codes.NotFound, value.null) ∧
    (handle_post clientUtils scripted [] ⟨[sign_off], []⟩ []).reply
      = some (status_codes.NotFound, value.null) ∧
    (handle_post clientUtils scripted [] ⟨[], []⟩ []).reply
      = some (status_codes.NotFound, value.null) := by
  decide

/-- C20 (amended): a request whose path lacks a segment its operation needs is
rejected before any downstream request, with the session table and the world
unchanged.  GET with no operation or ReadFriendList without a user id, and
PUT with fewer than three segments or AddFriend / UnFriend without the second
location part, are answered BadRequest; POST with a path that does not have
exactly two segments (no operation, SignOn or SignOff without a user id) is
answered NotFound. -/
theorem missing_segment_rejected {W : Type} (cu : ClientUtils) (net : Net W)
    (session : Session) (paths : List String) (uid p2 : String)
    (json_body : List (String × String)) (w : W) :
    handle_get cu net session ⟨[], json_body⟩ w
      = ⟨some (status_codes.BadRequest, value.null), session, w, []⟩ ∧
    handle_get cu net session ⟨[read_friend_list], json_body⟩ w
      = ⟨some (status_codes.BadRequest, value.null), session, w, []⟩ ∧
    (paths.length < 3 →
      handle_put cu net session ⟨paths, json_body⟩ w
        = ⟨some (status_codes.BadRequest, value.null), session, w, []⟩) ∧
    handle_put cu net session ⟨[add_friend, uid, p2], json_body⟩ w
      = ⟨some (status_codes.BadRequest, value.null), session, w, []⟩ ∧
    handle_put cu net session ⟨[un_friend, uid, p2], json_body⟩ w
      = ⟨some (status_codes.BadRequest, value.null), session, w, []⟩ ∧
    (paths.length ≠ 2 →
      handle_post cu net session ⟨paths, json_body⟩ w
        = ⟨some (status_codes.NotFound, value.null), session, w, []⟩) := by
  have h1 : ¬ (un_friend = add_friend) := by decide
  refine ⟨?_, ?_, ?_, ?_, ?_, ?_⟩
  · simp [handle_get, Run.reply]
  · simp [handle_get, Run.reply]
  · intro hlen
    match paths, hlen with
    | [], _ => simp [handle_put, Run.reply]
    | [_], _ => simp [handle_put, Run.reply]
    | [_, _], _ => simp [handle_put, Run.reply]
    | _ :: _ :: _ :: _, h => simp at h; omega
  · simp [handle_put, Run.reply]
  · simp [handle_put, h1, Run.reply]
  · intro hlen
    match paths, hlen with
    | [], _ => simp [handle_post, Run.reply]
    | [_], _ => simp [handle_post, Run.reply]
    | [_, _], h => simp at h
    | _ :: _ :: _ :: _, _ => simp [handle_post, Run.reply]

/-- Witness of C20 (amended): `UpdateStatus/Gary` without a status is answered
BadRequest by PUT, and `SignOff` without a user id NotFound by POST. -/
theorem missing_segment_rejected_witness :
    handle_put clientUtils scripted [("Gary", ("tok", "CAN", "Stu,Gary"))]
      ⟨[update_status, "Gary"], []⟩ []
      = ⟨some (status_codes.BadRequest, value.null), [("Gary", ("tok", "CAN", "Stu,Gary"))],
          [], []⟩ ∧
    handle_post clientUtils scripted [("Gary", ("tok", "CAN", "Stu,Gary"))]
      ⟨[sign_off], []⟩ []
      = ⟨some (status_codes.NotFound, value.null), [("Gary", ("tok", "CAN", "Stu,Gary"))],
          [], []⟩ :=
  ⟨(missing_segment_rejected clientUtils scripted [("Gary", ("tok", "CAN", "Stu,Gary"))]
      [update_status, "Gary"] "" "" [] []).2.2.1 (by decide),
   (missing_segment_rejected clientUtils scripted [("Gary", ("tok", "CAN", "Stu,Gary"))]
      [sign_off] "" "" [] []).2.2.2.2.2 (by decide)⟩

/-! ## Friends-list codec -/

/-- Counterexample to C18: a pair whose partition contains the pair separator
is not recovered; the list with the single pair ("A|B", "c") is encoded as
"A|B;c" and decoded as the two pairs ("A", "") and ("B", "c"). -/
theorem codec_round_trip_counterexample :
    friends_list_to_string [("A|B", "c")] = "A|B;c" ∧
    parse_friends_list (friends_list_to_string [("A|B", "c")]) = [("A", ""), ("B", "c")] ∧
    parse_friends_list (friends_list_to_string [("A|B", "c")]) ≠ [("A|B", "c")] := by
  decide

/-- C18 (amended): the friends-list codec round-trips every list of pairs in
which no partition contains `|` or `;` and no row contains `|`, the empty
list included: decoding the encoding of such a list gives the list back. -/
theorem codec_round_trip (l : friends_list_t)
    (h : ∀ f ∈ l, '|' ∉ f.1.data ∧ ';' ∉ f.1.data ∧ '|' ∉ f.2.data) :
    parse_friends_list (friends_list_to_string l) = l := by
  cases l with
  | nil => simp [parse_friends_list, friends_list_to_string]
  | cons f rest =>
    simp only [parse_friends_list, friends_list_to_string_ne_nil f rest, if_false]
    exact split_all_friends_list_to_string f rest h

/-- Witness of C18 (amended): the two friends of the tests are recovered from
"USA;Shinoda,Mike|AUS;Ross,Bob". -/
theorem codec_round_trip_witness :
    (∀ f ∈ [("USA", "Shinoda,Mike"), ("AUS", "Ross,Bob")],
      '|' ∉ f.1.data ∧ ';' ∉ f.1.data ∧ '|' ∉ f.2.data) ∧
    parse_friends_list "USA;Shinoda,Mike|AUS;Ross,Bob"
      = [("USA", "Shinoda,Mike"), ("AUS", "Ross,Bob")] :=
  ⟨by decide,
   codec_round_trip [("USA", "Shinoda,Mike"), ("AUS", "Ross,Bob")] (by decide)⟩

/-! ## Every path through the handlers -/

theorem put_add_friend_session {W : Type} (cu : ClientUtils) (net : Net W) (session : Session)
    (st : Run W) (t p r c n : String) :
    (put_add_friend cu net session st t p r c n).session = session := by
  simp only [put_add_friend]
  repeat' split
  all_goals rfl

theorem put_un_friend_session {W : Type} (cu : ClientUtils) (net : Net W) (session : Session)
    (st : Run W) (t p r c n : String) :
    (put_un_friend cu net session st t p r c n).session = session := by
  simp only [put_un_friend]
  repeat' split
  all_goals rfl

theorem put_update_status_session {W : Type} (cu : ClientUtils) (net : Net W)
    (session : Session) (st : Run W) (uid t p r status : String) :
    (put_update_status cu net session st uid t p r status).session = session := by
  simp only [put_update_status]
  repeat' split
  all_goals rfl

theorem handle_put_cases {W : Type} (cu : ClientUtils) (net : Net W) (session : Session)
    (message : http_request) (w : W) (P : Outcome W → Prop)
    (hreply : ∀ code, P (Run.reply ⟨w, []⟩ session code))
    (hadd : ∀ t p r c n, P (put_add_friend cu net session ⟨w, []⟩ t p r c n))
    (hun : ∀ t p r c n, P (put_un_friend cu net session ⟨w, []⟩ t p r c n))
    (hupd : ∀ uid t p r status, P (put_update_status cu net session ⟨w, []⟩ uid t p r status)) :
    P (handle_put cu net session message w) := by
  simp only [handle_put]
  repeat' split
  all_goals first
    | exact hreply _
    | exact hadd _ _ _ _ _
    | exact hun _ _ _ _ _
    | exact hupd _ _ _ _ _

theorem handle_get_session {W : Type} (cu : ClientUtils) (net : Net W) (session : Session)
    (message : http_request) (w : W) :
    (handle_get cu net session message w).session = session := by
  simp only [handle_get]
  repeat' split
  all_goals rfl

theorem handle_post_session {W : Type} (cu : ClientUtils) (net : Net W) (session : Session)
    (message : http_request) (w : W)
    (h : (handle_post cu net session message w).reply ≠ some (status_codes.OK, value.null)) :
    (handle_post cu net session message w).session = session := by
  revert h
  simp only [handle_post]
  repeat' split
  all_goals first
    | (intro _; rfl)
    | (intro h; exact absurd rfl h)

theorem handle_post_unknown_session {W : Type} (cu : ClientUtils) (net : Net W)
    (session : Session) (message : http_request) (w : W)
    (h1 : message.paths.head? ≠ some sign_on) (h2 : message.paths.head? ≠ some sign_off) :
    (handle_post cu net session message w).session = session := by
  obtain ⟨paths, json_body⟩ := message
  rcases paths with _ | ⟨op, _ | ⟨uid, _ | ⟨p2, rest⟩⟩⟩
  · simp [handle_post, Run.reply]
  · simp [handle_post, Run.reply]
  · have h1' : ¬ op = sign_on := by simpa using h1
    have h2' : ¬ op = sign_off := by simpa using h2
    simp [handle_post, h1', h2', Run.reply]
  · simp [handle_post, Run.reply]

/-! ## Answers of the downstream requests -/

theorem put_add_friend_methods {W : Type} (cu : ClientUtils) (net : Net W) (session : Session)
    (w : W) (t p r c n : String) :
    ∀ q ∈ (put_add_friend cu net session ⟨w, []⟩ t p r c n).sent,
      q.http_method ≠ methods.POST := by
  rcases h1 : net w ⟨methods.GET, read_entity_auth_uri t p r, value.null⟩ with ⟨w1, _ | ⟨s1, b1⟩⟩
  · simp [put_add_friend, Run.call, h1, Run.thrown]
  · by_cases hok : s1 = 200
    · subst hok
      by_cases hin : in_friends_list c n
          (cu.parse_friends_list (cu.get_json_object_prop b1 "Friends")) = true
      · simp [put_add_friend, Run.call, h1, hin, Run.reply]
      · rcases h2 : net w1 ⟨methods.PUT, update_entity_auth_uri t p r,
            cu.build_json_value "Friends" (cu.friends_list_to_string
              (cu.parse_friends_list (cu.get_json_object_prop b1 "Friends") ++ [(c, n)]))⟩
          with ⟨w2, _ | ⟨s2, b2⟩⟩
        · simp [put_add_friend, Run.call, h1, hin, h2, Run.thrown]
        · by_cases hok2 : s2 = 200
          · simp [put_add_friend, Run.call, h1, hin, h2, Run.reply, hok2]
          · simp [put_add_friend, Run.call, h1, hin, h2, Run.reply, hok2]
    · simp [put_add_friend, Run.call, h1, Run.reply, hok]

theorem put_un_friend_methods {W : Type} (cu : ClientUtils) (net : Net W) (session : Session)
    (w : W) (t p r c n : String) :
    ∀ q ∈ (put_un_friend cu net session ⟨w, []⟩ t p r c n).sent,
      q.http_method ≠ methods.POST := by
  rcases h1 : net w ⟨methods.GET, read_entity_auth_uri t p r, value.null⟩ with ⟨w1, _ | ⟨s1, b1⟩⟩
  · simp [put_un_friend, Run.call, h1, Run.thrown]
  · by_cases hok : s1 = 200
    · subst hok
      rcases h2 : net w1 ⟨methods.PUT, update_entity_auth_uri t p r,
          cu.build_json_value "Friends" (cu.friends_list_to_string (erase_friend c n
            (cu.parse_friends_list (cu.get_json_object_prop b1 "Friends"))))⟩
        with ⟨w2, _ | ⟨s2, b2⟩⟩
      · simp [put_un_friend, Run.call, h1, h2, Run.thrown]
      · by_cases hok2 : s2 = 200
        · simp [put_un_friend, Run.call, h1, h2, Run.reply, hok2]
        · simp [put_un_friend, Run.call, h1, h2, Run.reply, hok2]
    · simp [put_un_friend, Run.call, h1, Run.reply, hok]

theorem put_update_status_posts {W : Type} (cu : ClientUtils) (net : Net W)
    (session : Session) (w : W) (uid t p r status : String) :
    ∀ q ∈ (put_update_status cu net session ⟨w, []⟩ uid t p r status).sent,
      q.http_method = methods.POST →
      q.uri_string = push_addr ++ push_status ++ "/" ++ p ++ "/" ++ uid ++ "/" ++ status := by
  rcases h1 : net w ⟨methods.GET, read_entity_auth_uri t p r, value.null⟩ with ⟨w1, _ | ⟨s1, b1⟩⟩
  · simp [put_update_status, Run.call, h1, Run.thrown]
  · by_cases hok : s1 = 200
    · subst hok
      rcases h2 : net w1 ⟨methods.PUT, update_entity_auth_uri t p r,
          cu.build_json_value "Status" status⟩ with ⟨w2, _ | ⟨s2, b2⟩⟩
      · simp [put_update_status, Run.call, h1, h2, Run.thrown]
      · by_cases hok2 : s2 = 200
        · subst hok2
          rcases h3 : net w2 ⟨methods.POST,
              push_addr ++ push_status ++ "/" ++ p ++ "/" ++ uid ++ "/" ++ status,
              cu.build_json_value "Friends" (cu.get_json_object_prop b1 "Friends")⟩
            with ⟨w3, o3⟩
          rw [put_update_status_pushed cu net session uid t p r status w w1 w2 w3 b1 b2 o3
            h1 h2 h3]
          simp
        · simp [put_update_status, Run.call, h1, h2, Run.reply, hok2]
    · simp [put_update_status, Run.call, h1, Run.reply, hok]

theorem put_add_friend_failure {W : Type} (cu : ClientUtils) (net : Net W) (session : Session)
    (w : W) (t p r c n : String) (q : Request) (s : status_code) (body : value)
    (hs : s ≠ status_codes.OK)
    (hmem : (q, some (s, body)) ∈ (put_add_friend cu net session ⟨w, []⟩ t p r c n).sent.zip
      (PushServer.replay net w (put_add_friend cu net session ⟨w, []⟩ t p r c n).sent)) :
    (put_add_friend cu net session ⟨w, []⟩ t p r c n).reply
      = some (status_codes.NotFound, value.null) ∧ q.http_method ≠ methods.POST := by
  rcases h1 : net w ⟨methods.GET, read_entity_auth_uri t p r, value.null⟩ with ⟨w1, _ | ⟨s1, b1⟩⟩
  · simp [put_add_friend, Run.call, h1, Run.thrown, PushServer.replay] at hmem
  · by_cases hok : s1 = 200
    · subst hok
      by_cases hin : in_friends_list c n
          (cu.parse_friends_list (cu.get_json_object_prop b1 "Friends")) = true
      · simp [put_add_friend, Run.call, h1, hin, Run.reply, PushServer.replay] at hmem
        exact absurd hmem.2.1 hs
      · rcases h2 : net w1 ⟨methods.PUT, update_entity_auth_uri t p r,
            cu.build_json_value "Friends" (cu.friends_list_to_string
              (cu.parse_friends_list (cu.get_json_object_prop b1 "Friends") ++ [(c, n)]))⟩
          with ⟨w2, _ | ⟨s2, b2⟩⟩
        · simp [put_add_friend, Run.call, h1, hin, h2, Run.thrown, PushServer.replay] at hmem
          exact absurd hmem.2.1 hs
        · by_cases hok2 : s2 = 200
          · subst hok2
            simp [put_add_friend, Run.call, h1, hin, h2, Run.reply, PushServer.replay] at hmem
            rcases hmem with hm | hm
            · exact absurd hm.2.1 hs
            · exact absurd hm.2.1 hs
          · have hq : q.http_method ≠ methods.POST := by
              simp [put_add_friend, Run.call, h1, hin, h2, Run.reply, hok2, PushServer.replay]
                at hmem
              rcases hmem with hm | hm
              · rw [hm.1]; simp
              · rw [hm.1]; simp
            exact ⟨by simp [put_add_friend, Run.call, h1, hin, h2, Run.reply, hok2], hq⟩
    · have hq : q.http_method ≠ methods.POST := by
        simp [put_add_friend, Run.call, h1, Run.reply, hok, PushServer.replay] at hmem
        rw [hmem.1]; simp
      exact ⟨by simp [put_add_friend, Run.call, h1, Run.reply, hok], hq⟩

theorem put_un_friend_failure {W : Type} (cu : ClientUtils) (net : Net W) (session : Session)
    (w : W) (t p r c n : String) (q : Request) (s : status_code) (body : value)
    (hs : s ≠ status_codes.OK)
    (hmem : (q, some (s, body)) ∈ (put_un_friend cu net session ⟨w, []⟩ t p r c n).sent.zip
      (PushServer.replay net w (put_un_friend cu net session ⟨w, []⟩ t p r c n).sent)) :
    (put_un_friend cu net session ⟨w, []⟩ t p r c n).reply
      = some (status_codes.NotFound, value.null) ∧ q.http_method ≠ methods.POST := by
  rcases h1 : net w ⟨methods.GET, read_entity_auth_uri t p r, value.null⟩ with ⟨w1, _ | ⟨s1, b1⟩⟩
  · simp [put_un_friend, Run.call, h1, Run.thrown, PushServer.replay] at hmem
  · by_cases hok : s1 = 200
    · subst hok
      rcases h2 : net w1 ⟨methods.PUT, update_entity_auth_uri t p r,
          cu.build_json_value "Friends" (cu.friends_list_to_string (erase_friend c n
            (cu.parse_friends_list (cu.get_json_object_prop b1 "Friends"))))⟩
        with ⟨w2, _ | ⟨s2, b2⟩⟩
      · simp [put_un_friend, Run.call, h1, h2, Run.thrown, PushServer.replay] at hmem
        exact absurd hmem.2.1 hs
      · by_cases hok2 : s2 = 200
        · subst hok2
          simp [put_un_friend, Run.call, h1, h2, Run.reply, PushServer.replay] at hmem
          rcases hmem with hm | hm
          · exact absurd hm.2.1 hs
          · exact absurd hm.2.1 hs
        · have hq : q.http_method ≠ methods.POST := by
            simp [put_un_friend, Run.call, h1, h2, Run.reply, hok2, PushServer.replay] at hmem
            rcases hmem with hm | hm
            · rw [hm.1]; simp
            · rw [hm.1]; simp
          exact ⟨by simp [put_un_friend, Run.call, h1, h2, Run.reply, hok2], hq⟩
    · have hq : q.http_method ≠ methods.POST := by
        simp [put_un_friend, Run.call, h1, Run.reply, hok, PushServer.replay] at hmem
        rw [hmem.1]; simp
      exact ⟨by simp [put_un_friend, Run.call, h1, Run.reply, hok], hq⟩

theorem put_update_status_failure {W : Type} (cu : ClientUtils) (net : Net W)
    (session : Session) (w : W) (uid t p r status : String) (q : Request) (s : status_code)
    (body : value) (hs : s ≠ status_codes.OK)
    (hmem : (q, some (s, body)) ∈
      (put_update_status cu net session ⟨w, []⟩ uid t p r status).sent.zip
        (PushServer.replay net w (put_update_status cu net session ⟨w, []⟩ uid t p r status).sent)) :
    (put_update_status cu net session ⟨w, []⟩ uid t p r status).reply
      = some (if q.http_method = methods.POST ∧ s = status_codes.ServiceUnavailable then
          status_codes.ServiceUnavailable else status_codes.NotFound, value.null) := by
  rcases h1 : net w ⟨methods.GET, read_entity_auth_uri t p r, value.null⟩ with ⟨w1, _ | ⟨s1, b1⟩⟩
  · simp [put_update_status, Run.call, h1, Run.thrown, PushServer.replay] at hmem
  · by_cases hok : s1 = 200
    · subst hok
      rcases h2 : net w1 ⟨methods.PUT, update_entity_auth_uri t p r,
          cu.build_json_value "Status" status⟩ with ⟨w2, _ | ⟨s2, b2⟩⟩
      · simp [put_update_status, Run.call, h1, h2, Run.thrown, PushServer.replay] at hmem
        exact absurd hmem.2.1 hs
      · by_cases hok2 : s2 = 200
        · subst hok2
          rcases h3 : net w2 ⟨methods.POST,
              push_addr ++ push_status ++ "/" ++ p ++ "/" ++ uid ++ "/" ++ status,
              cu.build_json_value "Friends" (cu.get_json_object_prop b1 "Friends")⟩
            with ⟨w3, o3⟩
          rw [put_update_status_pushed cu net session uid t p r status w w1 w2 w3 b1 b2 o3
            h1 h2 h3] at hmem ⊢
          simp [PushServer.replay, h1, h2, h3] at hmem
          rcases hmem with hm | hm | hm
          · exact absurd hm.2.1 hs
          · exact absurd hm.2.1 hs
          · obtain ⟨hq, ho3⟩ := hm
            subst hq ho3
            have hs' : ¬ s = 200 := hs
            by_cases h503 : s = 503
            · simp [h503]
            · simp [h503, hs']
        · have hq : q.http_method ≠ methods.POST := by
            simp [put_update_status, Run.call, h1, h2, Run.reply, hok2, PushServer.replay] at hmem
            rcases hmem with hm | hm
            · rw [hm.1]; simp
            · rw [hm.1]; simp
          simp [put_update_status, Run.call, h1, h2, Run.reply, hok2, hq]
    · have hq : q.http_method ≠ methods.POST := by
        simp [put_update_status, Run.call, h1, Run.reply, hok, PushServer.replay] at hmem
        rw [hmem.1]; simp
      simp [put_update_status, Run.call, h1, Run.reply, hok, hq]

theorem handle_get_failure {W : Type} (cu : ClientUtils) (net : Net W) (session : Session)
    (message : http_request) (w : W) (q : Request) (s : status_code) (body : value)
    (hs : s ≠ status_codes.OK)
    (hmem : (q, some (s, body)) ∈ (handle_get cu net session message w).sent.zip
      (PushServer.replay net w (handle_get cu net session message w).sent)) :
    (handle_get cu net session message w).reply = some (status_codes.NotFound, value.null) := by
  revert hmem
  simp only [handle_get]
  split
  · simp [Run.reply]
  · split
    · split
      · simp [Run.reply]
      · split
        · split
          · rename_i token partition row _
            rcases h1 : net w ⟨methods.GET, read_entity_auth_uri token partition row, value.null⟩
              with ⟨w1, _ | ⟨s1, b1⟩⟩
            · simp [Run.call, h1, Run.thrown, PushServer.replay]
            · by_cases hok : s1 = 200
              · subst hok
                simp [Run.call, h1, Run.reply_body, PushServer.replay]
                intro _ h _
                exact absurd h hs
              · simp [Run.call, h1, Run.reply, hok]
          · simp [Run.reply]
        · simp [Run.reply]
    · simp [Run.reply]

theorem handle_post_failure {W : Type} (cu : ClientUtils) (net : Net W) (session : Session)
    (message : http_request) (w : W) (q : Request) (s : status_code) (body : value)
    (hs : s ≠ status_codes.OK)
    (hmem : (q, some (s, body)) ∈ (handle_post cu net session message w).sent.zip
      (PushServer.replay net w (handle_post cu net session message w).sent)) :
    (handle_post cu net session message w).reply = some (status_codes.NotFound, value.null) := by
  revert hmem
  simp only [handle_post]
  split
  · rename_i op uid _
    split
    · split
      · simp [Run.reply]
      · rcases h1 : net w ⟨methods.GET, auth_addr ++ get_update_data_op ++ "/" ++ uid,
            cu.build_json_value_vec
              [("Password", json_index message.json_body auth_table_password_prop)]⟩
          with ⟨w1, _ | ⟨s1, b1⟩⟩
        · simp [get_update_data, Run.call, h1, Run.thrown, PushServer.replay]
        · by_cases hok : s1 = 200
          · subst hok
            simp only [get_update_data, Run.call, h1]
            simp only [ne_eq, not_true_eq_false, if_false]
            split
            · simp [Run.reply, PushServer.replay, h1]
              intro _ h _
              exact absurd h hs
            · rcases h2 : net w1 ⟨methods.GET,
                  read_entity_auth_uri (cu.get_json_object_prop b1 "token")
                    (cu.get_json_object_prop b1 "DataPartition")
                    (cu.get_json_object_prop b1 "DataRow"), value.null⟩
                with ⟨w2, _ | ⟨s2, b2⟩⟩
              · simp [h2, Run.thrown, PushServer.replay, h1]
                intro _ h _
                exact absurd h hs
              · by_cases hok2 : s2 = 200
                · subst hok2
                  simp [h2, Run.reply, PushServer.replay, h1]
                  exact ⟨fun _ h _ => absurd h hs, fun _ h _ => absurd h hs⟩
                · have hok2' : ¬ 200 = s2 := fun e => hok2 e.symm
                  simp [h2, Run.reply, hok2, hok2']
          · simp [get_update_data, Run.call, h1, Run.reply, hok]
    · split
      · split <;> simp [Run.reply]
      · simp [Run.reply]
  · simp [Run.reply]

/-- Counterexample to C21: the Credential Service answers GetUpdateData with
BadRequest and SignOn replies NotFound; the Record Store answers both requests
of UpdateStatus with 200, the notifier answers PushStatus with BadRequest, and
UpdateStatus replies NotFound. -/
theorem downstream_failure_counterexample :
    (handle_post clientUtils scripted [] ⟨[sign_on, "Gary"], [("Password", "Stu")]⟩
      [some (status_codes.BadRequest, value.null)]).sent
      = [⟨methods.GET, "http://localhost:34570/GetUpdateData/Gary",
          value.object [("Password", "Stu")]⟩] ∧
    (handle_post clientUtils scripted [] ⟨[sign_on, "Gary"], [("Password", "Stu")]⟩
      [some (status_codes.BadRequest, value.null)]).reply
      = some (status_codes.NotFound, value.null) ∧
    (handle_put clientUtils scripted [("Gary", ("tok", "CAN", "Stu,Gary"))]
      ⟨[update_status, "Gary", "Happy"], []⟩
      [some (status_codes.OK, value.object [("Friends", "USA;Shinoda,Mike")]),
       some (status_codes.OK, value.null),
       some (status_codes.BadRequest, value.null)]).sent.map (fun q => q.http_method)
      = [methods.GET, methods.PUT, methods.POST] ∧
    (handle_put clientUtils scripted [("Gary", ("tok", "CAN", "Stu,Gary"))]
      ⟨[update_status, "Gary", "Happy"], []⟩
      [some (status_codes.OK, value.object [("Friends", "USA;Shinoda,Mike")]),
       some (status_codes.OK, value.null),
       some (status_codes.BadRequest, value.null)]).reply
      = some (status_codes.NotFound, value.null) := by
  decide

/-- C21 (amended): downstream failures are collapsed.  For every session table,
request and world, and every downstream request `q` of the handler that was
answered with a status `s` other than 200 (the answers are those the world
gives to the requests sent, in order): `handle_post` (SignOn) and `handle_get`
(ReadFriendList) reply NotFound whatever `s` is; `handle_put` (AddFriend,
UnFriend, UpdateStatus) replies ServiceUnavailable when `q` is its POST
request and `s` is ServiceUnavailable, and NotFound otherwise.  The POST
requests of `handle_put` are the PushStatus requests to the notifier. -/
theorem downstream_failure_collapsed {W : Type} (cu : ClientUtils) (net : Net W)
    (session : Session) (message : http_request) (w : W) (q : Request) (s : status_code)
    (body : value) (hs : s ≠ status_codes.OK) :
    ((q, some (s, body)) ∈ (handle_post cu net session message w).sent.zip
        (PushServer.replay net w (handle_post cu net session message w).sent) →
      (handle_post cu net session message w).reply = some (status_codes.NotFound, value.null)) ∧
    ((q, some (s, body)) ∈ (handle_get cu net session message w).sent.zip
        (PushServer.replay net w (handle_get cu net session message w).sent) →
      (handle_get cu net session message w).reply = some (status_codes.NotFound, value.null)) ∧
    ((q, some (s, body)) ∈ (handle_put cu net session message w).sent.zip
        (PushServer.replay net w (handle_put cu net session message w).sent) →
      (handle_put cu net session message w).reply
        = some (if q.http_method = methods.POST ∧ s = status_codes.ServiceUnavailable then
            status_codes.ServiceUnavailable else status_codes.NotFound, value.null)) ∧
    (∀ q1 ∈ (handle_put cu net session message w).sent, q1.http_method = methods.POST →
      ∃ partition uid status, q1.uri_string
        = push_addr ++ push_status ++ "/" ++ partition ++ "/" ++ uid ++ "/" ++ status) := by
  refine ⟨handle_post_failure cu net session message w q s body hs,
    handle_get_failure cu net session message w q s body hs, ?_, ?_⟩
  · refine handle_put_cases cu net session message w
      (fun out => (q, some (s, body)) ∈ out.sent.zip (PushServer.replay net w out.sent) →
        out.reply = some (if q.http_method = methods.POST ∧ s = status_codes.ServiceUnavailable
          then status_codes.ServiceUnavailable else status_codes.NotFound, value.null))
      ?_ ?_ ?_ ?_
    · intro code
      simp [Run.reply]
    · intro t p r c n hmem
      obtain ⟨hr, hq⟩ := put_add_friend_failure cu net session w t p r c n q s body hs hmem
      rw [hr]
      simp [hq]
    · intro t p r c n hmem
      obtain ⟨hr, hq⟩ := put_un_friend_failure cu net session w t p r c n q s body hs hmem
      rw [hr]
      simp [hq]
    · intro uid t p r status hmem
      exact put_update_status_failure cu net session w uid t p r status q s body hs hmem
  · refine handle_put_cases cu net session message w
      (fun out => ∀ q1 ∈ out.sent, q1.http_method = methods.POST →
        ∃ partition uid status, q1.uri_string
          = push_addr ++ push_status ++ "/" ++ partition ++ "/" ++ uid ++ "/" ++ status)
      ?_ ?_ ?_ ?_
    · intro code
      simp [Run.reply]
    · intro t p r c n q1 hq1 hpost
      exact absurd hpost (put_add_friend_methods cu net session w t p r c n q1 hq1)
    · intro t p r c n q1 hq1 hpost
      exact absurd hpost (put_un_friend_methods cu net session w t p r c n q1 hq1)
    · intro uid t p r status q1 hq1 hpost
      exact ⟨p, uid, status,
        put_update_status_posts cu net session w uid t p r status q1 hq1 hpost⟩

/-- Witness of C21 (amended): Gary is signed on and updates his status; the
Record Store answers 200 twice and the notifier answers ServiceUnavailable,
which is what UpdateStatus replies. -/
theorem downstream_failure_collapsed_witness :
    status_codes.ServiceUnavailable ≠ status_codes.OK ∧
    ((⟨methods.POST, "http://localhost:34574/PushStatus/CAN/Gary/Happy",
        value.object [("Friends", "USA;Shinoda,Mike")]⟩ : Request),
      some (status_codes.ServiceUnavailable, value.null)) ∈
      (handle_put clientUtils scripted [("Gary", ("tok", "CAN", "Stu,Gary"))]
        ⟨[update_status, "Gary", "Happy"], []⟩
        [some (status_codes.OK, value.object [("Friends", "USA;Shinoda,Mike")]),
         some (status_codes.OK, value.null),
         some (status_codes.ServiceUnavailable, value.null)]).sent.zip
        (PushServer.replay scripted
          [some (status_codes.OK, value.object [("Friends", "USA;Shinoda,Mike")]),
           some (status_codes.OK, value.null),
           some (status_codes.ServiceUnavailable, value.null)]
          (handle_put clientUtils scripted [("Gary", ("tok", "CAN", "Stu,Gary"))]
            ⟨[update_status, "Gary", "Happy"], []⟩
            [some (status_codes.OK, value.object [("Friends", "USA;Shinoda,Mike")]),
             some (status_codes.OK, value.null),
             some (status_codes.ServiceUnavailable, value.null)]).sent) ∧
    (handle_put clientUtils scripted [("Gary", ("tok", "CAN", "Stu,Gary"))]
      ⟨[update_status, "Gary", "Happy"], []⟩
      [some (status_codes.OK, value.object [("Friends", "USA;Shinoda,Mike")]),
       some (status_codes.OK, value.null),
       some (status_codes.ServiceUnavailable, value.null)]).reply
      = some (status_codes.ServiceUnavailable, value.null) :=
  ⟨by decide, by decide,
   (downstream_failure_collapsed clientUtils scripted [("Gary", ("tok", "CAN", "Stu,Gary"))]
      ⟨[update_status, "Gary", "Happy"], []⟩
      [some (status_codes.OK, value.object [("Friends", "USA;Shinoda,Mike")]),
       some (status_codes.OK, value.null),
       some (status_codes.ServiceUnavailable, value.null)]
      ⟨methods.POST, "http://localhost:34574/PushStatus/CAN/Gary/Happy",
        value.object [("Friends", "USA;Shinoda,Mike")]⟩
      status_codes.ServiceUnavailable value.null (by decide)).2.2.1 (by decide)⟩

/-! ## Frame of the session table -/

/-- C28 (only SignOn and SignOff change the session table): for every session
table, request and world, `handle_get` (ReadFriendList) and `handle_put`
(AddFriend, UnFriend, UpdateStatus), whatever they reply and whatever the
downstream requests return, leave the session table exactly as it was; so does
`handle_post` whenever it does not reply 200 (a rejected SignOn or SignOff) and
whenever the operation is neither SignOn nor SignOff. -/
theorem session_frame {W : Type} (cu : ClientUtils) (net : Net W) (session : Session)
    (message : http_request) (w : W) :
    (handle_get cu net session message w).session = session ∧
    (handle_put cu net session message w).session = session ∧
    ((handle_post cu net session message w).reply ≠ some (status_codes.OK, value.null) →
      (handle_post cu net session message w).session = session) ∧
    (message.paths.head? ≠ some sign_on → message.paths.head? ≠ some sign_off →
      (handle_post cu net session message w).session = session) :=
  ⟨handle_get_session cu net session message w,
   handle_put_cases cu net session message w (fun out => out.session = session)
     (fun _ => rfl)
     (fun t p r c n => put_add_friend_session cu net session _ t p r c n)
     (fun t p r c n => put_un_friend_session cu net session _ t p r c n)
     (fun uid t p r status => put_update_status_session cu net session _ uid t p r status),
   handle_post_session cu net session message w,
   handle_post_unknown_session cu net session message w⟩

/-- Witness of C28: Gary is signed on; an UpdateStatus of Gary whose requests
are all answered, a SignOn of Gary rejected for a wrong password and a POST of
an unknown operation each leave the one-entry session table as it was. -/
theorem session_frame_witness :
    (handle_put clientUtils scripted [("Gary", ("tok", "CAN", "Stu,Gary"))]
      ⟨[update_status, "Gary", "Happy"], []⟩
      [some (status_codes.OK, value.object [("Friends", "USA;Shinoda,Mike")]),
       some (status_codes.OK, value.null), some (status_codes.OK, value.null)]).session
      = [("Gary", ("tok", "CAN", "Stu,Gary"))] ∧
    (handle_post clientUtils scripted [("Gary", ("tok", "CAN", "Stu,Gary"))]
      ⟨[sign_on, "Gary"], [("Password", "WrongPassword")]⟩
      [some (status_codes.NotFound, value.null)]).session
      = [("Gary", ("tok", "CAN", "Stu,Gary"))] ∧
    (handle_post clientUtils scripted [("Gary", ("tok", "CAN", "Stu,Gary"))]
      ⟨["DoSomething", "Gary"], []⟩ []).session
      = [("Gary", ("tok", "CAN", "Stu,Gary"))] :=
  ⟨(session_frame clientUtils scripted [("Gary", ("tok", "CAN", "Stu,Gary"))]
      ⟨[update_status, "Gary", "Happy"], []⟩
      [some (status_codes.OK, value.object [("Friends", "USA;Shinoda,Mike")]),
       some (status_codes.OK, value.null), some (status_codes.OK, value.null)]).2.1,
   (session_frame clientUtils scripted [("Gary", ("tok", "CAN", "Stu,Gary"))]
      ⟨[sign_on, "Gary"], [("Password", "WrongPassword")]⟩
      [some (status_codes.NotFound, value.null)]).2.2.1 (by decide),
   (session_frame clientUtils scripted [("Gary", ("tok", "CAN", "Stu,Gary"))]
      ⟨["DoSomething", "Gary"], []⟩ []).2.2.2 (by decide) (by decide)⟩

/-! ## Uniqueness of the friends list -/

/-- C27 (AddFriend and UnFriend preserve uniqueness): for a signed-on user whose
record read returns 200 with a Friends value that decodes to a list L without
two equal pairs, and for every location (c, n): AddFriend writes nothing back
when (c, n) is in L and otherwise writes back the encoding of L followed by
(c, n), a list without two equal pairs; UnFriend writes back the encoding of L
with the first (c, n) erased, again a list without two equal pairs. -/
theorem friends_list_stays_unique {W : Type} (cu : ClientUtils) (net : Net W)
    (session : Session) (uid t p r c n : String) (rest : List String)
    (json_body : List (String × String)) (w w1 : W) (v : value)
    (hs : session_find uid session = some (t, p, r))
    (hread : net w ⟨methods.GET, read_entity_auth_uri t p r, value.null⟩
      = (w1, some (status_codes.OK, v)))
    (hnodup : (cu.parse_friends_list (cu.get_json_object_prop v "Friends")).Nodup) :
    ((c, n) ∈ cu.parse_friends_list (cu.get_json_object_prop v "Friends") →
      (handle_put cu net session ⟨add_friend :: uid :: c :: n :: rest, json_body⟩ w).sent
        = [⟨methods.GET, read_entity_auth_uri t p r, value.null⟩]) ∧
    ((c, n) ∉ cu.parse_friends_list (cu.get_json_object_prop v "Friends") →
      (handle_put cu net session ⟨add_friend :: uid :: c :: n :: rest, json_body⟩ w).sent
        = [⟨methods.GET, read_entity_auth_uri t p r, value.null⟩,
           ⟨methods.PUT, update_entity_auth_uri t p r,
            cu.build_json_value "Friends" (cu.friends_list_to_string
              (cu.parse_friends_list (cu.get_json_object_prop v "Friends") ++ [(c, n)]))⟩] ∧
      (cu.parse_friends_list (cu.get_json_object_prop v "Friends") ++ [(c, n)]).Nodup) ∧
    (handle_put cu net session ⟨un_friend :: uid :: c :: n :: rest, json_body⟩ w).sent
      = [⟨methods.GET, read_entity_auth_uri t p r, value.null⟩,
         ⟨methods.PUT, update_entity_auth_uri t p r,
          cu.build_json_value "Friends" (cu.friends_list_to_string
            (erase_friend c n (cu.parse_friends_list (cu.get_json_object_prop v "Friends"))))⟩] ∧
    (erase_friend c n (cu.parse_friends_list (cu.get_json_object_prop v "Friends"))).Nodup := by
  refine ⟨?_, ?_, ?_, ?_⟩
  · intro hin
    rw [handle_put_add_friend_eq cu net session uid t p r c n rest json_body w hs,
      put_add_friend_present cu net session t p r c n w w1 v hread hin]
  · intro hnew
    refine ⟨?_, ?_⟩
    · rw [handle_put_add_friend_eq cu net session uid t p r c n rest json_body w hs,
        put_add_friend_new cu net session t p r c n w w1 _ v _ hread hnew rfl]
    · exact List.Nodup.append hnodup (List.nodup_singleton _) (by simpa using hnew)
  · rw [handle_put_un_friend_eq cu net session uid t p r c n rest json_body w hs,
      put_un_friend_read_ok cu net session t p r c n w w1 _ v _ hread rfl]
  · rw [erase_friend_eq_erase]
    exact hnodup.erase _

/-- Witness of C27: Gary's stored list is (USA, "Shinoda,Mike"), (AUS,
"Ross,Bob"); adding (CAN, "Stu,Gary") writes back the three different pairs. -/
theorem friends_list_stays_unique_witness :
    session_find "Gary" [("Gary", ("tok", "CAN", "Stu,Gary"))]
      = some ("tok", "CAN", "Stu,Gary") ∧
    (clientUtils.parse_friends_list (clientUtils.get_json_object_prop
      (value.object [("Friends", "USA;Shinoda,Mike|AUS;Ross,Bob")]) "Friends")).Nodup ∧
    (handle_put clientUtils scripted [("Gary", ("tok", "CAN", "Stu,Gary"))]
      ⟨[add_friend, "Gary", "CAN", "Stu,Gary"], []⟩
      [some (status_codes.OK, value.object [("Friends", "USA;Shinoda,Mike|AUS;Ross,Bob")]),
       some (status_codes.OK, value.null)]).sent
      = [⟨methods.GET, read_entity_auth_uri "tok" "CAN" "Stu,Gary", value.null⟩,
         ⟨methods.PUT, update_entity_auth_uri "tok" "CAN" "Stu,Gary",
          clientUtils.build_json_value "Friends" (clientUtils.friends_list_to_string
            (clientUtils.parse_friends_list (clientUtils.get_json_object_prop
              (value.object [("Friends", "USA;Shinoda,Mike|AUS;Ross,Bob")]) "Friends")
              ++ [("CAN", "Stu,Gary")]))⟩] ∧
    (clientUtils.parse_friends_list (clientUtils.get_json_object_prop
      (value.object [("Friends", "USA;Shinoda,Mike|AUS;Ross,Bob")]) "Friends")
      ++ [("CAN", "Stu,Gary")]).Nodup :=
  ⟨by decide, by decide,
   ((friends_list_stays_unique clientUtils scripted [("Gary", ("tok", "CAN", "Stu,Gary"))]
      "Gary" "tok" "CAN" "Stu,Gary" "CAN" "Stu,Gary" [] []
      [some (status_codes.OK, value.object [("Friends", "USA;Shinoda,Mike|AUS;Ross,Bob")]),
       some (status_codes.OK, value.null)]
      [some (status_codes.OK, value.null)]
      (value.object [("Friends", "USA;Shinoda,Mike|AUS;Ross,Bob")])
      (by decide) (by decide) (by decide)).2.1 (by decide)).1,
   ((friends_list_stays_unique clientUtils scripted [("Gary", ("tok", "CAN", "Stu,Gary"))]
      "Gary" "tok" "CAN" "Stu,Gary" "CAN" "Stu,Gary" [] []
      [some (status_codes.OK, value.object [("Friends", "USA;Shinoda,Mike|AUS;Ross,Bob")]),
       some (status_codes.OK, value.null)]
      [some (status_codes.OK, value.null)]
      (value.object [("Friends", "USA;Shinoda,Mike|AUS;Ross,Bob")])
      (by decide) (by decide) (by decide)).2.1 (by decide)).2⟩

end UserServer

namespace PushServer

open UserServer hiding addr data_table_name push_status Outcome handle_post

/-! ## Auxiliary facts about the fan-out loop -/

theorem push_friends_cons {W : Type} (cu : ClientUtils) (net : Net W) (status : String)
    (f : String × String) (rest : friends_list_t) (st : Run W) (w1 w2 : W)
    (read wr : Response)
    (h1 : net st.world (read_request f) = (w1, some read))
    (h2 : net w1 (update_request cu f
      (cu.get_json_object_prop read.2 "Updates" ++ status ++ "\n")) = (w2, some wr)) :
    push_friends cu net status (f :: rest) st
      = push_friends cu net status rest { world := w2, sent := st.sent ++ [read_request f,
          update_request cu f (cu.get_json_object_prop read.2 "Updates" ++ status ++ "\n")] } := by
  simp [push_friends, Run.call, h1, h2]

theorem push_friends_trace {W : Type} (cu : ClientUtils) (net : Net W) (status : String)
    (hans : ∀ (w : W) (q : Request), (net w q).2 ≠ none)
    (l : friends_list_t) (st : Run W) :
    ∃ (tr : List Request) (w1 : W),
      push_friends cu net status l st = ({ world := w1, sent := st.sent ++ tr }, true) ∧
      tr.length = 2 * l.length ∧
      ∀ i f, l[i]? = some f → ∃ read : Response,
        tr[2 * i]? = some (read_request f) ∧
        (replay net st.world tr)[2 * i]? = some (some read) ∧
        tr[2 * i + 1]? = some (update_request cu f
          (cu.get_json_object_prop read.2 "Updates" ++ status ++ "\n")) := by
  induction l generalizing st with
  | nil => exact ⟨[], st.world, by simp [push_friends], rfl, by simp⟩
  | cons f rest ih =>
    rcases h1 : net st.world (read_request f) with ⟨w1, _ | read⟩
    · exact absurd (by rw [h1]) (hans st.world (read_request f))
    · rcases h2 : net w1 (update_request cu f
          (cu.get_json_object_prop read.2 "Updates" ++ status ++ "\n")) with ⟨w2, _ | wr⟩
      · exact absurd (by rw [h2]) (hans w1 _)
      · obtain ⟨tr, w3, hpf, hlen, hidx⟩ := ih
          { world := w2, sent := st.sent ++ [read_request f, update_request cu f
            (cu.get_json_object_prop read.2 "Updates" ++ status ++ "\n")] }
        refine ⟨read_request f :: update_request cu f
          (cu.get_json_object_prop read.2 "Updates" ++ status ++ "\n") ::  tr, w3, ?_, ?_, ?_⟩
        · rw [push_friends_cons cu net status f rest st w1 w2 read wr h1 h2, hpf]
          simp
        · simp [hlen]
          omega
        · intro i g hg
          cases i with
          | zero =>
            simp at hg
            subst hg
            exact ⟨read, by simp, by simp [replay, h1], by simp⟩
          | succ k =>
            simp at hg
            obtain ⟨rd, ha, hb, hc⟩ := hidx k g hg
            have e1 : 2 * (k + 1) = 2 * k + 1 + 1 := by omega
            have e2 : 2 * (k + 1) + 1 = 2 * k + 1 + 1 + 1 := by omega
            refine ⟨rd, ?_, ?_, ?_⟩
            · rw [e1]
              simpa using ha
            · rw [e1]
              simpa [replay, h1, h2] using hb
            · rw [e2]
              simpa using hc

theorem push_friends_requests {W : Type} (cu : ClientUtils) (net : Net W) (status : String)
    (hans : ∀ (w : W) (q : Request), (net w q).2 ≠ none)
    (l : friends_list_t) (st : Run W) :
    ∃ (tr : List Request) (w1 : W),
      push_friends cu net status l st = ({ world := w1, sent := st.sent ++ tr }, true) ∧
      tr.map (fun q => (q.http_method, q.uri_string))
        = l.flatMap (fun f => [(methods.GET, (read_request f).uri_string),
            (methods.PUT, (update_request cu f "").uri_string)]) := by
  induction l generalizing st with
  | nil => exact ⟨[], st.world, by simp [push_friends], rfl⟩
  | cons f rest ih =>
    rcases h1 : net st.world (read_request f) with ⟨w1, _ | read⟩
    · exact absurd (by rw [h1]) (hans st.world (read_request f))
    · rcases h2 : net w1 (update_request cu f
          (cu.get_json_object_prop read.2 "Updates" ++ status ++ "\n")) with ⟨w2, _ | wr⟩
      · exact absurd (by rw [h2]) (hans w1 _)
      · obtain ⟨tr, w3, hpf, hmap⟩ := ih
          { world := w2, sent := st.sent ++ [read_request f, update_request cu f
            (cu.get_json_object_prop read.2 "Updates" ++ status ++ "\n")] }
        refine ⟨read_request f :: update_request cu f
          (cu.get_json_object_prop read.2 "Updates" ++ status ++ "\n") ::  tr, w3, ?_, ?_⟩
        · rw [push_friends_cons cu net status f rest st w1 w2 read wr h1 h2, hpf]
          simp
        · simp [hmap, read_request, update_request]

/-! ## PushStatus -/

/-- C12 (fan-out appends one line per friend): for a PushStatus request with at
least four path segments whose Friends field decodes to the list L, in a world
that answers every request, the requests sent are two per pair of L in list
order: for the i-th pair the administrative read of `DataTable/p/r` and then
the administrative write-back with Updates = the Updates value just read,
followed by the status segment and a newline; the old Updates content is a
beginning of the new one. -/
theorem push_status_appends {W : Type} (cu : ClientUtils) (net : Net W)
    (p1 p2 status : String) (rest : List String) (json_body : List (String × String)) (w : W)
    (hans : ∀ (w : W) (q : Request), (net w q).2 ≠ none) :
    ∃ out : Outcome W,
      handle_post cu net ⟨push_status :: p1 :: p2 :: status :: rest, json_body⟩ w = some out ∧
      out.sent.length = 2 * (cu.parse_friends_list (json_index json_body "Friends")).length ∧
      ∀ i f, (cu.parse_friends_list (json_index json_body "Friends"))[i]? = some f →
        ∃ read : Response,
          out.sent[2 * i]? = some ⟨methods.GET,
            addr ++ "ReadEntityAdmin/DataTable/" ++ f.1 ++ "/" ++ f.2, value.null⟩ ∧
          (replay net w out.sent)[2 * i]? = some (some read) ∧
          out.sent[2 * i + 1]? = some ⟨methods.PUT,
            addr ++ "UpdateEntityAdmin/DataTable/" ++ f.1 ++ "/" ++ f.2,
            cu.build_json_value "Updates"
              (cu.get_json_object_prop read.2 "Updates" ++ status ++ "\n")⟩ ∧
          (cu.get_json_object_prop read.2 "Updates").data
            <+: (cu.get_json_object_prop read.2 "Updates" ++ status ++ "\n").data := by
  obtain ⟨tr, w1, hpf, hlen, hidx⟩ := push_friends_trace cu net status hans
    (cu.parse_friends_list (json_index json_body "Friends")) { world := w, sent := [] }
  refine ⟨{ reply := some (status_codes.OK, value.null), world := w1, sent := tr }, ?_,
    hlen, ?_⟩
  · simp [handle_post, hpf]
  · intro i f hf
    obtain ⟨read, ha, hb, hc⟩ := hidx i f hf
    refine ⟨read, ?_, hb, ?_, ?_⟩
    · rw [ha]
      simp [read_request, String.append_assoc]
      rfl
    · rw [hc]
      simp [update_request, String.append_assoc]
      rfl
    · simp [String.data_append, List.append_assoc]

/-- Witness of C12: Gary has the friend (AUS, "Ross,Bob") whose Updates value
is "CurrentlyNothing" and a newline; PushStatus with the status NewStatus
reads the record of Bob and writes back the old value followed by NewStatus
and a newline. -/
theorem push_status_appends_witness :
    (∀ (w : List Response) (q : Request),
      (answering (status_codes.OK, value.null) w q).2 ≠ none) ∧
    (handle_post clientUtils (answering (status_codes.OK, value.null))
      ⟨[push_status, "CAN", "Gary", "NewStatus"], [("Friends", "AUS;Ross,Bob")]⟩
      [(status_codes.OK, value.object [("Updates", "CurrentlyNothing\n")])]).map
        (fun out => (out.reply, out.sent))
      = some (some (status_codes.OK, value.null),
          [⟨methods.GET, "http://localhost:34568/ReadEntityAdmin/DataTable/AUS/Ross,Bob",
              value.null⟩,
           ⟨methods.PUT, "http://localhost:34568/UpdateEntityAdmin/DataTable/AUS/Ross,Bob",
              value.object [("Updates", "CurrentlyNothing\nNewStatus\n")]⟩]) ∧
    ∃ out : Outcome (List Response),
      handle_post clientUtils (answering (status_codes.OK, value.null))
        ⟨[push_status, "CAN", "Gary", "NewStatus"], [("Friends", "AUS;Ross,Bob")]⟩
        [(status_codes.OK, value.object [("Updates", "CurrentlyNothing\n")])] = some out ∧
      out.sent.length = 2 * (clientUtils.parse_friends_list
        (json_index [("Friends", "AUS;Ross,Bob")] "Friends")).length :=
  ⟨fun w q => by cases w <;> simp [answering],
   by decide,
   (push_status_appends clientUtils (answering (status_codes.OK, value.null))
      "CAN" "Gary" "NewStatus" [] [("Friends", "AUS;Ross,Bob")]
      [(status_codes.OK, value.object [("Updates", "CurrentlyNothing\n")])]
      (fun w q => by cases w <;> simp [answering])).imp (fun _ h => ⟨h.1, h.2.1⟩)⟩

/-- C13 (fan-out is best-effort): for a PushStatus request with at least four
path segments, in a world that answers every request with whatever status,
the reply is 200 and the requests sent are exactly one administrative read
and one administrative write per pair of the friends list, in list order: no
failure stops the later friends and nothing is sent twice. -/
theorem push_status_best_effort {W : Type} (cu : ClientUtils) (net : Net W)
    (p1 p2 status : String) (rest : List String) (json_body : List (String × String)) (w : W)
    (hans : ∀ (w : W) (q : Request), (net w q).2 ≠ none) :
    ∃ out : Outcome W,
      handle_post cu net ⟨push_status :: p1 :: p2 :: status :: rest, json_body⟩ w = some out ∧
      out.reply = some (status_codes.OK, value.null) ∧
      out.sent.map (fun q => (q.http_method, q.uri_string))
        = (cu.parse_friends_list (json_index json_body "Friends")).flatMap (fun f =>
            [(methods.GET, addr ++ "ReadEntityAdmin/DataTable/" ++ f.1 ++ "/" ++ f.2),
             (methods.PUT, addr ++ "UpdateEntityAdmin/DataTable/" ++ f.1 ++ "/" ++ f.2)]) := by
  obtain ⟨tr, w1, hpf, hmap⟩ := push_friends_requests cu net status hans
    (cu.parse_friends_list (json_index json_body "Friends")) { world := w, sent := [] }
  refine ⟨{ reply := some (status_codes.OK, value.null), world := w1, sent := tr }, ?_,
    rfl, ?_⟩
  · simp [handle_post, hpf]
  · rw [hmap]
    simp [read_request, update_request, String.append_assoc]
    rfl

/-- Witness of C13: every request is answered NotFound; PushStatus for the
friends (USA, "Shinoda,Mike") and (AUS, "Ross,Bob") still replies 200 after
one read and one write for each of them. -/
theorem push_status_best_effort_witness :
    (∀ (w : List Response) (q : Request),
      (answering (status_codes.NotFound, value.null) w q).2 ≠ none) ∧
    (handle_post clientUtils (answering (status_codes.NotFound, value.null))
      ⟨[push_status, "CAN", "Gary", "NewStatus"],
        [("Friends", "USA;Shinoda,Mike|AUS;Ross,Bob")]⟩ []).map
        (fun out => (out.reply, out.sent.map (fun q => (q.http_method, q.uri_string))))
      = some (some (status_codes.OK, value.null),
          [(methods.GET, "http://localhost:34568/ReadEntityAdmin/DataTable/USA/Shinoda,Mike"),
           (methods.PUT, "http://localhost:34568/UpdateEntityAdmin/DataTable/USA/Shinoda,Mike"),
           (methods.GET, "http://localhost:34568/ReadEntityAdmin/DataTable/AUS/Ross,Bob"),
           (methods.PUT, "http://localhost:34568/UpdateEntityAdmin/DataTable/AUS/Ross,Bob")]) ∧
    ∃ out : Outcome (List Response),
      handle_post clientUtils (answering (status_codes.NotFound, value.null))
        ⟨[push_status, "CAN", "Gary", "NewStatus"],
          [("Friends", "USA;Shinoda,Mike|AUS;Ross,Bob")]⟩ [] = some out ∧
      out.reply = some (status_codes.OK, value.null) :=
  ⟨fun w q => by cases w <;> simp [answering],
   by decide,
   (push_status_best_effort clientUtils (answering (status_codes.NotFound, value.null))
      "CAN" "Gary" "NewStatus" [] [("Friends", "USA;Shinoda,Mike|AUS;Ross,Bob")] []
      (fun w q => by cases w <;> simp [answering])).imp (fun _ h => ⟨h.1, h.2.1⟩)⟩

end PushServer

namespace AuthServer

open UserServer hiding value addr data_table_name auth_table_password_prop get_update_data_op
  Outcome handle_get handle_post handle_put

/-! ## Token requests -/

theorem first_property_mismatch_not_found (sdk : Sdk) (now : Nat) (storage : Storage)
    (table : List table_entity) (entity : table_entity) (v0 : String × String)
    (others : prop_str_vals_t) (op userid : String) (rest : List String)
    (json_body : List (String × String))
    (h2 : storage.lookup auth_table_name = some table)
    (hrec : retrieve_entity table auth_table_userid_partition userid = some entity)
    (hstored : get_string_properties entity.properties = v0 :: others)
    (hne : json_index json_body auth_table_password_prop ≠ v0.2) :
    handle_get sdk now storage ⟨op :: userid :: rest, json_body⟩
      = some { reply := (status_codes.NotFound, value.null), signed := [] } := by
  simp [handle_get, h2, hrec, hstored, hne, reply]

theorem absent_record_not_found (sdk : Sdk) (now : Nat) (storage : Storage)
    (table : List table_entity) (op userid : String) (rest : List String)
    (json_body : List (String × String))
    (h1 : storage.lookup auth_table_name = some table)
    (hno : retrieve_entity table auth_table_userid_partition userid = none) :
    handle_get sdk now storage ⟨op :: userid :: rest, json_body⟩
      = some { reply := (status_codes.NotFound, value.null), signed := [] } := by
  simp [handle_get, h1, hno, reply]

/-- C14 (evaluation at the failing input): the credential record of `user`
stores the password "user" and its properties iterate as DataPartition,
DataRow, Password.  With the wrong password "USA", the value of the property
that iterates first, GetReadToken for `user` is answered 200 with a token and
GetUpdateData 200 with a token and a location, while the same GetReadToken
request on an AuthTable without a record for `user` is answered NotFound
without a body: the two credential failures get different replies. -/
theorem wrong_password_accepted_by_position :
    (get_string_properties [("DataPartition", entity_property.string "USA"),
        ("DataRow", entity_property.string "Franklin,Aretha"),
        ("Password", entity_property.string "user")]).lookup "Password" = some "user" ∧
    handle_get plain_sdk 0 [("AuthTable", []), ("DataTable", [])]
      ⟨["GetReadToken", "user"], [("Password", "USA")]⟩
      = some ⟨(status_codes.NotFound, value.null), []⟩ ∧
    handle_get plain_sdk 0
      [("AuthTable", [⟨"Userid", "user", [("DataPartition", entity_property.string "USA"),
        ("DataRow", entity_property.string "Franklin,Aretha"),
        ("Password", entity_property.string "user")]⟩]), ("DataTable", [])]
      ⟨["GetReadToken", "user"], [("Password", "USA")]⟩
      = some ⟨(status_codes.OK,
          value.string "sig=user/Franklin,Aretha..user/Franklin,Aretha;sp=r"),
          [⟨"DataTable", 864000000000, 1, "", "user", "Franklin,Aretha", "user",
            "Franklin,Aretha"⟩]⟩ ∧
    handle_get plain_sdk 0
      [("AuthTable", [⟨"Userid", "user", [("DataPartition", entity_property.string "USA"),
        ("DataRow", entity_property.string "Franklin,Aretha"),
        ("Password", entity_property.string "user")]⟩]), ("DataTable", [])]
      ⟨["GetUpdateData", "user"], [("Password", "USA")]⟩
      = some ⟨(status_codes.OK, value.object
          [("token", "sig=user/Franklin,Aretha..user/Franklin,Aretha;sp=ru"),
           ("DataPartition", "user"), ("DataRow", "Franklin,Aretha")]),
          [⟨"DataTable", 864000000000, 33, "", "user", "Franklin,Aretha", "user",
            "Franklin,Aretha"⟩]⟩ := by
  decide

/-- C15 (what the code does): `handle_get` reads the credential record by
position.  A record whose properties iterate as Password, DataRow,
DataPartition is served as expected.  The same three properties iterating as
DataPartition, DataRow, Password make GetUpdateData with the stored password
fail with NotFound, because the password is compared with the DataPartition
value; and with one more property, Email, iterating second, the token is
minted for partition = the DataRow value and row = the Email value, which is
also what the reply reports as DataPartition and DataRow. -/
theorem get_update_data_reads_by_position :
    handle_get plain_sdk 0
      [("AuthTable", [⟨"Userid", "user", [("Password", entity_property.string "user"),
        ("DataRow", entity_property.string "Franklin,Aretha"),
        ("DataPartition", entity_property.string "USA")]⟩]), ("DataTable", [])]
      ⟨["GetUpdateData", "user"], [("Password", "user")]⟩
      = some ⟨(status_codes.OK, value.object
          [("token", "sig=USA/Franklin,Aretha..USA/Franklin,Aretha;sp=ru"),
           ("DataPartition", "USA"), ("DataRow", "Franklin,Aretha")]),
          [⟨"DataTable", 864000000000, 33, "", "USA", "Franklin,Aretha", "USA",
            "Franklin,Aretha"⟩]⟩ ∧
    (get_string_properties [("DataPartition", entity_property.string "USA"),
        ("DataRow", entity_property.string "Franklin,Aretha"),
        ("Password", entity_property.string "user")]).lookup "Password" = some "user" ∧
    handle_get plain_sdk 0
      [("AuthTable", [⟨"Userid", "user", [("DataPartition", entity_property.string "USA"),
        ("DataRow", entity_property.string "Franklin,Aretha"),
        ("Password", entity_property.string "user")]⟩]), ("DataTable", [])]
      ⟨["GetUpdateData", "user"], [("Password", "user")]⟩
      = some ⟨(status_codes.NotFound, value.null), []⟩ ∧
    handle_get plain_sdk 0
      [("AuthTable", [⟨"Userid", "user", [("Password", entity_property.string "user"),
        ("Email", entity_property.string "user@example.org"),
        ("DataRow", entity_property.string "Franklin,Aretha"),
        ("DataPartition", entity_property.string "USA")]⟩]), ("DataTable", [])]
      ⟨["GetUpdateData", "user"], [("Password", "user")]⟩
      = some ⟨(status_codes.OK, value.object
          [("token", "sig=Franklin,Aretha/user@example.org..Franklin,Aretha/user@example.org;sp=ru"),
           ("DataPartition", "Franklin,Aretha"), ("DataRow", "user@example.org")]),
          [⟨"DataTable", 864000000000, 33, "", "Franklin,Aretha", "user@example.org",
            "Franklin,Aretha", "user@example.org"⟩]⟩ := by
  decide

theorem do_get_token_request (sdk : Sdk) (now : Nat) (data_table partition row : String)
    (permissions : Nat) :
    (do_get_token sdk now data_table partition row permissions).2
      = { table := data_table, expiry := (now + from_days 1) % 2 ^ 64,
          permissions := permissions, policy_name := "",
          start_partition_key := partition, start_row_key := row,
          end_partition_key := partition, end_row_key := row } := by
  simp only [do_get_token]
  split <;> rfl

theorem handle_get_signed (sdk : Sdk) (now : Nat) (storage : Storage) (message : http_request)
    (out : Outcome) (h : handle_get sdk now storage message = some out) :
    (out.signed = [] ∧ (out.reply = (status_codes.NotFound, value.null) ∨
      out.reply = (status_codes.BadRequest, value.null))) ∨
    ∃ op userid rest partition row permission,
      message.paths = op :: userid :: rest ∧
      out.signed = [(do_get_token sdk now data_table_name partition row permission).2] ∧
      ((op = get_read_token_op ∧ permission = sdk.read % 256) ∨
       ((op = get_update_token_op ∨ op = get_update_data_op) ∧
        permission = (sdk.read ||| sdk.update) % 256)) := by
  obtain ⟨paths, json_body⟩ := message
  match paths with
  | [] => simp [handle_get, reply] at h; subst h; left; simp
  | [_] => simp [handle_get, reply] at h; subst h; left; simp
  | op :: userid :: rest =>
    rcases hl : storage.lookup auth_table_name with _ | table
    · simp [handle_get, hl, reply] at h; subst h; left; simp
    rcases hr : retrieve_entity table auth_table_userid_partition userid with _ | entity
    · simp [handle_get, hl, hr, reply] at h; subst h; left; simp
    rcases hv : get_string_properties entity.properties with _ | ⟨v0, tl⟩
    · simp [handle_get, hl, hr, hv] at h
    by_cases hpw : json_index json_body auth_table_password_prop = v0.2
    swap
    · simp [handle_get, hl, hr, hv, hpw, reply] at h; subst h; left; simp
    rcases hd : storage.lookup data_table_name with _ | dt
    · simp [handle_get, hl, hr, hv, hpw, hd, reply] at h; subst h; left; simp
    match tl, hv with
    | [], hv => simp [handle_get, hl, hr, hv, hpw, hd, reply] at h; subst h; left; simp
    | [_], hv => simp [handle_get, hl, hr, hv, hpw, hd, reply] at h; subst h; left; simp
    | v1 :: v2 :: others, hv =>
      by_cases hupd : get_update_token_op = op ∨ get_update_data_op = op
      · right
        refine ⟨op, userid, rest, v2.2, v1.2, (sdk.read ||| sdk.update) % 256, rfl, ?_,
          Or.inr ⟨hupd.imp Eq.symm Eq.symm, rfl⟩⟩
        simp only [handle_get, hl, hr, hv, hpw, hd, hupd] at h
        simp only [ne_eq, not_true_eq_false, if_false, if_true] at h
        split at h
        · cases h; rfl
        · split at h <;> (cases h; rfl)
      · by_cases hread : get_read_token_op = op
        · right
          refine ⟨op, userid, rest, v2.2, v1.2, sdk.read % 256, rfl, ?_,
            Or.inl ⟨hread.symm, rfl⟩⟩
          simp only [handle_get, hl, hr, hv, hpw, hd, hupd, hread] at h
          simp only [ne_eq, not_true_eq_false, if_false, if_true] at h
          split at h
          · cases h; rfl
          · split at h <;> (cases h; rfl)
        · simp [handle_get, hl, hr, hv, hpw, hd, hupd, hread, reply] at h
          subst h; left; simp

/-- C16 (scope of a minted token): whenever `handle_get` signs a token, the
signing request is for DataTable, its range starts and ends at the same
(partition, row), it names no stored policy, its expiry is the issue time plus
one day, and its permission is read for GetReadToken and read or-ed with
update for GetUpdateToken and GetUpdateData.  At most one token is signed, a
200 reply comes only with a signing, and any other operation name gets no
token and never 200: its reply is NotFound or BadRequest, and NotFound
whenever the permission selection is reached. -/
theorem token_scope (sdk : Sdk) (now : Nat) (storage : Storage) (message : http_request)
    (out : Outcome) (h : handle_get sdk now storage message = some out)
    (hnow : now + from_days 1 < 2 ^ 64) (hr : sdk.read < 256) (hu : sdk.update < 256) :
    (∀ request ∈ out.signed,
      request.table = data_table_name ∧
      request.start_partition_key = request.end_partition_key ∧
      request.start_row_key = request.end_row_key ∧
      request.policy_name = "" ∧
      request.expiry = now + 864000000000 ∧
      ((message.paths.head? = some get_read_token_op ∧ request.permissions = sdk.read) ∨
       ((message.paths.head? = some get_update_token_op ∨
          message.paths.head? = some get_update_data_op) ∧
        request.permissions = sdk.read ||| sdk.update))) ∧
    out.signed.length ≤ 1 ∧
    (out.reply.1 = status_codes.OK → out.signed ≠ []) ∧
    (message.paths.head? ≠ some get_read_token_op →
      message.paths.head? ≠ some get_update_token_op →
      message.paths.head? ≠ some get_update_data_op →
      out.signed = [] ∧
      (out.reply = (status_codes.NotFound, value.null) ∨
        out.reply = (status_codes.BadRequest, value.null))) ∧
    (∀ op userid rest table entity v0 v1 v2 others data_table,
      message.paths = op :: userid :: rest →
      storage.lookup auth_table_name = some table →
      retrieve_entity table auth_table_userid_partition userid = some entity →
      get_string_properties entity.properties = v0 :: v1 :: v2 :: others →
      json_index message.json_body auth_table_password_prop = v0.2 →
      storage.lookup data_table_name = some data_table →
      op ≠ get_read_token_op → op ≠ get_update_token_op → op ≠ get_update_data_op →
      out = { reply := (status_codes.NotFound, value.null), signed := [] }) := by
  have hor : sdk.read ||| sdk.update < 2 ^ 8 := Nat.or_lt_two_pow hr hu
  refine ⟨?_, ?_, ?_, ?_, ?_⟩
  · intro request hmem
    rcases handle_get_signed sdk now storage message out h with ⟨hnil, _⟩ |
      ⟨op, userid, rest, partition, row, permission, hp, hsig, hperm⟩
    · rw [hnil] at hmem
      cases hmem
    · rw [hsig, do_get_token_request] at hmem
      simp only [List.mem_singleton] at hmem
      subst hmem
      refine ⟨rfl, rfl, rfl, rfl, ?_, ?_⟩
      · simp only [from_days, one_mul] at hnow ⊢
        exact Nat.mod_eq_of_lt hnow
      · rcases hperm with ⟨hop, hpm⟩ | ⟨hop, hpm⟩
        · left
          exact ⟨by rw [hp, hop]; rfl, by rw [hpm]; exact Nat.mod_eq_of_lt hr⟩
        · right
          refine ⟨?_, by rw [hpm]; exact Nat.mod_eq_of_lt hor⟩
          rcases hop with hop | hop
          · left; rw [hp, hop]; rfl
          · right; rw [hp, hop]; rfl
  · rcases handle_get_signed sdk now storage message out h with ⟨hnil, _⟩ |
      ⟨op, userid, rest, partition, row, permission, hp, hsig, hperm⟩
    · simp [hnil]
    · simp [hsig]
  · intro hok
    rcases handle_get_signed sdk now storage message out h with ⟨hnil, hrep⟩ |
      ⟨op, userid, rest, partition, row, permission, hp, hsig, hperm⟩
    · rcases hrep with hrep | hrep <;> simp [hrep] at hok
    · simp [hsig]
  · intro h1 h2 h3
    rcases handle_get_signed sdk now storage message out h with hnil |
      ⟨op, userid, rest, partition, row, permission, hp, hsig, hperm⟩
    · exact hnil
    · exfalso
      rcases hperm with ⟨hop, _⟩ | ⟨hop | hop, _⟩
      · exact h1 (by rw [hp, hop]; rfl)
      · exact h2 (by rw [hp, hop]; rfl)
      · exact h3 (by rw [hp, hop]; rfl)
  · intro op userid rest table entity v0 v1 v2 others data_table hp hl hrec hv hpw hd h1 h2 h3
    obtain ⟨paths, json_body⟩ := message
    simp only at hp hpw
    subst hp
    have e1 : ¬ (get_update_token_op = op ∨ get_update_data_op = op) := by
      rintro (e | e)
      · exact h2 e.symm
      · exact h3 e.symm
    have e2 : ¬ (get_read_token_op = op) := fun e => h1 e.symm
    simp [handle_get, hl, hrec, hv, hpw, hd, e1, e2, reply] at h
    exact h.symm

/-- Witness of C16: GetReadToken for the credential record of the tests, at
tick 1000, signs one token for the single record (USA, "Franklin,Aretha") with
the read permission and the expiry 1000 plus one day. -/
theorem token_scope_witness :
    handle_get plain_sdk 1000
      [("AuthTable", [⟨"Userid", "user", [("Password", entity_property.string "user"),
        ("DataRow", entity_property.string "Franklin,Aretha"),
        ("DataPartition", entity_property.string "USA")]⟩]), ("DataTable", [])]
      ⟨["GetReadToken", "user"], [("Password", "user")]⟩
      = some ⟨(status_codes.OK, value.string "sig=USA/Franklin,Aretha..USA/Franklin,Aretha;sp=r"),
          [⟨"DataTable", 864000001000, 1, "", "USA", "Franklin,Aretha", "USA",
            "Franklin,Aretha"⟩]⟩ ∧
    (1000 + from_days 1 < 2 ^ 64 ∧ plain_sdk.read < 256 ∧ plain_sdk.update < 256) ∧
    ∀ request ∈ [(⟨"DataTable", 864000001000, 1, "", "USA", "Franklin,Aretha", "USA",
        "Franklin,Aretha"⟩ : shared_access_request)],
      request.table = data_table_name ∧
      request.start_partition_key = request.end_partition_key ∧
      request.start_row_key = request.end_row_key ∧
      request.policy_name = "" ∧
      request.expiry = 1000 + 864000000000 ∧
      ((["GetReadToken", "user"].head? = some get_read_token_op ∧
          request.permissions = plain_sdk.read) ∨
       ((["GetReadToken", "user"].head? = some get_update_token_op ∨
          ["GetReadToken", "user"].head? = some get_update_data_op) ∧
        request.permissions = plain_sdk.read ||| plain_sdk.update)) :=
  ⟨by decide, by decide,
   (token_scope plain_sdk 1000
      [("AuthTable", [⟨"Userid", "user", [("Password", entity_property.string "user"),
        ("DataRow", entity_property.string "Franklin,Aretha"),
        ("DataPartition", entity_property.string "USA")]⟩]), ("DataTable", [])]
      ⟨["GetReadToken", "user"], [("Password", "user")]⟩
      ⟨(status_codes.OK, value.string "sig=USA/Franklin,Aretha..USA/Franklin,Aretha;sp=r"),
        [⟨"DataTable", 864000001000, 1, "", "USA", "Franklin,Aretha", "USA", "Franklin,Aretha"⟩]⟩
      (by decide) (by decide) (by decide) (by decide)).1⟩

/-! ## Failure of the signing call -/

/-- C24 (evaluation at the failing input): with a signing call that throws,
`do_get_token` returns InternalError with an empty string; GetUpdateData for
the user with the stored password nevertheless replies 200, with the empty
string as token, while GetUpdateToken for the same user replies NotFound. -/
theorem get_update_data_reports_failed_token (now : Nat) :
    (do_get_token throwing_sdk now data_table_name "USA" "Franklin,Aretha" 33).1
      = (status_codes.InternalError, "") ∧
    (handle_get throwing_sdk now
      [("AuthTable", [⟨"Userid", "user",
          [("Password", entity_property.string "user"),
           ("DataRow", entity_property.string "Franklin,Aretha"),
           ("DataPartition", entity_property.string "USA")]⟩]),
       ("DataTable", [])]
      ⟨[get_update_data_op, "user"], [("Password", "user")]⟩).map (fun out => out.reply)
      = some (status_codes.OK, value.object
          [("token", ""), ("DataPartition", "USA"), ("DataRow", "Franklin,Aretha")]) ∧
    (handle_get throwing_sdk now
      [("AuthTable", [⟨"Userid", "user",
          [("Password", entity_property.string "user"),
           ("DataRow", entity_property.string "Franklin,Aretha"),
           ("DataPartition", entity_property.string "USA")]⟩]),
       ("DataTable", [])]
      ⟨[get_update_token_op, "user"], [("Password", "user")]⟩).map (fun out => out.reply)
      = some (status_codes.NotFound, value.null) :=
  ⟨rfl, rfl, rfl⟩

/-! ## Bounds of the property vector -/

/-- C25 (evaluation at the failing input): for a credential record without
properties `handle_get` reads `values[0]` of an empty vector (no result); for
a record whose only property is the password it replies NotFound when the
presented password differs and BadRequest only when it matches. -/
theorem property_vector_read_out_of_bounds (sdk : Sdk) (now : Nat) :
    handle_get sdk now
      [("AuthTable", [⟨"Userid", "user", []⟩]), ("DataTable", [])]
      ⟨[get_read_token_op, "user"], [("Password", "user")]⟩ = none ∧
    handle_get sdk now
      [("AuthTable", [⟨"Userid", "user", [("Password", entity_property.string "user")]⟩]),
       ("DataTable", [])]
      ⟨[get_read_token_op, "user"], [("Password", "WrongPassword")]⟩
      = some ⟨(status_codes.NotFound, value.null), []⟩ ∧
    handle_get sdk now
      [("AuthTable", [⟨"Userid", "user", [("Password", entity_property.string "user")]⟩]),
       ("DataTable", [])]
      ⟨[get_read_token_op, "user"], [("Password", "user")]⟩
      = some ⟨(status_codes.BadRequest, value.null), []⟩ :=
  ⟨rfl, rfl, rfl⟩

end AuthServer

namespace BasicServer

open UserServer hiding value addr Outcome handle_get handle_post handle_put
  parse_friends_list friends_list_to_string get_json_object_prop

/-! ## Restricted entry points -/

/-- C17 (token scope enforcement).  With the access gate of section 4.2 behind
`read_with_token` and `update_with_token`: an update request carrying a token
that allows reads only is answered Forbidden and changes nothing, and a read
request for the row R2 carrying a token bound to another row R of the same
table and partition is answered NotFound.  With any implementation of the two
entry points: for a request with at least five path segments on an existing
table, `handle_get` (ReadEntityAuth, partition segment other than `*`) and
`handle_put` (UpdateEntityAuth) make one reply, whose status is the status
that `read_with_token` or `update_with_token` returned. -/
theorem token_scope_enforced (capability_of : String → Option Capability) (now fuel : Nat)
    (su : ServerUtils) (storage : Storage) (table_name token partition row : String)
    (more : List String) (json_body : List (String × String)) :
    (∀ capability table, capability_of token = some capability → capability.update = false →
      storage.lookup table_name = some table →
      handle_put (serverUtils capability_of now) storage
        ⟨update_auth :: table_name :: token :: partition :: row :: more, json_body⟩
        = some ⟨[(status_codes.Forbidden, value.null)], storage⟩) ∧
    (∀ capability row2, capability_of token = some capability →
      capability.table = table_name → capability.partition = partition →
      capability.row = row → row2 ≠ row → partition ≠ "*" →
      handle_get (serverUtils capability_of now) fuel storage
        ⟨read_auth :: table_name :: token :: partition :: row2 :: more, json_body⟩
        = some [(status_codes.NotFound, value.null)]) ∧
    (∀ table, storage.lookup table_name = some table → partition ≠ "*" →
      ∃ body, handle_get su fuel storage
        ⟨read_auth :: table_name :: token :: partition :: row :: more, json_body⟩
        = some [((su.read_with_token storage
            ⟨read_auth :: table_name :: token :: partition :: row :: more, json_body⟩).1,
            body)]) ∧
    (∀ table, storage.lookup table_name = some table →
      handle_put su storage
        ⟨update_auth :: table_name :: token :: partition :: row :: more, json_body⟩
        = some ⟨[((su.update_with_token storage
            ⟨update_auth :: table_name :: token :: partition :: row :: more, json_body⟩
            json_body).1, value.null)],
          (su.update_with_token storage
            ⟨update_auth :: table_name :: token :: partition :: row :: more, json_body⟩
            json_body).2⟩) := by
  have hop1 : ¬ (update_auth = add_property ∨ update_auth = update_property) := by decide
  refine ⟨?_, ?_, ?_, ?_⟩
  · intro capability table hcap hro htab
    simp [handle_put, hop1, put_with_token, htab, serverUtils, access, hcap, hro]
  · intro capability row2 hcap ht hp hr hne hstar
    rcases htab : storage.lookup table_name with _ | table
    · simp [handle_get, htab]
    · have hne2 : ¬ (capability.row = row2) := fun e => hne (e.symm.trans hr)
      simp [handle_get, htab, hstar, serverUtils, access, hcap, ht, hp, hne2]
  · intro table htab hstar
    by_cases hok : (su.read_with_token storage
        ⟨read_auth :: table_name :: token :: partition :: row :: more, json_body⟩).1 = 200
    · refine ⟨value.object (get_properties (su.read_with_token storage
        ⟨read_auth :: table_name :: token :: partition :: row :: more,
          json_body⟩).2.properties []), ?_⟩
      simp [handle_get, htab, hstar, hok]
    · exact ⟨value.null, by simp [handle_get, htab, hstar, hok]⟩
  · intro table htab
    simp [handle_put, hop1, put_with_token, htab]

/-- Witness of C17: the record (USA, "Franklin,Aretha") of DataTable and a
token bound to it that allows reads only.  An update with that token is
answered Forbidden, a read of (USA, NotARow) NotFound, and a read of the
record itself succeeds with the status of `read_with_token`. -/
theorem token_scope_enforced_witness :
    handle_put
      (serverUtils (fun token => if token = "readtoken" then
        some ⟨"DataTable", "USA", "Franklin,Aretha", false, 100⟩ else none) 0)
      [("DataTable", [⟨"USA", "Franklin,Aretha", [("Song", entity_property.string "RESPECT")]⟩])]
      ⟨["UpdateEntityAuth", "DataTable", "readtoken", "USA", "Franklin,Aretha"],
        [("born", "1942")]⟩
      = some ⟨[(status_codes.Forbidden, value.null)],
          [("DataTable",
            [⟨"USA", "Franklin,Aretha", [("Song", entity_property.string "RESPECT")]⟩])]⟩ ∧
    handle_get
      (serverUtils (fun token => if token = "readtoken" then
        some ⟨"DataTable", "USA", "Franklin,Aretha", false, 100⟩ else none) 0) 0
      [("DataTable", [⟨"USA", "Franklin,Aretha", [("Song", entity_property.string "RESPECT")]⟩])]
      ⟨["ReadEntityAuth", "DataTable", "readtoken", "USA", "NotARow"], []⟩
      = some [(status_codes.NotFound, value.null)] ∧
    handle_get
      (serverUtils (fun token => if token = "readtoken" then
        some ⟨"DataTable", "USA", "Franklin,Aretha", false, 100⟩ else none) 0) 0
      [("DataTable", [⟨"USA", "Franklin,Aretha", [("Song", entity_property.string "RESPECT")]⟩])]
      ⟨["ReadEntityAuth", "DataTable", "readtoken", "USA", "Franklin,Aretha"], []⟩
      = some [(status_codes.OK, value.object [("Song", scalar.string "RESPECT")])] :=
  ⟨(token_scope_enforced (fun token => if token = "readtoken" then
        some ⟨"DataTable", "USA", "Franklin,Aretha", false, 100⟩ else none) 0 0
      (serverUtils (fun token => if token = "readtoken" then
        some ⟨"DataTable", "USA", "Franklin,Aretha", false, 100⟩ else none) 0)
      [("DataTable", [⟨"USA", "Franklin,Aretha", [("Song", entity_property.string "RESPECT")]⟩])]
      "DataTable" "readtoken" "USA" "Franklin,Aretha" [] [("born", "1942")]).1
      ⟨"DataTable", "USA", "Franklin,Aretha", false, 100⟩
      [⟨"USA", "Franklin,Aretha", [("Song", entity_property.string "RESPECT")]⟩]
      (by decide) (by decide) (by decide),
   (token_scope_enforced (fun token => if token = "readtoken" then
        some ⟨"DataTable", "USA", "Franklin,Aretha", false, 100⟩ else none) 0 0
      (serverUtils (fun token => if token = "readtoken" then
        some ⟨"DataTable", "USA", "Franklin,Aretha", false, 100⟩ else none) 0)
      [("DataTable", [⟨"USA", "Franklin,Aretha", [("Song", entity_property.string "RESPECT")]⟩])]
      "DataTable" "readtoken" "USA" "Franklin,Aretha" [] []).2.1
      ⟨"DataTable", "USA", "Franklin,Aretha", false, 100⟩ "NotARow"
      (by decide) (by decide) (by decide) (by decide) (by decide) (by decide),
   by decide⟩

/-! ## Auxiliary facts about the storage and the partition scan -/

theorem lookup_set_table (storage : Storage) (name : String) (table table1 : List table_entity)
    (h : storage.lookup name = some table) :
    (set_table storage name table1).lookup name = some table1 := by
  induction storage with
  | nil => simp at h
  | cons t rest ih =>
    by_cases ht : t.1 = name
    · simp only [set_table, List.map_cons, if_pos ht]
      simp [List.lookup]
    · have hb : (name == t.1) = false := by
        simpa using fun e : name = t.1 => ht e.symm
      have hrest : List.lookup name rest = some table := by
        obtain ⟨k, v⟩ := t
        simpa [List.lookup, hb] using h
      obtain ⟨k, v⟩ := t
      simp only [set_table, List.map_cons, if_neg ht]
      simp only [List.lookup, hb]
      exact ih hrest

theorem retrieve_entity_insert (table : List table_entity) (partition row : String)
    (properties : List (String × entity_property))
    (h : retrieve_entity table partition row = none) :
    retrieve_entity (insert_or_merge_entity table partition row properties) partition row
      = some ⟨partition, row, merge_properties [] properties⟩ := by
  simp only [insert_or_merge_entity, h]
  simp only [retrieve_entity] at h ⊢
  rw [List.find?_append, h]
  simp

theorem update_entity_inserts (su : ServerUtils) (storage : Storage)
    (table_name partition row : String) (json_body : List (String × String))
    (table : List table_entity) (h : storage.lookup table_name = some table)
    (hnew : retrieve_entity table partition row = none) :
    ∃ out : Outcome,
      handle_put su storage ⟨[update_entity, table_name, partition, row], json_body⟩ = some out ∧
      out.replies.head? = some (status_codes.OK, value.null) ∧
      (out.storage.lookup table_name).bind (fun t => retrieve_entity t partition row)
        = some ⟨partition, row,
            merge_properties [] (json_body.map (fun v => (v.1, entity_property.string v.2)))⟩ := by
  have h1 : ¬ (update_entity = add_property) := by decide
  have h2 : ¬ (update_entity = update_property) := by decide
  have h3 : ¬ (update_entity = update_auth) := by decide
  have h4 : ¬ (update_entity = read_auth) := by decide
  have hl := lookup_set_table storage table_name table (insert_or_merge_entity table partition row
    (json_body.map (fun v => (v.1, entity_property.string v.2)))) h
  refine ⟨_, by simp only [handle_put, h1, h2, or_self, if_false, if_true, h]; rfl, ?_, ?_⟩
  · simp [put_with_token, hl, h3, h4]
  · simp [put_with_token, hl, h3, h4, retrieve_entity_insert table partition row _ hnew]

theorem put_with_token_replies (su : ServerUtils) (storage : Storage) (message : http_request)
    (op table_name : String) (replies : List (status_code × value)) :
    ∃ last, (put_with_token su storage message op table_name replies).replies
      = replies ++ [last] := by
  simp only [put_with_token]
  repeat' split
  all_goals exact ⟨_, rfl⟩

theorem partition_scan_of_partition (partition : String) (l : List table_entity)
    (hl : ∀ e ∈ l, e.partition_key = partition) (fuel : Nat) (hfuel : l.length < fuel)
    (values2_vec : List prop_vals_t) (partition_exists : Bool) :
    partition_scan partition fuel l values2_vec partition_exists
      = some (values2_vec ++ l.map entity_keys, partition_exists || !l.isEmpty) := by
  induction l generalizing fuel values2_vec partition_exists with
  | nil =>
    cases fuel with
    | zero => simp at hfuel
    | succ k => simp [partition_scan]
  | cons it rest ih =>
    cases fuel with
    | zero => simp at hfuel
    | succ k =>
      have hit : it.partition_key = partition := hl it (by simp)
      have hrest : ∀ e ∈ rest, e.partition_key = partition :=
        fun e he => hl e (List.mem_cons_of_mem _ he)
      have hk : rest.length < k := by simpa using hfuel
      simp [partition_scan, hit, ih hrest k hk]

theorem partition_scan_stuck (partition : String) (it : table_entity) (rest : List table_entity)
    (hit : it.partition_key ≠ partition) (fuel : Nat) (values2_vec : List prop_vals_t)
    (partition_exists : Bool) :
    partition_scan partition fuel (it :: rest) values2_vec partition_exists = none := by
  induction fuel with
  | zero => simp [partition_scan]
  | succ k ih => simp [partition_scan, hit, ih]

/-! ## Requests with a JSON body -/

/-- C22 (evaluation at the failing input): GET ReadEntityAdmin/TestTable with
the body naming Song, on a table whose one entity has the properties Song and
Home, is answered with BadRequest, twice, instead of 200 with the entity; with
the body naming Song and Home, on a table whose one entity has the property
Song only, it is answered 200 with that entity listed twice; and an entity
without properties is listed for the body naming Song. -/
theorem json_filter_miscounts (su : ServerUtils) (fuel : Nat) :
    handle_get su fuel
      [("TestTable", [⟨"CAN", "Franklin,Aretha",
          [("Song", entity_property.string "RESPECT"),
           ("Home", entity_property.string "Memphis")]⟩])]
      ⟨[read_entity, "TestTable"], [("Song", "x")]⟩
      = some [(status_codes.BadRequest, value.null), (status_codes.BadRequest, value.null)] ∧
    handle_get su fuel
      [("TestTable", [⟨"CAN", "Franklin,Aretha",
          [("Song", entity_property.string "RESPECT")]⟩])]
      ⟨[read_entity, "TestTable"], [("Song", "x"), ("Home", "y")]⟩
      = some [(status_codes.OK, value.array
          [[("Partition", scalar.string "CAN"), ("Row", scalar.string "Franklin,Aretha"),
            ("Song", scalar.string "RESPECT")],
           [("Partition", scalar.string "CAN"), ("Row", scalar.string "Franklin,Aretha"),
            ("Song", scalar.string "RESPECT")]])] ∧
    handle_get su fuel
      [("TestTable", [⟨"CAN", "Franklin,Aretha", []⟩])]
      ⟨[read_entity, "TestTable"], [("Song", "x")]⟩
      = some [(status_codes.OK, value.array
          [[("Partition", scalar.string "CAN"), ("Row", scalar.string "Franklin,Aretha")]])] :=
  ⟨rfl, rfl, rfl⟩

/-! ## Replies of `handle_put` -/

/-- C23 (the failing inputs): a PUT with exactly four path segments is answered
twice.  UpdateEntityAdmin on an existing table replies 200 and then NotFound;
any other operation (the two unimplemented ones apart) replies BadRequest and
then once more. -/
theorem four_segment_put_replies_twice (su : ServerUtils) (storage : Storage)
    (table_name partition row : String) (json_body : List (String × String)) :
    (∀ table, storage.lookup table_name = some table →
      (handle_put su storage ⟨[update_entity, table_name, partition, row], json_body⟩).map
          (fun out => out.replies)
        = some [(status_codes.OK, value.null), (status_codes.NotFound, value.null)]) ∧
    (∀ op, op ≠ add_property → op ≠ update_property → op ≠ update_entity →
      ∃ out last, handle_put su storage ⟨[op, table_name, partition, row], json_body⟩ = some out ∧
        out.replies = [(status_codes.BadRequest, value.null), last]) := by
  constructor
  · intro table h
    have h1 : ¬ (update_entity = add_property) := by decide
    have h2 : ¬ (update_entity = update_property) := by decide
    have h3 : ¬ (update_entity = update_auth) := by decide
    have h4 : ¬ (update_entity = read_auth) := by decide
    simp [handle_put, h1, h2, h, put_with_token, lookup_set_table storage table_name table _ h,
      h3, h4]
  · intro op h1 h2 h3
    obtain ⟨last, hlast⟩ := put_with_token_replies su storage
      ⟨[op, table_name, partition, row], json_body⟩ op table_name
      [(status_codes.BadRequest, value.null)]
    exact ⟨_, last, by simp only [handle_put, h1, h2, h3, or_self, if_false], hlast⟩

/-- Witness of C23: UpdateEntityAdmin/DataTable/USA/Franklin,Aretha on an
existing empty DataTable is answered 200 and then NotFound. -/
theorem four_segment_put_replies_twice_witness :
    (handle_put (serverUtils (fun _ => none) 0) [("DataTable", [])]
      ⟨[update_entity, "DataTable", "USA", "Franklin,Aretha"], [("Song", "RESPECT")]⟩).map
        (fun out => out.replies)
      = some [(status_codes.OK, value.null), (status_codes.NotFound, value.null)] :=
  (four_segment_put_replies_twice (serverUtils (fun _ => none) 0) [("DataTable", [])]
    "DataTable" "USA" "Franklin,Aretha" [("Song", "RESPECT")]).1 [] (by decide)

/-! ## Path segments -/

/-- C26 (evaluation at the failing input): for a request with an empty path,
`handle_put` of BasicServer and `handle_post` of PushServer read `paths[0]` of
an empty vector: neither has a result, so neither replies. -/
theorem empty_path_read_out_of_range {W : Type} (su : ServerUtils) (storage : Storage)
    (cu : ClientUtils) (net : Net W) (w : W) (json_body : List (String × String)) :
    handle_put su storage ⟨[], json_body⟩ = none ∧
    PushServer.handle_post cu net ⟨[], json_body⟩ w = none :=
  ⟨rfl, rfl⟩

/-! ## Partition scan -/

/-- C30 (the partition scan terminates): for every table content,
GET ReadEntityAdmin/table/partition/* replies once the loop has run for one
iteration per entity the query returns (`fuel` counts the evaluations of the
loop condition, one more than that): 200 with these entities, each with its
Partition, Row and properties, or BadRequest when the query returns none. -/
theorem partition_scan_terminates (su : ServerUtils) (storage : Storage)
    (table_name partition : String) (more : List String) (json_body : List (String × String))
    (table : List table_entity) (fuel : Nat)
    (htable : storage.lookup table_name = some table)
    (hfuel : (table.filter (fun e => e.partition_key = partition)).length < fuel) :
    handle_get su fuel storage ⟨read_entity :: table_name :: partition :: "*" :: more, json_body⟩
      = some [if (table.filter (fun e => e.partition_key = partition)).isEmpty then
            (status_codes.BadRequest, value.null)
          else (status_codes.OK,
            value.array ((table.filter (fun e => e.partition_key = partition)).map entity_keys))] := by
  have hscan := partition_scan_of_partition partition
    (table.filter (fun e => e.partition_key = partition))
    (fun e he => by simpa using (List.mem_filter.mp he).2) fuel hfuel [] false
  simp only [handle_get, htable, if_true, ne_eq, not_true_eq_false, if_false, hscan]
  cases h : (table.filter (fun e => e.partition_key = partition)).isEmpty <;> simp [h]

/-- Witness of C30: a table with two entities of the partition Katherines,The
and one of another partition; the scan of Katherines,The replies 200 with the
two entities after two iterations. -/
theorem partition_scan_terminates_witness :
    List.lookup "TestTable" ([("TestTable",
        [⟨"Katherines,The", "Canada", [("Home", entity_property.string "Vancouver")]⟩,
         ⟨"USA", "Franklin,Aretha", [("Song", entity_property.string "RESPECT")]⟩,
         ⟨"Katherines,The", "Germany", []⟩])] : Storage)
      = some [⟨"Katherines,The", "Canada", [("Home", entity_property.string "Vancouver")]⟩,
         ⟨"USA", "Franklin,Aretha", [("Song", entity_property.string "RESPECT")]⟩,
         ⟨"Katherines,The", "Germany", []⟩] ∧
    handle_get (serverUtils (fun _ => none) 0) 3
      [("TestTable",
        [⟨"Katherines,The", "Canada", [("Home", entity_property.string "Vancouver")]⟩,
         ⟨"USA", "Franklin,Aretha", [("Song", entity_property.string "RESPECT")]⟩,
         ⟨"Katherines,The", "Germany", []⟩])]
      ⟨[read_entity, "TestTable", "Katherines,The", "*"], []⟩
      = some [(status_codes.OK, value.array
          [[("Partition", scalar.string "Katherines,The"), ("Row", scalar.string "Canada"),
            ("Home", scalar.string "Vancouver")],
           [("Partition", scalar.string "Katherines,The"), ("Row", scalar.string "Germany")]])] :=
  ⟨by decide,
   partition_scan_terminates (serverUtils (fun _ => none) 0)
    [("TestTable",
      [⟨"Katherines,The", "Canada", [("Home", entity_property.string "Vancouver")]⟩,
       ⟨"USA", "Franklin,Aretha", [("Song", entity_property.string "RESPECT")]⟩,
       ⟨"Katherines,The", "Germany", []⟩])]
    "TestTable" "Katherines,The" [] []
    [⟨"Katherines,The", "Canada", [("Home", entity_property.string "Vancouver")]⟩,
     ⟨"USA", "Franklin,Aretha", [("Song", entity_property.string "RESPECT")]⟩,
     ⟨"Katherines,The", "Germany", []⟩] 3 (by decide) (by decide)⟩

end BasicServer

namespace PushServer

open UserServer hiding addr data_table_name push_status Outcome handle_post

/-! ## Fan-out to a location without a record -/

/-- C29 (fan-out creates a missing record): for a PushStatus request in a world
that answers every request, for every pair (p, r) of the friends list whose
administrative read is answered NotFound with a body that holds no Updates
value, the request sent next is the administrative update of (p, r) with
Updates = the status followed by a newline.  That request is
UpdateEntityAdmin/DataTable/p/r with the body Updates; on a storage whose
DataTable has no record (p, r), which is where `handle_get` of BasicServer
answers the read of (p, r) with NotFound, `handle_put` of BasicServer replies
200 to it first and leaves in DataTable a record (p, r) holding the Updates
field only. -/
theorem push_creates_missing_record {W : Type} (cu : ClientUtils) (net : Net W)
    (p1 p2 status : String) (rest : List String) (json_body : List (String × String)) (w : W)
    (hans : ∀ (w : W) (q : Request), (net w q).2 ≠ none) :
    (∃ out : Outcome W,
      handle_post cu net ⟨push_status :: p1 :: p2 :: status :: rest, json_body⟩ w = some out ∧
      ∀ i f body, (cu.parse_friends_list (json_index json_body "Friends"))[i]? = some f →
        (replay net w out.sent)[2 * i]? = some (some (status_codes.NotFound, body)) →
        cu.get_json_object_prop body "Updates" = "" →
        out.sent[2 * i + 1]? = some ⟨methods.PUT,
          addr ++ "UpdateEntityAdmin/DataTable/" ++ f.1 ++ "/" ++ f.2,
          cu.build_json_value "Updates" (status ++ "\n")⟩) ∧
    (∀ (su : BasicServer.ServerUtils) (storage : BasicServer.Storage)
        (table : List BasicServer.table_entity) (f : String × String),
      storage.lookup "DataTable" = some table →
      BasicServer.retrieve_entity table f.1 f.2 = none →
      (f.2 ≠ "*" → ∀ fuel, BasicServer.handle_get su fuel storage
          ⟨["ReadEntityAdmin", "DataTable", f.1, f.2], []⟩
        = some [(status_codes.NotFound, BasicServer.value.null)]) ∧
      ∃ put : BasicServer.Outcome,
        BasicServer.handle_put su storage
          ⟨["UpdateEntityAdmin", "DataTable", f.1, f.2], [("Updates", status ++ "\n")]⟩
          = some put ∧
        put.replies.head? = some (status_codes.OK, BasicServer.value.null) ∧
        (put.storage.lookup "DataTable").bind (fun t => BasicServer.retrieve_entity t f.1 f.2)
          = some ⟨f.1, f.2,
              [("Updates", BasicServer.entity_property.string (status ++ "\n"))]⟩) := by
  constructor
  · obtain ⟨tr, w1, hpf, hlen, hidx⟩ := push_friends_trace cu net status hans
      (cu.parse_friends_list (json_index json_body "Friends")) { world := w, sent := [] }
    refine ⟨{ reply := some (status_codes.OK, value.null), world := w1, sent := tr }, ?_, ?_⟩
    · simp [handle_post, hpf]
    · intro i f body hf hread hempty
      obtain ⟨read, _, hb, hc⟩ := hidx i f hf
      have hrd : read = (status_codes.NotFound, body) := by
        have := hb.symm.trans hread
        simpa using this
      subst hrd
      rw [hc]
      simp only [update_request, hempty]
      simp [String.append_assoc]
      rfl
  · intro su storage table f hl hnew
    obtain ⟨put, h1, h2, h3⟩ := BasicServer.update_entity_inserts su storage "DataTable" f.1 f.2
      [("Updates", status ++ "\n")] table hl hnew
    refine ⟨?_, put, h1, h2, ?_⟩
    · intro hstar fuel
      simp [BasicServer.handle_get, hl, hstar, hnew]
    · rw [h3]
      simp [BasicServer.merge_properties, BasicServer.set_property]

/-- Witness of C29: Gary's friend (USA, "Shinoda,Mike") has no record, so its
read is answered NotFound; PushStatus with the status NewStatus still sends the
update with Updates = NewStatus and a newline, and on an empty DataTable that
update leaves the record (USA, "Shinoda,Mike") with this Updates field. -/
theorem push_creates_missing_record_witness :
    (∀ (w : List Response) (q : Request),
      (answering (status_codes.NotFound, value.null) w q).2 ≠ none) ∧
    (∃ out : Outcome (List Response),
      handle_post clientUtils (answering (status_codes.NotFound, value.null))
        ⟨[push_status, "CAN", "Gary", "NewStatus"], [("Friends", "USA;Shinoda,Mike")]⟩ []
        = some out ∧
      out.sent[1]? = some ⟨methods.PUT,
        "http://localhost:34568/UpdateEntityAdmin/DataTable/USA/Shinoda,Mike",
        value.object [("Updates", "NewStatus\n")]⟩) ∧
    BasicServer.handle_get (BasicServer.serverUtils (fun _ => none) 0) 0 [("DataTable", [])]
        ⟨["ReadEntityAdmin", "DataTable", "USA", "Shinoda,Mike"], []⟩
      = some [(status_codes.NotFound, BasicServer.value.null)] ∧
    (∃ put : BasicServer.Outcome,
      BasicServer.handle_put (BasicServer.serverUtils (fun _ => none) 0) [("DataTable", [])]
        ⟨["UpdateEntityAdmin", "DataTable", "USA", "Shinoda,Mike"],
          [("Updates", "NewStatus\n")]⟩ = some put ∧
      put.replies.head? = some (status_codes.OK, BasicServer.value.null) ∧
      (put.storage.lookup "DataTable").bind
          (fun t => BasicServer.retrieve_entity t "USA" "Shinoda,Mike")
        = some ⟨"USA", "Shinoda,Mike",
            [("Updates", BasicServer.entity_property.string "NewStatus\n")]⟩) := by
  have hans : ∀ (w : List Response) (q : Request),
      (answering (status_codes.NotFound, value.null) w q).2 ≠ none :=
    fun w q => by cases w <;> simp [answering]
  obtain ⟨⟨out, hout, hidx⟩, hput⟩ := push_creates_missing_record clientUtils
    (answering (status_codes.NotFound, value.null)) "CAN" "Gary" "NewStatus" []
    [("Friends", "USA;Shinoda,Mike")] [] hans
  have hsent : out.sent = [⟨methods.GET,
      "http://localhost:34568/ReadEntityAdmin/DataTable/USA/Shinoda,Mike", value.null⟩,
      ⟨methods.PUT, "http://localhost:34568/UpdateEntityAdmin/DataTable/USA/Shinoda,Mike",
        value.object [("Updates", "NewStatus\n")]⟩] := by
    have h1 : (handle_post clientUtils (answering (status_codes.NotFound, value.null))
        ⟨[push_status, "CAN", "Gary", "NewStatus"], [("Friends", "USA;Shinoda,Mike")]⟩ []).map
          (fun o => o.sent)
        = some [⟨methods.GET,
          "http://localhost:34568/ReadEntityAdmin/DataTable/USA/Shinoda,Mike", value.null⟩,
          ⟨methods.PUT, "http://localhost:34568/UpdateEntityAdmin/DataTable/USA/Shinoda,Mike",
            value.object [("Updates", "NewStatus\n")]⟩] := by decide
    rw [hout] at h1
    simpa using h1
  refine ⟨hans, ⟨out, hout, ?_⟩, ?_, ?_⟩
  · exact hidx 0 ("USA", "Shinoda,Mike") value.null (by decide)
      (by rw [hsent]; decide) (by decide)
  · exact (hput (BasicServer.serverUtils (fun _ => none) 0) [("DataTable", [])] []
      ("USA", "Shinoda,Mike") (by decide) (by decide)).1 (by decide) 0
  · exact (hput (BasicServer.serverUtils (fun _ => none) 0) [("DataTable", [])] []
      ("USA", "Shinoda,Mike") (by decide) (by decide)).2

end PushServer
